import Mathlib

/-!
The debuggee control / event engine of netcoredbg, `src/debug/debugger/main.cpp`.

A shallow embedding of the callback sink (`ManagedCallback`), the step engine
(`RunStep`), the stack walker (`PrintFrames`) and the command loop of `main`.

Conventions of the embedding

* Text (`char*`, `std::string`, `std::stringstream`) is a `List Char`.
* An `HRESULT` is a signed 32-bit integer; `SUCCEEDED` is `0 ≤ hr`.
* Every answer of the debugging interface (and of the helper modules that are
  declared but not defined in `main.cpp`) is a field of `Env`: the functions
  are parametric in what the runtime answers.
* Every call into the interface, every lock operation and every output record
  is appended, in program order, to a trace (`List Act`). The releases done
  by the destructors of `ToRelease` holders are not traced.
* `IfFailRet(e)` is the macro that assigns `Status = e` and returns `Status`
  from the enclosing function when `FAILED(Status)`.
* The fields of `Env` are the answers in force during the one callback or
  command under consideration.
-/

namespace Netcoredbg

/-! ## Basic types -/

/-- Text: the characters of a C string or of a `std::string`. -/
abbrev Str := List Char

/-- Status code of the debugging interface (`HRESULT`, a signed 32-bit value). -/
abbrev HRESULT := Int

/-- The `S_OK` status. -/
def S_OK : HRESULT := 0
/-- The `S_FALSE` status: a success code different from `S_OK`. -/
def S_FALSE : HRESULT := 1
/-- The `E_FAIL` status (`0x80004005` read as a signed 32-bit value). -/
def E_FAIL : HRESULT := -2147467259

/-- The `SUCCEEDED(hr)` test: the sign bit is clear. -/
def SUCCEEDED (hr : HRESULT) : Bool := decide (0 ≤ hr)
/-- The `FAILED(hr)` test: the sign bit is set. -/
def FAILED (hr : HRESULT) : Bool := decide (hr < 0)

/-- Modelled from the spec: the end-of-stack sentinel of the "fetch next"
primitive (`CORDBG_S_AT_END_OF_STACK`, a constant of `corerror.h`, which is
not part of the sources at hand): a success status that is neither `S_OK`
nor `S_FALSE`. -/
def CORDBG_S_AT_END_OF_STACK : HRESULT := 0x00131324

/-- Printf conversion `%i` applied to a 32-bit value cast to `int`. -/
def fmt_i (n : Nat) : Str :=
  let v := n % 2 ^ 32
  if v < 2 ^ 31 then (Nat.repr v).toList else '-' :: (Nat.repr (2 ^ 32 - v)).toList

/-- Printf conversion `%u` applied to a 32-bit value. -/
def fmt_u (n : Nat) : Str := (Nat.repr (n % 2 ^ 32)).toList

/-- Printf conversion `%x` applied to an `HRESULT`. -/
def fmt_x (hr : HRESULT) : Str := Nat.toDigits 16 (hr % 2 ^ 32).toNat

/-- Stream insertion of an unsigned number (`ss << n`). -/
def fmt_dec (n : Nat) : Str := (Nat.repr n).toList

/-- Handle of an `ICorDebugThread`. -/
abbrev ThreadPtr := Nat
/-- Handle of an `ICorDebugModule`. -/
abbrev ModulePtr := Nat
/-- Handle of an `ICorDebugAppDomain`. -/
abbrev DomainPtr := Nat
/-- Handle of an `ICorDebugBreakpoint`. -/
abbrev BreakpointPtr := Nat
/-- Handle of an `ICorDebugStepper`. -/
abbrev StepperPtr := Nat

/-- The `COR_DEBUG_STEP_RANGE` structure: an IL range. -/
structure COR_DEBUG_STEP_RANGE where
  startOffset : Nat
  endOffset : Nat
deriving DecidableEq, Repr

/-- The `StepType` enumeration. -/
inductive StepType where
  | STEP_IN
  | STEP_OVER
  | STEP_OUT
deriving DecidableEq, Repr

/-- The two global mutexes guarding shared pointers. -/
inductive Mutex where
  | g_processMutex
  | g_currentThreadMutex
deriving DecidableEq, Repr

/-- A call into the debugging interface or into one of the helper modules. -/
inductive Call where
  | Continue
  | Stop
  | Terminate
  | Detach
  | CorDebugTerminate
  | GetID (t : ThreadPtr)
  | GetDebugState (t : ThreadPtr)
  | GetUserState (t : ThreadPtr)
  | GetActiveFrame (t : ThreadPtr)
  | AddRef (t : ThreadPtr)
  | Release (t : ThreadPtr)
  | ReleaseProcess
  | FindCurrentBreakpointId (t : ThreadPtr)
  | GetFrameLocation
  | CreateStepper (t : ThreadPtr)
  | SetInterceptMask (mask : Nat)
  | StepOut
  | StepRange (bStepIn : Bool) (range : COR_DEBUG_STEP_RANGE) (cRangeCount : Nat)
  | Step (bStepIn : Bool)
  | GetStepRangeFromCurrentIP (t : ThreadPtr)
  | QueryThread3 (t : ThreadPtr)
  | CreateStackWalk (t : ThreadPtr)
  | StackWalkNext
  | StackWalkGetFrame
  | QueryRuntimeUnwindableFrame
  | QueryILFrame
  | GetFunction
  | GetMethodName
  | GetModuleName (m : ModulePtr)
  | TryLoadModuleSymbols (m : ModulePtr)
  | TryResolveBreakpointsForModule (m : ModulePtr)
  | EnumerateThreads
  | EnumerateAppDomains
  | EnumerateBreakpoints (d : DomainPtr)
  | EnumerateSteppers (d : DomainPtr)
  | Activate (b : BreakpointPtr) (active : Bool)
  | Deactivate (st : StepperPtr)
  | DeleteAllBreakpoints
  | CreateBreakpointInProcess (filename : Str) (linenum : Int)
  | PrintBreakpoint (id : Nat)
  | DeleteBreakpoint (id : Nat)
  | ListVariables
  | ReadMemory (address cb : Nat)
  | SetCoreCLRPath (coreclrPath : Str)
  | CreateVersionStringFromModule (pid : Nat)
  | CreateDebuggingInterfaceFromVersionEx
  | QueryICorDebug
  | Initialize
  | SetManagedHandler
  | CanLaunchOrAttach (pid : Nat)
  | DebugActiveProcess (pid : Nat)
deriving Repr

/-- A value passed to a call; used to compare calls. -/
inductive CallArg where
  | nat (n : Nat)
  | int (i : Int)
  | str (s : Str)
  | bool (b : Bool)
deriving DecidableEq, Repr

/-- The position of a call in the declaration of `Call`, with its arguments. -/
def Call.encode : Call → Nat × List CallArg
  | Call.Continue => (0, [])
  | Call.Stop => (1, [])
  | Call.Terminate => (2, [])
  | Call.Detach => (3, [])
  | Call.CorDebugTerminate => (4, [])
  | Call.GetID t => (5, [CallArg.nat t])
  | Call.GetDebugState t => (6, [CallArg.nat t])
  | Call.GetUserState t => (7, [CallArg.nat t])
  | Call.GetActiveFrame t => (8, [CallArg.nat t])
  | Call.AddRef t => (9, [CallArg.nat t])
  | Call.Release t => (10, [CallArg.nat t])
  | Call.ReleaseProcess => (11, [])
  | Call.FindCurrentBreakpointId t => (12, [CallArg.nat t])
  | Call.GetFrameLocation => (13, [])
  | Call.CreateStepper t => (14, [CallArg.nat t])
  | Call.SetInterceptMask mask => (15, [CallArg.nat mask])
  | Call.StepOut => (16, [])
  | Call.StepRange bStepIn range cRangeCount =>
    (17, [CallArg.bool bStepIn, CallArg.nat range.startOffset, CallArg.nat range.endOffset,
      CallArg.nat cRangeCount])
  | Call.Step bStepIn => (18, [CallArg.bool bStepIn])
  | Call.GetStepRangeFromCurrentIP t => (19, [CallArg.nat t])
  | Call.QueryThread3 t => (20, [CallArg.nat t])
  | Call.CreateStackWalk t => (21, [CallArg.nat t])
  | Call.StackWalkNext => (22, [])
  | Call.StackWalkGetFrame => (23, [])
  | Call.QueryRuntimeUnwindableFrame => (24, [])
  | Call.QueryILFrame => (25, [])
  | Call.GetFunction => (26, [])
  | Call.GetMethodName => (27, [])
  | Call.GetModuleName m => (28, [CallArg.nat m])
  | Call.TryLoadModuleSymbols m => (29, [CallArg.nat m])
  | Call.TryResolveBreakpointsForModule m => (30, [CallArg.nat m])
  | Call.EnumerateThreads => (31, [])
  | Call.EnumerateAppDomains => (32, [])
  | Call.EnumerateBreakpoints d => (33, [CallArg.nat d])
  | Call.EnumerateSteppers d => (34, [CallArg.nat d])
  | Call.Activate b active => (35, [CallArg.nat b, CallArg.bool active])
  | Call.Deactivate st => (36, [CallArg.nat st])
  | Call.DeleteAllBreakpoints => (37, [])
  | Call.CreateBreakpointInProcess filename linenum =>
    (38, [CallArg.str filename, CallArg.int linenum])
  | Call.PrintBreakpoint id => (39, [CallArg.nat id])
  | Call.DeleteBreakpoint id => (40, [CallArg.nat id])
  | Call.ListVariables => (41, [])
  | Call.ReadMemory address cb => (42, [CallArg.nat address, CallArg.nat cb])
  | Call.SetCoreCLRPath coreclrPath => (43, [CallArg.str coreclrPath])
  | Call.CreateVersionStringFromModule pid => (44, [CallArg.nat pid])
  | Call.CreateDebuggingInterfaceFromVersionEx => (45, [])
  | Call.QueryICorDebug => (46, [])
  | Call.Initialize => (47, [])
  | Call.SetManagedHandler => (48, [])
  | Call.CanLaunchOrAttach pid => (49, [CallArg.nat pid])
  | Call.DebugActiveProcess pid => (50, [CallArg.nat pid])

/-- The call at a position of the declaration of `Call`, with the given
arguments. -/
def Call.decode : Nat × List CallArg → Option Call
  | (0, []) => some Call.Continue
  | (1, []) => some Call.Stop
  | (2, []) => some Call.Terminate
  | (3, []) => some Call.Detach
  | (4, []) => some Call.CorDebugTerminate
  | (5, [CallArg.nat t]) => some (Call.GetID t)
  | (6, [CallArg.nat t]) => some (Call.GetDebugState t)
  | (7, [CallArg.nat t]) => some (Call.GetUserState t)
  | (8, [CallArg.nat t]) => some (Call.GetActiveFrame t)
  | (9, [CallArg.nat t]) => some (Call.AddRef t)
  | (10, [CallArg.nat t]) => some (Call.Release t)
  | (11, []) => some Call.ReleaseProcess
  | (12, [CallArg.nat t]) => some (Call.FindCurrentBreakpointId t)
  | (13, []) => some Call.GetFrameLocation
  | (14, [CallArg.nat t]) => some (Call.CreateStepper t)
  | (15, [CallArg.nat mask]) => some (Call.SetInterceptMask mask)
  | (16, []) => some Call.StepOut
  | (17, [CallArg.bool bStepIn, CallArg.nat range0, CallArg.nat range1,
      CallArg.nat cRangeCount]) =>
    some (Call.StepRange bStepIn { startOffset := range0, endOffset := range1 } cRangeCount)
  | (18, [CallArg.bool bStepIn]) => some (Call.Step bStepIn)
  | (19, [CallArg.nat t]) => some (Call.GetStepRangeFromCurrentIP t)
  | (20, [CallArg.nat t]) => some (Call.QueryThread3 t)
  | (21, [CallArg.nat t]) => some (Call.CreateStackWalk t)
  | (22, []) => some Call.StackWalkNext
  | (23, []) => some Call.StackWalkGetFrame
  | (24, []) => some Call.QueryRuntimeUnwindableFrame
  | (25, []) => some Call.QueryILFrame
  | (26, []) => some Call.GetFunction
  | (27, []) => some Call.GetMethodName
  | (28, [CallArg.nat m]) => some (Call.GetModuleName m)
  | (29, [CallArg.nat m]) => some (Call.TryLoadModuleSymbols m)
  | (30, [CallArg.nat m]) => some (Call.TryResolveBreakpointsForModule m)
  | (31, []) => some Call.EnumerateThreads
  | (32, []) => some Call.EnumerateAppDomains
  | (33, [CallArg.nat d]) => some (Call.EnumerateBreakpoints d)
  | (34, [CallArg.nat d]) => some (Call.EnumerateSteppers d)
  | (35, [CallArg.nat b, CallArg.bool active]) => some (Call.Activate b active)
  | (36, [CallArg.nat st]) => some (Call.Deactivate st)
  | (37, []) => some Call.DeleteAllBreakpoints
  | (38, [CallArg.str filename, CallArg.int linenum]) =>
    some (Call.CreateBreakpointInProcess filename linenum)
  | (39, [CallArg.nat id]) => some (Call.PrintBreakpoint id)
  | (40, [CallArg.nat id]) => some (Call.DeleteBreakpoint id)
  | (41, []) => some Call.ListVariables
  | (42, [CallArg.nat address, CallArg.nat cb]) => some (Call.ReadMemory address cb)
  | (43, [CallArg.str coreclrPath]) => some (Call.SetCoreCLRPath coreclrPath)
  | (44, [CallArg.nat pid]) => some (Call.CreateVersionStringFromModule pid)
  | (45, []) => some Call.CreateDebuggingInterfaceFromVersionEx
  | (46, []) => some Call.QueryICorDebug
  | (47, []) => some Call.Initialize
  | (48, []) => some Call.SetManagedHandler
  | (49, [CallArg.nat pid]) => some (Call.CanLaunchOrAttach pid)
  | (50, [CallArg.nat pid]) => some (Call.DebugActiveProcess pid)
  | _ => none

/-- Two calls are equal exactly when their positions and arguments are. -/
instance Call.instDecidableEq : DecidableEq Call := fun a b =>
  decidable_of_iff (a.encode = b.encode)
    ⟨fun h => by
        have ha : Call.decode a.encode = some a := by cases a <;> rfl
        have hb : Call.decode b.encode = some b := by cases b <;> rfl
        rw [h, hb] at ha
        exact (Option.some.inj ha).symm,
      fun h => congrArg Call.encode h⟩

/-- One observable action of the program. -/
inductive Act where
  | out (record : Str)
  | stdout (text : Str)
  | lock (m : Mutex)
  | unlock (m : Mutex)
  | call (c : Call)
  | sleep
  | stderr (text : Str)
deriving DecidableEq, Repr

/-- The trace: actions in program order. -/
abbrev Trace := List Act

/-- Number of `Continue` calls in a trace. -/
def continues (tr : Trace) : Nat := tr.count (Act.call Call.Continue)

/-- The records written through `out_printf`, in order. -/
def records : Trace → List Str
  | [] => []
  | Act.out r :: tr => r :: records tr
  | _ :: tr => records tr


/-! ## Answers of the debugging interface -/

/-- What one `ICorDebugFrame` answers, and what the helper modules answer
about it (`GetFrameLocation`, `TypePrinter::GetMethodName`, `ListVariables`). -/
structure Frame where
  /-- Status of `QueryInterface(IID_ICorDebugRuntimeUnwindableFrame)`. -/
  QueryRuntimeUnwindableFrame : HRESULT
  /-- Status of `QueryInterface(IID_ICorDebugILFrame)`. -/
  QueryILFrame : HRESULT
  /-- Status of `GetFunction`. -/
  GetFunction : HRESULT
  /-- Status of `GetFrameLocation`. -/
  GetFrameLocation : HRESULT
  /-- Line number written by `GetFrameLocation`. -/
  linenum : Nat
  /-- File name written by `GetFrameLocation`. -/
  fullname : Str
  /-- Name written by `TypePrinter::GetMethodName`. -/
  methodName : Str
  /-- Status of `ListVariables`. -/
  ListVariables : HRESULT
  /-- Text written by `ListVariables`. -/
  varlist : Str
deriving DecidableEq, Repr

/-- One position of an `ICorDebugStackWalk`. -/
structure WalkPos where
  /-- Status returned by the `Next()` call that moves the walker onto this
  position. No such call is made for the position the walker starts on: the
  loop of `PrintFrames` begins with `Status = S_OK`. -/
  next : HRESULT
  /-- Status of `GetFrame` at this position. -/
  getFrame : HRESULT
  /-- The frame object delivered by `GetFrame`. -/
  frame : Frame
deriving DecidableEq, Repr

/-- An `ICorDebugStackWalk`: the positions it delivers, innermost first, before
`Next()` reports `CORDBG_S_AT_END_OF_STACK`, and what it answers when it
stands past the last frame (which is where the walker of an empty stack
starts). -/
structure StackWalk where
  frames : List WalkPos
  pastEnd : WalkPos
deriving DecidableEq, Repr

/-- What one thread of `EnumerateThreads` answers to `PrintThread`. -/
structure ThreadInfo where
  ptr : ThreadPtr
  GetID : HRESULT
  threadId : Nat
  GetDebugState : HRESULT
  /-- The `CorDebugThreadState` written: `true` for `THREAD_RUN`. -/
  running : Bool
  GetUserState : HRESULT
  ustate : Nat
deriving DecidableEq, Repr

/-- One app domain of the debuggee: its breakpoints and its steppers, which
the enumerators deliver one by one (each `Next` succeeding) when
`EnumerateBreakpoints`, respectively `EnumerateSteppers`, succeeds, and the
statuses of these two calls. -/
structure DomainInfo where
  ptr : DomainPtr
  EnumerateBreakpoints : HRESULT
  breakpoints : List BreakpointPtr
  EnumerateSteppers : HRESULT
  steppers : List StepperPtr
deriving DecidableEq, Repr

/-- The answers of the debugging interface and of the helper modules. For an
out-parameter the answer is the content of the variable after the call. -/
structure Env where
  GetID : ThreadPtr → HRESULT × Nat
  GetActiveFrame : ThreadPtr → HRESULT × Frame
  FindCurrentBreakpointId : ThreadPtr → HRESULT × Nat
  GetModuleName : ModulePtr → Str
  TryLoadModuleSymbols : ModulePtr → HRESULT
  TryResolveBreakpointsForModule : ModulePtr → HRESULT
  CreateStepper : ThreadPtr → HRESULT
  /-- The constant `INTERCEPT_ALL` of `cordebug.h` (a 32-bit enumerator). -/
  INTERCEPT_ALL : Nat
  /-- The constant `INTERCEPT_SECURITY` of `cordebug.h`. -/
  INTERCEPT_SECURITY : Nat
  /-- The constant `INTERCEPT_CLASS_INIT` of `cordebug.h`. -/
  INTERCEPT_CLASS_INIT : Nat
  SetInterceptMask : Nat → HRESULT
  StepOut : HRESULT
  StepRange : Bool → COR_DEBUG_STEP_RANGE → HRESULT
  Step : Bool → HRESULT
  GetStepRangeFromCurrentIP : ThreadPtr → HRESULT × COR_DEBUG_STEP_RANGE
  QueryThread3 : ThreadPtr → HRESULT
  CreateStackWalk : ThreadPtr → HRESULT × StackWalk
  EnumerateThreads : HRESULT × List ThreadInfo
  /-- The values of the `CorDebugUserState` enumerators of `cordebug.h`, in the
  order of the table `states` of `PrintThread` (USER_STOP_REQUESTED,
  USER_SUSPEND_REQUESTED, USER_BACKGROUND, USER_UNSTARTED, USER_STOPPED,
  USER_WAIT_SLEEP_JOIN, USER_SUSPENDED, USER_UNSAFE_POINT, USER_THREADPOOL). -/
  userStateValues : List Nat
  /-- Answer of `EnumerateAppDomains`: the status and the app domains of the
  process, which the enumerator delivers one by one when the call succeeds. -/
  EnumerateAppDomains : HRESULT × List DomainInfo
  Continue : HRESULT
  Stop : HRESULT
  Terminate : HRESULT
  Detach : HRESULT
  CreateBreakpointInProcess : Str → Int → HRESULT × Nat
  PrintBreakpoint : Nat → HRESULT × Str
  DeleteBreakpoint : Nat → HRESULT
  /-- The value of `sysconf(_SC_PAGESIZE)`. -/
  sysconfPageSize : Nat
  /-- Answer of `g_process->ReadMemory(address, cb, buffer, &bytesRead)`: the
  status and the content of `bytesRead` after the call. -/
  ReadMemory : Nat → Nat → HRESULT × Nat
  /-- The lines of the file `/proc/<pid>/maps` (none when it cannot be opened). -/
  procMaps : Nat → List Str
  CreateVersionStringFromModule : Nat → HRESULT
  CreateDebuggingInterfaceFromVersionEx : HRESULT
  QueryICorDebug : HRESULT
  Initialize : HRESULT
  SetManagedHandler : HRESULT
  CanLaunchOrAttach : Nat → HRESULT
  /-- Answer of `DebugActiveProcess(pid, FALSE, &pProcess)`: the status and the
  process handle. -/
  DebugActiveProcess : Nat → HRESULT × Nat

/-! ## Shared session state -/

/-- The global mutable state of the debugger together with the trace of what
it has done so far. -/
structure Session where
  /-- The global `g_process` (`none` is `NULL`). -/
  g_process : Option Nat
  /-- The global `g_currentThread` (`none` is `nullptr`). -/
  g_currentThread : Option ThreadPtr
  /-- The global `g_processExited`. -/
  g_processExited : Bool
  trace : Trace
deriving DecidableEq, Repr

/-- Append one action to the trace. -/
def Session.act (s : Session) (a : Act) : Session :=
  { s with trace := s.trace ++ [a] }

/-- Append the actions performed by a called function to the trace. -/
def Session.acts (s : Session) (l : Trace) : Session :=
  { s with trace := s.trace ++ l }

/-- The state at program start: the initialisers of the globals. -/
def Session.init : Session :=
  { g_process := none, g_currentThread := none, g_processExited := false, trace := [] }

/-! ## Location printing

Functions that do not touch the globals return, next to their results, the
actions they performed; the caller appends them to the trace. -/

/-- The function `PrintFrameLocation(pFrame, output)`: status, content of
`output` afterwards, actions performed. -/
def PrintFrameLocation (pFrame : Frame) (output : Str) : HRESULT × Str × Trace :=
  let Status := pFrame.GetFrameLocation
  let tr := [Act.call Call.GetFrameLocation]
  if FAILED Status then (Status, output, tr) else
  (S_OK, "line=\"".toList ++ fmt_dec pFrame.linenum ++ "\",fullname=\"".toList
          ++ pFrame.fullname ++ "\"".toList, tr)

/-- The function `PrintLocation(pThread, output)`: status, content of `output`
afterwards, actions performed. -/
def PrintLocation (env : Env) (pThread : ThreadPtr) (output : Str) : HRESULT × Str × Trace :=
  let Status := (env.GetActiveFrame pThread).1
  let pFrame := (env.GetActiveFrame pThread).2
  let tr := [Act.call (Call.GetActiveFrame pThread)]
  if FAILED Status then (Status, output, tr) else
  let Status := pFrame.GetFrameLocation
  let tr := tr ++ [Act.call Call.GetFrameLocation]
  if FAILED Status then (Status, output, tr) else
  (S_OK, "line=\"".toList ++ fmt_dec pFrame.linenum ++ "\",fullname=\"".toList
          ++ pFrame.fullname ++ "\"".toList, tr)

/-! ## The callback sink `ManagedCallback` -/

namespace ManagedCallback

/-- The method `HandleEvent(controller, eventName)`. -/
def HandleEvent (eventName : Str) (s : Session) : Session :=
  let s := s.act (Act.out ("=message,text=\"event received ".toList ++ eventName ++ "\"\n".toList))
  s.act (Act.call Call.Continue)

/-- The block `{ lock_guard lock(g_currentThreadMutex); if (g_currentThread)
g_currentThread->Release(); pThread->AddRef(); g_currentThread = pThread; }`
that closes each of the three stop callbacks. -/
def storeCurrentThread (pThread : ThreadPtr) (s : Session) : Session :=
  let s := s.act (Act.lock Mutex.g_currentThreadMutex)
  let s := match s.g_currentThread with
    | some old => s.act (Act.call (Call.Release old))
    | none => s
  let s := s.act (Act.call (Call.AddRef pThread))
  let s := { s with g_currentThread := some pThread }
  s.act (Act.unlock Mutex.g_currentThreadMutex)

/-- The callback `Breakpoint(pAppDomain, pThread, pBreakpoint)`. -/
def Breakpoint (env : Env) (pThread : ThreadPtr) (s : Session) : Session :=
  let id := (env.FindCurrentBreakpointId pThread).2
  let s := s.act (Act.call (Call.FindCurrentBreakpointId pThread))
  let r := PrintLocation env pThread []
  let output := r.2.1
  let s := s.acts r.2.2
  let threadId := (env.GetID pThread).2
  let s := s.act (Act.call (Call.GetID pThread))
  let s := s.act (Act.out ("*stopped,reason=\"breakpoint-hit\",thread-id=\"".toList ++ fmt_i threadId
      ++ "\",stopped-threads=\"all\",bkptno=\"".toList ++ fmt_u id ++ "\",".toList
      ++ output ++ "\n".toList))
  storeCurrentThread pThread s

/-- The callback `StepComplete(pAppDomain, pThread, pStepper, reason)`. -/
def StepComplete (env : Env) (pThread : ThreadPtr) (s : Session) : Session :=
  let r := PrintLocation env pThread []
  let output := r.2.1
  let s := s.acts r.2.2
  let threadId := (env.GetID pThread).2
  let s := s.act (Act.call (Call.GetID pThread))
  let s := s.act (Act.out ("*stopped,reason=\"end-stepping-range\",thread-id=\"".toList
      ++ fmt_i threadId ++ "\",stopped-threads=\"all\",".toList ++ output ++ "\n".toList))
  storeCurrentThread pThread s

/-- The callback `Exception(pAppDomain, pThread, unhandled)` of
`ICorDebugManagedCallback`. -/
def Exception (env : Env) (pThread : ThreadPtr) (unhandled : Bool) (s : Session) : Session :=
  let r := PrintLocation env pThread []
  let s := s.acts r.2.2
  let threadId := (env.GetID pThread).2
  let s := s.act (Act.call (Call.GetID pThread))
  if unhandled then
    let hr := (env.GetActiveFrame pThread).1
    let pFrame := (env.GetActiveFrame pThread).2
    let s := s.act (Act.call (Call.GetActiveFrame pThread))
    let r := if SUCCEEDED hr then PrintFrameLocation pFrame [] else (hr, [], [])
    let output := r.2.1
    let s := s.acts r.2.2
    let s := s.act (Act.out ("*stopped,reason=\"exception-received\",exception-stage=\"".toList
        ++ (if unhandled then "unhandled".toList else "handled".toList)
        ++ "\",thread-id=\"".toList ++ fmt_i threadId
        ++ "\",stopped-threads=\"all\",".toList ++ output ++ "\n".toList))
    storeCurrentThread pThread s
  else
    let s := s.act (Act.out ("=message,text=\"Exception thrown: '".toList
        ++ "<exceptions.name>".toList ++ "' in ".toList ++ "<short.module.name>".toList
        ++ "\\n\",send-to=\"output-window\",source=\"target-exception\"\n".toList))
    s.act (Act.call Call.Continue)

/-- The callback `CreateProcess(pProcess)`. -/
def CreateProcess (s : Session) : Session :=
  s.act (Act.call Call.Continue)

/-- The callback `ExitProcess(pProcess)`. -/
def ExitProcess (s : Session) : Session :=
  let s := s.act (Act.out ("*stopped,reason=\"exited\",exit-code=\"".toList ++ fmt_i 0
      ++ "\"\n".toList))
  { s with g_processExited := true }

/-- The callback `CreateThread(pAppDomain, thread)`. -/
def CreateThread (env : Env) (thread : ThreadPtr) (s : Session) : Session :=
  let threadId := (env.GetID thread).2
  let s := s.act (Act.call (Call.GetID thread))
  let s := s.act (Act.out ("=thread-created,id=\"".toList ++ fmt_i threadId ++ "\"\n".toList))
  s.act (Act.call Call.Continue)

/-- The callback `ExitThread(pAppDomain, thread)`. -/
def ExitThread (s : Session) : Session :=
  HandleEvent "ExitThread".toList s

/-- The callback `LoadModule(pAppDomain, pModule)`. -/
def LoadModule (env : Env) (pModule : ModulePtr) (s : Session) : Session :=
  let name := env.GetModuleName pModule
  let s := s.act (Act.call (Call.GetModuleName pModule))
  let s := if !name.isEmpty then
      s.act (Act.out ("=library-loaded,target-name=\"".toList ++ name ++ "\"\n".toList))
    else s
  let s := s.act (Act.call (Call.TryLoadModuleSymbols pModule))
  let s := s.act (Act.call (Call.TryResolveBreakpointsForModule pModule))
  s.act (Act.call Call.Continue)

/-- The callback `CreateAppDomain(pProcess, pAppDomain)`. -/
def CreateAppDomain (s : Session) : Session :=
  s.act (Act.call Call.Continue)

/-- The callback `LoadAssembly(pAppDomain, pAssembly)`. -/
def LoadAssembly (s : Session) : Session :=
  s.act (Act.call Call.Continue)

/-- The callback `UnloadAssembly(pAppDomain, pAssembly)`, whose body is
`{ return S_OK; }`. -/
def UnloadAssembly (s : Session) : Session :=
  s

/-- The callback `DebuggerError(pProcess, errorHR, errorCode)`: a bare `printf`. -/
def DebuggerError (s : Session) : Session :=
  s.act (Act.stdout "DebuggerError\n".toList)

/-- The callback `Exception(pAppDomain, pThread, pFrame, nOffset, dwEventType,
dwFlags)` of `ICorDebugManagedCallback2`. -/
def Exception2 (s : Session) : Session :=
  s.act (Act.call Call.Continue)

end ManagedCallback

/-- A callback delivered by the runtime to `ManagedCallback`, with the
arguments the handlers look at. -/
inductive Event where
  | Breakpoint (pThread : ThreadPtr)
  | StepComplete (pThread : ThreadPtr)
  | Break (thread : ThreadPtr)
  | Exception (pThread : ThreadPtr) (unhandled : Bool)
  | EvalComplete (pThread : ThreadPtr)
  | EvalException (pThread : ThreadPtr)
  | CreateProcess
  | ExitProcess
  | CreateThread (thread : ThreadPtr)
  | ExitThread (thread : ThreadPtr)
  | LoadModule (pModule : ModulePtr)
  | UnloadModule (pModule : ModulePtr)
  | LoadClass
  | UnloadClass
  | DebuggerError
  | LogMessage (pThread : ThreadPtr)
  | LogSwitch (pThread : ThreadPtr)
  | CreateAppDomain
  | ExitAppDomain
  | LoadAssembly
  | UnloadAssembly
  | ControlCTrap
  | NameChange (pThread : ThreadPtr)
  | UpdateModuleSymbols (pModule : ModulePtr)
  | EditAndContinueRemap (pThread : ThreadPtr)
  | BreakpointSetError (pThread : ThreadPtr)
  | FunctionRemapOpportunity (pThread : ThreadPtr)
  | CreateConnection
  | ChangeConnection
  | DestroyConnection
  | Exception2 (pThread : ThreadPtr)
  | ExceptionUnwind (pThread : ThreadPtr)
  | FunctionRemapComplete (pThread : ThreadPtr)
  | MDANotification (pThread : ThreadPtr)
deriving DecidableEq, Repr

/-- Delivery of one callback: the virtual dispatch on `ManagedCallback`. The
handlers whose body is `{ return S_OK; }` leave the session as it is. -/
def ManagedCallback.deliver (env : Env) (ev : Event) (s : Session) : Session :=
  match ev with
  | Event.Breakpoint pThread => ManagedCallback.Breakpoint env pThread s
  | Event.StepComplete pThread => ManagedCallback.StepComplete env pThread s
  | Event.Break _ => ManagedCallback.HandleEvent "Break".toList s
  | Event.Exception pThread unhandled => ManagedCallback.Exception env pThread unhandled s
  | Event.EvalComplete _ => s
  | Event.EvalException _ => s
  | Event.CreateProcess => ManagedCallback.CreateProcess s
  | Event.ExitProcess => ManagedCallback.ExitProcess s
  | Event.CreateThread thread => ManagedCallback.CreateThread env thread s
  | Event.ExitThread _ => ManagedCallback.ExitThread s
  | Event.LoadModule pModule => ManagedCallback.LoadModule env pModule s
  | Event.UnloadModule _ => ManagedCallback.HandleEvent "UnloadModule".toList s
  | Event.LoadClass => ManagedCallback.HandleEvent "LoadClass".toList s
  | Event.UnloadClass => ManagedCallback.HandleEvent "UnloadClass".toList s
  | Event.DebuggerError => ManagedCallback.DebuggerError s
  | Event.LogMessage _ => s
  | Event.LogSwitch _ => s
  | Event.CreateAppDomain => ManagedCallback.CreateAppDomain s
  | Event.ExitAppDomain => ManagedCallback.HandleEvent "ExitAppDomain".toList s
  | Event.LoadAssembly => ManagedCallback.LoadAssembly s
  | Event.UnloadAssembly => ManagedCallback.UnloadAssembly s
  | Event.ControlCTrap => s
  | Event.NameChange _ => s
  | Event.UpdateModuleSymbols _ => s
  | Event.EditAndContinueRemap _ => s
  | Event.BreakpointSetError _ => s
  | Event.FunctionRemapOpportunity _ => s
  | Event.CreateConnection => s
  | Event.ChangeConnection => s
  | Event.DestroyConnection => s
  | Event.Exception2 _ => ManagedCallback.Exception2 s
  | Event.ExceptionUnwind _ => s
  | Event.FunctionRemapComplete _ => s
  | Event.MDANotification _ => s

/-! ## The step engine -/

/-- The local `mask` of `RunStep`:
`INTERCEPT_ALL & ~(INTERCEPT_SECURITY | INTERCEPT_CLASS_INIT)` on 32 bits. -/
def RunStep.mask (env : Env) : Nat :=
  env.INTERCEPT_ALL &&& ((2 ^ 32 - 1) ^^^ (env.INTERCEPT_SECURITY ||| env.INTERCEPT_CLASS_INIT))

/-- The function `RunStep(pThread, stepType)`: status and actions performed. -/
def RunStep (env : Env) (pThread : ThreadPtr) (stepType : StepType) : HRESULT × Trace :=
  let Status := env.CreateStepper pThread
  let tr := [Act.call (Call.CreateStepper pThread)]
  if FAILED Status then (Status, tr) else
  let mask := RunStep.mask env
  let Status := env.SetInterceptMask mask
  let tr := tr ++ [Act.call (Call.SetInterceptMask mask)]
  if FAILED Status then (Status, tr) else
  if stepType = StepType.STEP_OUT then
    let Status := env.StepOut
    let tr := tr ++ [Act.call Call.StepOut]
    if FAILED Status then (Status, tr) else (S_OK, tr)
  else
    let bStepIn := decide (stepType = StepType.STEP_IN)
    let hrRange := (env.GetStepRangeFromCurrentIP pThread).1
    let range := (env.GetStepRangeFromCurrentIP pThread).2
    let tr := tr ++ [Act.call (Call.GetStepRangeFromCurrentIP pThread)]
    if SUCCEEDED hrRange then
      let Status := env.StepRange bStepIn range
      let tr := tr ++ [Act.call (Call.StepRange bStepIn range 1)]
      if FAILED Status then (Status, tr) else (S_OK, tr)
    else
      let Status := env.Step bStepIn
      let tr := tr ++ [Act.call (Call.Step bStepIn)]
      if FAILED Status then (Status, tr) else (S_OK, tr)

/-- The stepping requests (`StepOut`, `StepRange`, `Step`) of a trace, in order. -/
def stepRequests : Trace → List Call
  | [] => []
  | Act.call Call.StepOut :: tr => Call.StepOut :: stepRequests tr
  | Act.call (Call.StepRange b r n) :: tr => Call.StepRange b r n :: stepRequests tr
  | Act.call (Call.Step b) :: tr => Call.Step b :: stepRequests tr
  | _ :: tr => stepRequests tr

/-- The range lookups (`GetStepRangeFromCurrentIP`) of a trace, in order. -/
def rangeLookups : Trace → List ThreadPtr
  | [] => []
  | Act.call (Call.GetStepRangeFromCurrentIP t) :: tr => t :: rangeLookups tr
  | _ :: tr => rangeLookups tr

/-- The steppers created (`CreateStepper`) in a trace, in order. -/
def steppersCreated : Trace → List ThreadPtr
  | [] => []
  | Act.call (Call.CreateStepper t) :: tr => t :: steppersCreated tr
  | _ :: tr => steppersCreated tr

/-! ## The stack walker -/

/-- The separator `(currentFrame != 0 ? "," : "")`. -/
def PrintFrames.sep (currentFrame : Nat) : Str :=
  if currentFrame ≠ 0 then ",".toList else "".toList

/-- The part of the loop body of `PrintFrames` that follows a successful
`GetFrame`, up to the `continue` or the end of the body: the text inserted
into `ss` for the frame at level `currentFrame`, and the actions performed. -/
def PrintFrames.frameEntry (currentFrame : Nat) (p : WalkPos) : Str × Trace :=
  if p.getFrame = S_FALSE then
    (PrintFrames.sep currentFrame ++ "frame=\x7blevel=\"".toList ++ fmt_dec currentFrame
      ++ "\",func=\"[NativeStackFrame]\"\x7d".toList, [])
  else
  let tr := [Act.call Call.QueryRuntimeUnwindableFrame]
  if SUCCEEDED p.frame.QueryRuntimeUnwindableFrame then
    (PrintFrames.sep currentFrame ++ "frame=\x7blevel=\"".toList ++ fmt_dec currentFrame
      ++ "\",func=\"[RuntimeUnwindableFrame]\"\x7d".toList, tr)
  else
  let tr := tr ++ [Act.call Call.QueryILFrame]
  if FAILED p.frame.QueryILFrame then
    (PrintFrames.sep currentFrame ++ "frame=\x7blevel=\"".toList ++ fmt_dec currentFrame
      ++ "\",func=\"?\"\x7d".toList, tr)
  else
  let tr := tr ++ [Act.call Call.GetFunction]
  if FAILED p.frame.GetFunction then
    (PrintFrames.sep currentFrame ++ "frame=\x7blevel=\"".toList ++ fmt_dec currentFrame
      ++ "\",func=\"[IL Stub or LCG]\"\x7d".toList, tr)
  else
  let frameLocation := (PrintFrameLocation p.frame []).2.1
  let tr := tr ++ (PrintFrameLocation p.frame []).2.2
  let ss := PrintFrames.sep currentFrame ++ "frame=\x7blevel=\"".toList ++ fmt_dec currentFrame
      ++ "\",".toList
  let ss := if !frameLocation.isEmpty then ss ++ frameLocation ++ ",".toList else ss
  let tr := tr ++ [Act.call Call.GetMethodName]
  (ss ++ "func=\"".toList ++ p.frame.methodName ++ "\"\x7d".toList, tr)

/-- The loop `for (Status = S_OK; ; Status = pStackWalk->Next())` of
`PrintFrames`, entered at the top of one iteration: the first argument lists
the positions the walker still delivers, the one it stands on first;
`currentFrame` is the counter after the `currentFrame++` of this iteration,
`Status` the status the iteration starts with, `ss` the stream so far and `tr`
the actions so far. `Next()` answers with the `next` status of the position
it moves onto and with `CORDBG_S_AT_END_OF_STACK` when no position is left.
The result is the status returned, the content of `output` on return (set
only on success) and the actions performed. -/
def PrintFrames.loop (output : Str) (pastEnd : WalkPos) :
    List WalkPos → Nat → HRESULT → Str → Trace → HRESULT × Str × Trace
  | [], currentFrame, Status, ss, tr =>
    if Status = CORDBG_S_AT_END_OF_STACK then (S_OK, ss ++ "]".toList, tr)
    else if FAILED Status then (Status, output, tr)
    else
      let tr := tr ++ [Act.call Call.StackWalkGetFrame]
      if FAILED pastEnd.getFrame then (pastEnd.getFrame, output, tr)
      else
        let e := PrintFrames.frameEntry currentFrame pastEnd
        (S_OK, ss ++ e.1 ++ "]".toList, tr ++ e.2 ++ [Act.call Call.StackWalkNext])
  | p :: rest, currentFrame, Status, ss, tr =>
    if Status = CORDBG_S_AT_END_OF_STACK then (S_OK, ss ++ "]".toList, tr)
    else if FAILED Status then (Status, output, tr)
    else
      let tr := tr ++ [Act.call Call.StackWalkGetFrame]
      if FAILED p.getFrame then (p.getFrame, output, tr)
      else
        let e := PrintFrames.frameEntry currentFrame p
        let Status := match rest with
          | [] => CORDBG_S_AT_END_OF_STACK
          | q :: _ => q.next
        PrintFrames.loop output pastEnd rest (currentFrame + 1) Status (ss ++ e.1)
          (tr ++ e.2 ++ [Act.call Call.StackWalkNext])

/-- The function `PrintFrames(pThread, output)`: status, content of `output`
afterwards, actions performed. -/
def PrintFrames (env : Env) (pThread : ThreadPtr) (output : Str) : HRESULT × Str × Trace :=
  let Status := env.QueryThread3 pThread
  let tr := [Act.call (Call.QueryThread3 pThread)]
  if FAILED Status then (Status, output, tr) else
  let Status := (env.CreateStackWalk pThread).1
  let pStackWalk := (env.CreateStackWalk pThread).2
  let tr := tr ++ [Act.call (Call.CreateStackWalk pThread)]
  if FAILED Status then (Status, output, tr) else
  PrintFrames.loop output pStackWalk.pastEnd pStackWalk.frames 0 S_OK "stack=[".toList tr

/-- The entries of the frames `fs`, the first one at level `k`: the texts the
loop inserts for them, in order. -/
def PrintFrames.entriesFrom : Nat → List WalkPos → List Str
  | _, [] => []
  | k, p :: ps => (PrintFrames.frameEntry k p).1 :: PrintFrames.entriesFrom (k + 1) ps

/-- The text of a frame entry between `frame={level="i",` and the closing
brace, as the five branches of the loop body write it. -/
def PrintFrames.frameFields (p : WalkPos) : Str :=
  if p.getFrame = S_FALSE then "func=\"[NativeStackFrame]\"".toList
  else if SUCCEEDED p.frame.QueryRuntimeUnwindableFrame then
    "func=\"[RuntimeUnwindableFrame]\"".toList
  else if FAILED p.frame.QueryILFrame then "func=\"?\"".toList
  else if FAILED p.frame.GetFunction then "func=\"[IL Stub or LCG]\"".toList
  else
    (if !(PrintFrameLocation p.frame []).2.1.isEmpty
      then (PrintFrameLocation p.frame []).2.1 ++ ",".toList else [])
    ++ "func=\"".toList ++ p.frame.methodName ++ "\"".toList

/-- One frame entry without its separator: `frame={level="i",<fields>}`. -/
def PrintFrames.entryText (level : Nat) (p : WalkPos) : Str :=
  "frame=\x7blevel=\"".toList ++ fmt_dec level ++ "\",".toList
    ++ PrintFrames.frameFields p ++ "\x7d".toList

/-- The entries `entryText k p0, entryText (k+1) p1, ...` of a list of frames. -/
def PrintFrames.entryTextsFrom : Nat → List WalkPos → List Str
  | _, [] => []
  | k, p :: ps => PrintFrames.entryText k p :: PrintFrames.entryTextsFrom (k + 1) ps

/-! ## Thread listing -/

/-- The names of the table `states` of `PrintThread`, in order. -/
def PrintThread.stateNames : List Str :=
  ["USER_STOP_REQUESTED".toList, "USER_SUSPEND_REQUESTED".toList, "USER_BACKGROUND".toList,
   "USER_UNSTARTED".toList, "USER_STOPPED".toList, "USER_WAIT_SLEEP_JOIN".toList,
   "USER_SUSPENDED".toList, "USER_UNSAFE_POINT".toList, "USER_THREADPOOL".toList]

/-- The loop of `PrintThread` that builds `user_state`. -/
def PrintThread.userState (ustate : Nat) : List (Nat × Str) → Str → Str
  | [], user_state => user_state
  | (val, name) :: states, user_state =>
    if ustate &&& val ≠ 0 then
      PrintThread.userState ustate states
        ((if !user_state.isEmpty then user_state ++ "|".toList else user_state) ++ name)
    else PrintThread.userState ustate states user_state

/-- The function `PrintThread(pThread, output)`. -/
def PrintThread (env : Env) (pThread : ThreadInfo) (output : Str) : HRESULT × Str × Trace :=
  let tr := [Act.call (Call.GetID pThread.ptr)]
  if FAILED pThread.GetID then (pThread.GetID, output, tr) else
  let tr := tr ++ [Act.call (Call.GetDebugState pThread.ptr)]
  if FAILED pThread.GetDebugState then (pThread.GetDebugState, output, tr) else
  let tr := tr ++ [Act.call (Call.GetUserState pThread.ptr)]
  if FAILED pThread.GetUserState then (pThread.GetUserState, output, tr) else
  let user_state := PrintThread.userState pThread.ustate
    (env.userStateValues.zip PrintThread.stateNames) []
  (S_OK, "\x7bid=\"".toList ++ fmt_dec pThread.threadId ++ "\",name=\"<No name>\",state=\"".toList
      ++ (if pThread.running then "running".toList else "stopped".toList)
      ++ "-".toList ++ user_state ++ "\"\x7d".toList, tr)

/-- The `while` loop of `PrintThreadsState` over the threads the enumerator
delivers: stream, separator and actions so far. -/
def PrintThreadsState.loop (env : Env) : List ThreadInfo → Str → Str → Trace → Str × Trace
  | [], ss, _, tr => (ss, tr)
  | pThread :: threads, ss, sep, tr =>
    let r := PrintThread env pThread []
    PrintThreadsState.loop env threads (ss ++ sep ++ r.2.1) ",".toList (tr ++ r.2.2)

/-- The function `PrintThreadsState(controller, output)`. -/
def PrintThreadsState (env : Env) (output : Str) : HRESULT × Str × Trace :=
  let Status := env.EnumerateThreads.1
  let tr := [Act.call Call.EnumerateThreads]
  if FAILED Status then (Status, output, tr) else
  let r := PrintThreadsState.loop env env.EnumerateThreads.2 "threads=[".toList "".toList tr
  (S_OK, r.1 ++ "]".toList, r.2)

/-! ## Teardown helpers -/

/-- The function `DisableAllBreakpointsAndSteppersInAppDomain(pAppDomain)`. -/
def DisableAllBreakpointsAndSteppersInAppDomain (d : DomainInfo) : HRESULT × Trace :=
  let tr := [Act.call (Call.EnumerateBreakpoints d.ptr)]
  let tr := if SUCCEEDED d.EnumerateBreakpoints
    then tr ++ d.breakpoints.map (fun b => Act.call (Call.Activate b false)) else tr
  let tr := tr ++ [Act.call Call.DeleteAllBreakpoints]
  let tr := tr ++ [Act.call (Call.EnumerateSteppers d.ptr)]
  let tr := if SUCCEEDED d.EnumerateSteppers
    then tr ++ d.steppers.map (fun st => Act.call (Call.Deactivate st)) else tr
  (S_OK, tr)

/-- The function `DisableAllBreakpointsAndSteppers(pProcess)`. -/
def DisableAllBreakpointsAndSteppers (env : Env) : HRESULT × Trace :=
  let Status := env.EnumerateAppDomains.1
  let tr := [Act.call Call.EnumerateAppDomains]
  if FAILED Status then (Status, tr) else
  (S_OK, tr ++ (env.EnumerateAppDomains.2.map
      (fun d => (DisableAllBreakpointsAndSteppersInAppDomain d).2)).flatten)

/-! ## Library functions used by the command loop

The buffer filled by `fgets` is the list of the characters read; a NUL among
them is stored like any other character, and the C string that `strlen`,
`strchr` and `%s` see ends before it. -/

/-- The function `fgets` reading from the remaining input, `m` characters at
most: the characters read (up to and including the first newline) and the
input left. -/
def fgetsChars : Nat → Str → Str × Str
  | 0, stdin => ([], stdin)
  | _ + 1, [] => ([], [])
  | m + 1, c :: cs =>
    if c = '\n' then ([c], cs) else ((fgetsChars m cs).1.cons c, (fgetsChars m cs).2)

/-- The call `fgets(inputBuffer, n, stdin)`: `none` at end of input. -/
def fgets (n : Nat) (stdin : Str) : Option (Str × Str) :=
  if stdin = [] then none else some (fgetsChars (n - 1) stdin)

/-- The C string held in a buffer: the characters before the first NUL. -/
def cstring (buffer : Str) : Str :=
  buffer.takeWhile (fun c => decide (c ≠ Char.ofNat 0))

/-- The C function `strlen`. -/
def strlen (buffer : Str) : Nat := (cstring buffer).length

/-- The functions `strchr(s, ch)`, on the characters of a C string, and
`std::string::find(ch)`: index of the first occurrence. -/
def strchr : Str → Char → Option Nat
  | [], _ => none
  | c :: cs, ch => if c = ch then some 0 else (strchr cs ch).map (fun i => i + 1)

/-- The function `std::string::rfind(ch)`: index of the last occurrence. -/
def rfind : Str → Char → Option Nat
  | [], _ => none
  | c :: cs, ch =>
    match rfind cs ch with
    | some i => some (i + 1)
    | none => if c = ch then some 0 else none

/-- The function `std::string::substr(pos, len)` for `pos ≤ size()`. -/
def substr (s : Str) (pos len : Nat) : Str := (s.drop pos).take len

/-- The C function `isspace` in the "C" locale. -/
def isspace (c : Char) : Bool :=
  c = ' ' || c = '\t' || c = '\n' || c = Char.ofNat 11 || c = Char.ofNat 12 || c = '\r'

/-- The C function `isdigit`. -/
def isdigit (c : Char) : Bool := decide ('0'.toNat ≤ c.toNat ∧ c.toNat ≤ '9'.toNat)

/-- Value of a string of decimal digits. -/
def decimalValue (ds : Str) : Nat :=
  ds.foldl (fun acc c => 10 * acc + (c.toNat - '0'.toNat)) 0

/-- The conversion shared by `strtol` and `strtoul` in base 10, before range
checks: skip white space, take an optional sign, then the longest run of
digits; `none` when there is no digit to convert. -/
def parseDecimal (s : Str) : Option Int :=
  let s := s.dropWhile isspace
  let neg := decide (s.head? = some '-')
  let s := if s.head? = some '-' ∨ s.head? = some '+' then s.tail else s
  let ds := s.takeWhile isdigit
  if ds = [] then none
  else some (if neg then -(decimalValue ds : Int) else (decimalValue ds : Int))

/-- The exceptions `std::stoi` and `std::stoul` throw. -/
inductive StdException where
  | invalid_argument
  | out_of_range
deriving DecidableEq, Repr

/-- The function `std::stoi(str)`: throws `std::invalid_argument` when no
conversion can be performed and `std::out_of_range` outside the range of `int`. -/
def stoi (s : Str) : Except StdException Int :=
  match parseDecimal s with
  | none => Except.error StdException.invalid_argument
  | some v =>
    if v < -2147483648 ∨ 2147483647 < v then Except.error StdException.out_of_range
    else Except.ok v

/-- The function `std::stoul(str)` for a 64-bit `unsigned long`: throws
`std::invalid_argument` when no conversion can be performed and
`std::out_of_range` when the magnitude does not fit; a negative number wraps. -/
def stoul (s : Str) : Except StdException Nat :=
  match parseDecimal s with
  | none => Except.error StdException.invalid_argument
  | some v =>
    if 2 ^ 64 - 1 < v.natAbs then Except.error StdException.out_of_range
    else Except.ok (v % 2 ^ 64).toNat

/-! ## The command loop of `main` -/

/-- The value of `count`, first `strlen(inputBuffer)`, after the optional
`--count` for a trailing `\r`. -/
def splitInput.count (inputBuffer : Str) : Nat :=
  let count := strlen inputBuffer
  if 2 ≤ count ∧ inputBuffer[count - 2]? = some '\r' then count - 1 else count

/-- The value of `miCmdStart`: one past the first `-` that
`strchr(inputBuffer, '-')` finds, or 0 without one. -/
def splitInput.miCmdStart (inputBuffer : Str) : Nat :=
  match strchr (cstring inputBuffer) '-' with
  | some i => i + 1
  | none => 0

/-- The length `count - miCmdStart - 1` passed to the constructor of `line`,
as an integer. -/
def splitInput.length (inputBuffer : Str) : Int :=
  (splitInput.count inputBuffer : Int) - (splitInput.miCmdStart inputBuffer : Int) - 1

/-- The splitting of the buffer filled by `fgets` into `token` and `line`:
`none` when the loop breaks because the C string read is empty or does not end
in a newline. -/
def splitInput (inputBuffer : Str) : Option (Str × Str) :=
  let count := strlen inputBuffer
  if count < 1 ∨ inputBuffer[count - 1]? ≠ some '\n' then none else
  let line := substr inputBuffer (splitInput.miCmdStart inputBuffer)
    (splitInput.length inputBuffer).toNat
  let token := match strchr (cstring inputBuffer) '-' with
    | some i => inputBuffer.take i
    | none => []
  some (token, line)

/-- How one pass through the chain of `if (line == ...)` ends. -/
inductive CmdResult where
  /-- The end of the loop body is reached: the loop reads the next line. -/
  | next (s : Session)
  /-- The `gdb-exit` branch breaks after a failed `Stop`. -/
  | stopFailed (s : Session)
  /-- The `gdb-exit` branch has called `Terminate` and now polls
  `g_processExited`; once it is set it releases `pProcess` and breaks. -/
  | terminated (s : Session)
  /-- An exception leaves the loop body; nothing in `main` catches it. -/
  | uncaught (e : StdException) (s : Session)
deriving DecidableEq, Repr

/-- The session at the end of a pass. -/
def CmdResult.session : CmdResult → Session
  | CmdResult.next s => s
  | CmdResult.stopFailed s => s
  | CmdResult.terminated s => s
  | CmdResult.uncaught _ s => s

/-- The response `token^error,msg="HRESULT=%x"`. -/
def errorHRESULT (token : Str) (hr : HRESULT) : Str :=
  token ++ "^error,msg=\"HRESULT=".toList ++ fmt_x hr ++ "\"\n".toList

/-- The branch `line == "thread-info"` of the command loop. -/
def cmdThreadInfo (env : Env) (token : Str) (s : Session) : CmdResult :=
  let r := PrintThreadsState env []
  let hr := r.1
  let output := r.2.1
  let s := s.acts r.2.2
  if SUCCEEDED hr then
    CmdResult.next (s.act (Act.out (token ++ "^done,".toList ++ output ++ "\n".toList)))
  else
    CmdResult.next (s.act (Act.out (errorHRESULT token hr)))

/-- The branch `line == "exec-continue"`. -/
def cmdExecContinue (env : Env) (token : Str) (s : Session) : CmdResult :=
  let hr := env.Continue
  let s := s.act (Act.call Call.Continue)
  if SUCCEEDED hr then
    CmdResult.next (s.act (Act.out (token ++ "^done\n".toList)))
  else
    CmdResult.next (s.act (Act.out (errorHRESULT token hr)))

/-- The branch `line == "exec-interrupt"`. -/
def cmdExecInterrupt (env : Env) (token : Str) (s : Session) : CmdResult :=
  let hr := env.Stop
  let s := s.act (Act.call Call.Stop)
  if SUCCEEDED hr then
    CmdResult.next (s.act (Act.out (token ++ "^done\n".toList)))
  else
    CmdResult.next (s.act (Act.out (errorHRESULT token hr)))

/-- The branch `line.find("break-insert ") == 0`. The length `i2 - i1 - 1` is
computed in `size_t`, modulo `2 ^ 64`. -/
def cmdBreakInsert (env : Env) (token line : Str) (s : Session) : CmdResult :=
  match strchr line ' ', rfind line ':' with
  | some i1, some i2 =>
    let filename := substr line (i1 + 1) ((i2 + 2 ^ 64 - i1 - 1) % 2 ^ 64)
    let slinenum := line.drop (i2 + 1)
    match stoi slinenum with
    | Except.error e => CmdResult.uncaught e s
    | Except.ok linenum =>
      let r := env.CreateBreakpointInProcess filename linenum
      let s := s.act (Act.call (Call.CreateBreakpointInProcess filename linenum))
      if SUCCEEDED r.1 then
        let id := r.2
        let output := (env.PrintBreakpoint id).2
        let s := s.act (Act.call (Call.PrintBreakpoint id))
        CmdResult.next (s.act (Act.out (token ++ "^done,".toList ++ output ++ "\n".toList)))
      else CmdResult.next s
  | _, _ =>
    CmdResult.next (s.act (Act.out
      (token ++ "^error,msg=\"Unknown breakpoint location format\"\n".toList)))

/-- The branch `line.find("break-delete ") == 0`. The `unsigned long` result
of `std::stoul` is truncated to the `ULONG32 id`. -/
def cmdBreakDelete (env : Env) (token line : Str) (s : Session) : CmdResult :=
  match strchr line ' ' with
  | none => CmdResult.uncaught StdException.out_of_range s
  | some i =>
    match stoul (line.drop i) with
    | Except.error e => CmdResult.uncaught e s
    | Except.ok v =>
      let id := v % 2 ^ 32
      let _ := env.DeleteBreakpoint id
      let s := s.act (Act.call (Call.DeleteBreakpoint id))
      CmdResult.next (s.act (Act.out (token ++ "^done\n".toList)))

/-- The branch `line == "exec-next" || line == "exec-step" || line == "exec-finish"`. -/
def cmdStep (env : Env) (token line : Str) (s : Session) : CmdResult :=
  let stepType :=
    if line = "exec-next".toList then StepType.STEP_OVER
    else if line = "exec-step".toList then StepType.STEP_IN
    else StepType.STEP_OUT
  let s := s.act (Act.lock Mutex.g_currentThreadMutex)
  let r := match s.g_currentThread with
    | some t => RunStep env t stepType
    | none => (E_FAIL, [])
  let hr := r.1
  let s := s.acts r.2
  let s := s.act (Act.unlock Mutex.g_currentThreadMutex)
  if FAILED hr then
    CmdResult.next (s.act (Act.out
      (token ++ "^error,msg=\"Cannot create stepper: ".toList ++ fmt_x hr ++ "\"\n".toList)))
  else
    let hr := env.Continue
    let s := s.act (Act.call Call.Continue)
    if SUCCEEDED hr then
      CmdResult.next (s.act (Act.out (token ++ "^done\n".toList)))
    else
      CmdResult.next (s.act (Act.out (errorHRESULT token hr)))

/-- The branch `line == "stack-list-frames"`. -/
def cmdStackListFrames (env : Env) (token : Str) (s : Session) : CmdResult :=
  let s := s.act (Act.lock Mutex.g_currentThreadMutex)
  let r := match s.g_currentThread with
    | some t => PrintFrames env t []
    | none => (E_FAIL, [], [])
  let hr := r.1
  let output := r.2.1
  let s := s.acts r.2.2
  let s := s.act (Act.unlock Mutex.g_currentThreadMutex)
  if SUCCEEDED hr then
    CmdResult.next (s.act (Act.out (token ++ "^done,".toList ++ output ++ "\n".toList)))
  else
    CmdResult.next (s.act (Act.out (errorHRESULT token hr)))

/-- The branch `line.find("stack-list-variables ") == 0`. -/
def cmdStackListVariables (env : Env) (token : Str) (s : Session) : CmdResult :=
  let s := s.act (Act.lock Mutex.g_currentThreadMutex)
  let r : HRESULT × Str × Trace := match s.g_currentThread with
    | some t =>
      let hr := (env.GetActiveFrame t).1
      let pFrame := (env.GetActiveFrame t).2
      let tr := [Act.call (Call.GetActiveFrame t)]
      if SUCCEEDED hr then
        (pFrame.ListVariables, pFrame.varlist, tr ++ [Act.call Call.ListVariables])
      else (hr, [], tr)
    | none => (E_FAIL, [], [])
  let hr := r.1
  let output := r.2.1
  let s := s.acts r.2.2
  let s := s.act (Act.unlock Mutex.g_currentThreadMutex)
  if SUCCEEDED hr then
    CmdResult.next (s.act (Act.out (token ++ "^done,".toList ++ output ++ "\n".toList)))
  else
    CmdResult.next (s.act (Act.out (errorHRESULT token hr)))

/-- The branch `line == "gdb-exit"`, up to the wait for `g_processExited`. -/
def cmdGdbExit (env : Env) (s : Session) : CmdResult :=
  let hr := env.Stop
  let s := s.act (Act.call Call.Stop)
  if SUCCEEDED hr then
    let s := s.acts (DisableAllBreakpointsAndSteppers env).2
    let s := s.act (Act.call Call.Terminate)
    CmdResult.terminated s
  else CmdResult.stopFailed s

/-- The final `else` branch: an unknown command. -/
def cmdUnknown (token line : Str) (s : Session) : CmdResult :=
  CmdResult.next (s.act (Act.out
    (token ++ "^error,msg=\"Unknown command: ".toList ++ line ++ "\"\n".toList)))

/-- The body of the command loop from `if (line == "thread-info")` on: the
chain of tests on `line`, each with its branch. -/
def execCommand (env : Env) (token line : Str) (s : Session) : CmdResult :=
  if line = "thread-info".toList then cmdThreadInfo env token s
  else if line = "exec-continue".toList then cmdExecContinue env token s
  else if line = "exec-interrupt".toList then cmdExecInterrupt env token s
  else if "break-insert ".toList.isPrefixOf line then cmdBreakInsert env token line s
  else if "break-delete ".toList.isPrefixOf line then cmdBreakDelete env token line s
  else if line = "exec-next".toList ∨ line = "exec-step".toList ∨ line = "exec-finish".toList then
    cmdStep env token line s
  else if line = "stack-list-frames".toList then cmdStackListFrames env token s
  else if "stack-list-variables ".toList.isPrefixOf line then cmdStackListVariables env token s
  else if line = "gdb-exit".toList then cmdGdbExit env s
  else cmdUnknown token line s

/-- How one iteration of `for (;;)` ends. -/
inductive Iteration where
  /-- The loop breaks before any command is run: end of input, or a text read
  that does not end in a newline. The input left is returned. -/
  | noLine (s : Session) (stdin : Str)
  /-- A command was run, with the token and the input left. -/
  | ran (token : Str) (r : CmdResult) (stdin : Str)
deriving DecidableEq, Repr

/-- One iteration of the command loop: the prompt, `fgets`, the splitting of
the line and the command. -/
def loopIteration (env : Env) (s : Session) (stdin : Str) : Iteration :=
  let s := s.act (Act.out "(gdb)\n".toList)
  match fgets 1024 stdin with
  | none => Iteration.noLine s stdin
  | some (inputBuffer, rest) =>
    match splitInput inputBuffer with
    | none => Iteration.noLine s rest
    | some (token, line) => Iteration.ran token (execCommand env token line s) rest

/-- How the command loop ends. -/
inductive LoopEnd where
  /-- The loop was left by `break`, with this `token` and with `pProcess`
  released or not. -/
  | left (token : Str) (released : Bool) (s : Session)
  /-- The wait `while (!g_processExited) Sleep(100)` is entered. -/
  | waiting (token : Str) (s : Session)
  /-- An exception left `main`. -/
  | uncaught (e : StdException) (s : Session)
  /-- The iterations allowed were used up. -/
  | outOfFuel (s : Session)
deriving DecidableEq, Repr

/-- The command loop, for at most `fuel` iterations. Each line read holds at
least one character, so `stdin.length + 1` iterations always suffice. -/
def commandLoop (env : Env) : Nat → Session → Str → LoopEnd
  | 0, s, _ => LoopEnd.outOfFuel s
  | fuel + 1, s, stdin =>
    match loopIteration env s stdin with
    | Iteration.noLine s _ => LoopEnd.left [] false s
    | Iteration.ran _ (CmdResult.next s) rest => commandLoop env fuel s rest
    | Iteration.ran token (CmdResult.stopFailed s) _ => LoopEnd.left token false s
    | Iteration.ran token (CmdResult.terminated s) _ => LoopEnd.waiting token s
    | Iteration.ran _ (CmdResult.uncaught e s) _ => LoopEnd.uncaught e s

/-- The end of `main` after the loop was left by `break`: `Stop`, disabling and
`Detach` when `pProcess` is still held, then `pCorDebug->Terminate()` and the
record `token^exit`. -/
def teardown (env : Env) (token : Str) (released : Bool) (s : Session) : Session :=
  let s :=
    if released then s
    else
      let s := s.act (Act.call Call.Stop)
      if SUCCEEDED env.Stop then
        let s := s.acts (DisableAllBreakpointsAndSteppers env).2
        s.act (Act.call Call.Detach)
      else s
  let s := s.act (Act.call Call.CorDebugTerminate)
  s.act (Act.out (token ++ "^exit\n".toList))

/-! ## Reading the memory of the debuggee -/

/-- The function `OSPageSize()`: the value of `sysconf(_SC_PAGESIZE)` as kept
in the `static ULONG pageSize`. -/
def OSPageSize (env : Env) : Nat := env.sysconfPageSize % 2 ^ 32

/-- The function `NextOSPageAddress(addr)`, `(addr+pageSize)&(~(pageSize-1))`
computed in the 64-bit `size_t`. -/
def NextOSPageAddress (env : Env) (addr : Nat) : Nat :=
  let pageSize := OSPageSize env
  ((addr + pageSize) % 2 ^ 64) &&& ((2 ^ 64 - 1) ^^^ ((pageSize + 2 ^ 64 - 1) % 2 ^ 64))

/-- The length of the second read of `SafeReadMemory`,
`(ULONG)(NextOSPageAddress(offset) - offset)`. -/
def SafeReadMemory.retryLength (env : Env) (offset : Nat) : Nat :=
  ((NextOSPageAddress env offset + 2 ^ 64 - offset % 2 ^ 64) % 2 ^ 64) % 2 ^ 32

/-- The function `SafeReadMemory(offset, lpBuffer, cb, lpcbBytesRead)`: the
value returned, the value stored through `lpcbBytesRead` (`none` when nothing
is stored) and the session afterwards. -/
def SafeReadMemory (env : Env) (offset cb : Nat) (s : Session) : Bool × Option Nat × Session :=
  let s := s.act (Act.lock Mutex.g_processMutex)
  match s.g_process with
  | none => (false, none, s.act (Act.unlock Mutex.g_processMutex))
  | some _ =>
    let bRet := SUCCEEDED (env.ReadMemory offset cb).1
    let bytesRead := (env.ReadMemory offset cb).2
    let s := s.act (Act.call (Call.ReadMemory offset cb))
    if !bRet then
      let cb := SafeReadMemory.retryLength env offset
      let bRet := SUCCEEDED (env.ReadMemory offset cb).1
      let bytesRead := (env.ReadMemory offset cb).2
      let s := s.act (Act.call (Call.ReadMemory offset cb))
      (bRet, some (bytesRead % 2 ^ 32), s.act (Act.unlock Mutex.g_processMutex))
    else
      (bRet, some (bytesRead % 2 ^ 32), s.act (Act.unlock Mutex.g_processMutex))

/-- The lengths of the reads (`ReadMemory`) of a trace, in order. -/
def readLengths : Trace → List Nat
  | [] => []
  | Act.call (Call.ReadMemory _ cb) :: tr => cb :: readLengths tr
  | _ :: tr => readLengths tr

/-! ## Kinds of actions -/

/-- A call on the debuggee process that ends the session: `Terminate` or `Detach`. -/
def Act.isEndCall : Act → Bool
  | Act.call Call.Terminate => true
  | Act.call Call.Detach => true
  | _ => false

/-- A call other than the run-control calls `Continue`, `Stop`, `Terminate`
and `Detach`: what the helper functions perform. -/
def Act.isPlainCall : Act → Bool
  | Act.call Call.Continue => false
  | Act.call Call.Stop => false
  | Act.call Call.Terminate => false
  | Act.call Call.Detach => false
  | Act.call _ => true
  | _ => false

/-- The calls made while the mutex `m` is held, in order; `held` tells whether
it is held at the start of the trace. -/
def callsUnderLock (m : Mutex) : Bool → Trace → List Call
  | _, [] => []
  | held, Act.lock m2 :: tr => callsUnderLock m (held || decide (m2 = m)) tr
  | held, Act.unlock m2 :: tr => callsUnderLock m (held && !decide (m2 = m)) tr
  | held, Act.call c :: tr =>
    if held then c :: callsUnderLock m held tr else callsUnderLock m held tr
  | held, _ :: tr => callsUnderLock m held tr

/-- Whether the mutex `m` is held at the end of a trace. -/
def heldAfter (m : Mutex) : Bool → Trace → Bool
  | held, [] => held
  | held, Act.lock m2 :: tr => heldAfter m (held || decide (m2 = m)) tr
  | held, Act.unlock m2 :: tr => heldAfter m (held && !decide (m2 = m)) tr
  | held, _ :: tr => heldAfter m held tr

/-- The calls of a trace, in order. -/
def callsOf : Trace → List Call
  | [] => []
  | Act.call c :: tr => c :: callsOf tr
  | _ :: tr => callsOf tr

/-! ## Startup of `main` -/

/-- The text written by `print_help`. -/
def helpText : Str :=
  ("CoreCLR debugger for Linux.\n" ++ "\n" ++ "Options:\n"
    ++ "--attach <process-id>                 Attach the debugger to the specified process id.\n"
    ++ "--interpreter=mi                      Puts the debugger into MI mode.\n").toList

/-- The C function `strtoul(s, &err, 10)` for a 64-bit `unsigned long`: the
value returned and the text `err` points to. White space is skipped, a sign is
accepted, then the longest run of digits is converted; without a digit no
conversion is made and `err` is `s` itself. -/
def strtoul (s : Str) : Nat × Str :=
  let t := s.dropWhile isspace
  let neg := decide (t.head? = some '-')
  let u := if t.head? = some '-' ∨ t.head? = some '+' then t.tail else t
  let ds := u.takeWhile isdigit
  if ds = [] then (0, s)
  else
    let v := decimalValue ds
    (if 2 ^ 64 - 1 < v then 2 ^ 64 - 1 else if neg then (2 ^ 64 - v) % 2 ^ 64 else v,
      u.dropWhile isdigit)

/-- How the argument loop of `main` ends. -/
inductive ArgsResult where
  /-- A `return` inside the loop, with the exit code and what was written. -/
  | exit (code : Nat) (tr : Trace)
  /-- The loop ran to its end, with this `pidDebuggee`. -/
  | pid (pidDebuggee : Nat)
deriving DecidableEq, Repr

/-- The loop `for (int i = 1; i < argc; i++)` of `main` over the arguments
`argv[i], argv[i+1], ...` still to be looked at, with the current value of
`pidDebuggee`. -/
def parseArgs : List Str → Nat → ArgsResult
  | [], pidDebuggee => ArgsResult.pid pidDebuggee
  | [a], pidDebuggee =>
    if a = "--attach".toList then
      ArgsResult.exit 1 [Act.stderr "Error: Missing process id\n".toList]
    else if a = "--interpreter=mi".toList then ArgsResult.pid pidDebuggee
    else if a = "--help".toList then ArgsResult.exit 0 [Act.stderr helpText]
    else ArgsResult.exit 1
      [Act.stderr ("Error: Unknown option ".toList ++ a ++ "\n".toList)]
  | a :: v :: rest, pidDebuggee =>
    if a = "--attach".toList then
      if (strtoul v).2 ≠ [] then
        ArgsResult.exit 1 [Act.stderr "Error: Missing process id\n".toList]
      else parseArgs rest ((strtoul v).1 % 2 ^ 32)
    else if a = "--interpreter=mi".toList then parseArgs (v :: rest) pidDebuggee
    else if a = "--help".toList then ArgsResult.exit 0 [Act.stderr helpText]
    else ArgsResult.exit 1
      [Act.stderr ("Error: Unknown option ".toList ++ a ++ "\n".toList)]

/-- The text `"/libcoreclr.so"`. -/
def coreclr_so : Str := "/libcoreclr.so".toList

/-- The function `std::string::rfind(pattern)`: the last position at which
the pattern occurs. -/
def rfindStr (line pattern : Str) : Option Nat :=
  (List.range (line.length + 1)).reverse.find? (fun i => pattern.isPrefixOf (line.drop i))

/-- The function `std::string::rfind(ch, pos)`: the last position not after
`pos` that holds the character. -/
def rfindFrom (line : Str) (ch : Char) (pos : Nat) : Option Nat :=
  (List.range (pos + 1)).reverse.find? (fun i => decide (line.get? i = some ch))

/-- The loop of `GetCoreCLRLPath` over the lines of the maps file. The test
`if (i == std::string::npos)` after the search for the space can never
succeed there; a missing space gives `si + 1 = 0`. -/
def GetCoreCLRLPath.scan : List Str → Str
  | [] => []
  | line :: lines =>
    match rfindStr line coreclr_so with
    | none => GetCoreCLRLPath.scan lines
    | some i =>
      if i + coreclr_so.length ≠ line.length then GetCoreCLRLPath.scan lines
      else
        match rfindFrom line ' ' i with
        | some si => line.drop (si + 1)
        | none => line

/-- The function `GetCoreCLRLPath(pid)`. -/
def GetCoreCLRLPath (env : Env) (pid : Nat) : Str :=
  GetCoreCLRLPath.scan (env.procMaps pid)

/-- How the part of `main` before the command loop ends. -/
inductive Startup where
  /-- The function `main` returns with this exit code. -/
  | exit (code : Nat) (s : Session)
  /-- The debugger is attached and `g_process` is stored: the loop starts. -/
  | attached (s : Session)
deriving DecidableEq, Repr

/-- The part of `main` from `GetCoreCLRLPath(pidDebuggee)` to the storing of
`g_process`. The result of `CanLaunchOrAttach` is assigned to `hr` and not
looked at. -/
def attachDebugger (env : Env) (pidDebuggee : Nat) : Startup :=
  let s := Session.init
  let coreclrPath := GetCoreCLRLPath env pidDebuggee
  if coreclrPath = [] then
    Startup.exit 1 (s.act (Act.stderr "Error: Unable to find libcoreclr.so\n".toList))
  else
  let s := s.act (Act.call (Call.SetCoreCLRPath coreclrPath))
  let hr := env.CreateVersionStringFromModule pidDebuggee
  let s := s.act (Act.call (Call.CreateVersionStringFromModule pidDebuggee))
  if FAILED hr then
    Startup.exit 1 (s.act (Act.stderr
      ("CreateVersionStringFromModule failed: hr=".toList ++ fmt_x hr ++ "\n".toList)))
  else
  let hr := env.CreateDebuggingInterfaceFromVersionEx
  let s := s.act (Act.call Call.CreateDebuggingInterfaceFromVersionEx)
  if FAILED hr then
    Startup.exit 1 (s.act (Act.stderr
      ("CreateDebuggingInterfaceFromVersionEx failed: hr=".toList ++ fmt_x hr ++ "\n".toList)))
  else
  let hr := env.QueryICorDebug
  let s := s.act (Act.call Call.QueryICorDebug)
  if FAILED hr then
    Startup.exit 1 (s.act (Act.stderr
      ("QueryInterface(IID_ICorDebug) failed: hr=".toList ++ fmt_x hr ++ "\n".toList)))
  else
  let hr := env.Initialize
  let s := s.act (Act.call Call.Initialize)
  if FAILED hr then
    Startup.exit 1 (s.act (Act.stderr ("Initialize failed: hr=".toList ++ fmt_x hr
      ++ "\n".toList)))
  else
  let hr := env.SetManagedHandler
  let s := s.act (Act.call Call.SetManagedHandler)
  if FAILED hr then
    Startup.exit 1 (s.act (Act.stderr ("SetManagedHandler failed: hr=".toList ++ fmt_x hr
      ++ "\n".toList)))
  else
  let s := s.act (Act.call (Call.CanLaunchOrAttach pidDebuggee))
  let hr := (env.DebugActiveProcess pidDebuggee).1
  let pProcess := (env.DebugActiveProcess pidDebuggee).2
  let s := s.act (Act.call (Call.DebugActiveProcess pidDebuggee))
  if FAILED hr then
    Startup.exit 1 (s.act (Act.stderr ("DebugActiveProcess failed: hr=".toList ++ fmt_x hr
      ++ "\n".toList)))
  else
  let s := s.act (Act.lock Mutex.g_processMutex)
  let s := { s with g_process := some pProcess }
  Startup.attached (s.act (Act.unlock Mutex.g_processMutex))

/-- The function `main` from its start to the storing of `g_process`; `args`
are `argv[1], ..., argv[argc-1]`. -/
def startup (env : Env) (args : List Str) : Startup :=
  if args = [] then Startup.exit 1 (Session.init.act (Act.stderr helpText)) else
  match parseArgs args 0 with
  | ArgsResult.exit code tr => Startup.exit code (Session.init.acts tr)
  | ArgsResult.pid pidDebuggee =>
    if pidDebuggee = 0 then
      Startup.exit 1 (Session.init.act (Act.stderr "Error: Missing process id\n".toList))
    else attachDebugger env pidDebuggee

/-! ## Argument vectors described item by item

The two definitions below do not come from the source: they describe, item by
item, the argument vectors that `main` accepts, and are compared with
`parseArgs`. An item is `--interpreter=mi` (`none`) or `--attach v` (`some v`). -/

/-- The argument vector made of the given items. -/
def renderArgs : List (Option Str) → List Str
  | [] => []
  | none :: opts => "--interpreter=mi".toList :: renderArgs opts
  | some v :: opts => "--attach".toList :: v :: renderArgs opts

/-- The process id given by the last `--attach` item, `pid` without one. -/
def lastPid : List (Option Str) → Nat → Nat
  | [], pid => pid
  | none :: opts, pid => lastPid opts pid
  | some v :: opts, _ => lastPid opts ((strtoul v).1 % 2 ^ 32)

/-! ## A whole run of `main` -/

/-- What the world around one run of `main` does: the answers of the runtime
at each stage and the callbacks it delivers. -/
structure World where
  /-- The answers during startup. -/
  startup : Env
  /-- The answers in force during iteration `n` of the command loop. -/
  during : Nat → Env
  /-- The callbacks delivered before iteration `n` reads its line. -/
  arriving : Nat → List Event
  /-- The answers in force from the end of the loop on. -/
  atExit : Env
  /-- The callbacks delivered, one per poll, while `main` waits for
  `g_processExited`. -/
  whileWaiting : List Event

/-- Delivery of a sequence of callbacks. -/
def deliverAll (env : Env) : List Event → Session → Session
  | [], s => s
  | ev :: evs, s => deliverAll env evs (ManagedCallback.deliver env ev s)

/-- The loop `while (!g_processExited) Sleep(100);`: during each sleep the next
callback is delivered. The flag tells whether the loop ends; it does not when
the callbacks run out with `g_processExited` still false. -/
def waitForExit (env : Env) : List Event → Session → Bool × Session
  | [], s => (s.g_processExited, s)
  | ev :: evs, s =>
    if s.g_processExited then (true, s)
    else waitForExit env evs (ManagedCallback.deliver env ev (s.act Act.sleep))

/-- The command loop of one run, from iteration `n` on, for at most `fuel`
iterations. -/
def runLoop (w : World) : Nat → Nat → Session → Str → LoopEnd
  | 0, _, s, _ => LoopEnd.outOfFuel s
  | fuel + 1, n, s, stdin =>
    match loopIteration (w.during n) (deliverAll (w.during n) (w.arriving n) s) stdin with
    | Iteration.noLine s _ => LoopEnd.left [] false s
    | Iteration.ran _ (CmdResult.next s) rest => runLoop w fuel (n + 1) s rest
    | Iteration.ran token (CmdResult.stopFailed s) _ => LoopEnd.left token false s
    | Iteration.ran token (CmdResult.terminated s) _ => LoopEnd.waiting token s
    | Iteration.ran _ (CmdResult.uncaught e s) _ => LoopEnd.uncaught e s

/-- How a run of `main` ends. -/
inductive MainEnd where
  /-- The function `main` returns this exit code. -/
  | returned (code : Nat) (s : Session)
  /-- The wait for `g_processExited` never ends. -/
  | waitsForever (s : Session)
  /-- An exception leaves `main`. -/
  | uncaught (e : StdException) (s : Session)
  /-- The iterations allowed to the loop were used up. -/
  | outOfFuel (s : Session)
deriving DecidableEq, Repr

/-- The session at the end of a run. -/
def MainEnd.session : MainEnd → Session
  | MainEnd.returned _ s => s
  | MainEnd.waitsForever s => s
  | MainEnd.uncaught _ s => s
  | MainEnd.outOfFuel s => s

/-- The exit code of a run that returns. -/
def MainEnd.code : MainEnd → Option Nat
  | MainEnd.returned code _ => some code
  | _ => none

/-- The session at the end of the command loop. -/
def LoopEnd.session : LoopEnd → Session
  | LoopEnd.left _ _ s => s
  | LoopEnd.waiting _ s => s
  | LoopEnd.uncaught _ s => s
  | LoopEnd.outOfFuel s => s

/-- The function `main` from the command loop to its end. Every iteration but
the last reads at least one character, so `stdin.length + 1` iterations are
enough. -/
def afterAttach (w : World) (stdin : Str) (s : Session) : MainEnd :=
  match runLoop w (stdin.length + 1) 0 s stdin with
  | LoopEnd.left token released s => MainEnd.returned 0 (teardown w.atExit token released s)
  | LoopEnd.waiting token s =>
    let r := waitForExit w.atExit w.whileWaiting s
    if r.1 then
      let s := r.2.act (Act.call Call.ReleaseProcess)
      MainEnd.returned 0 (teardown w.atExit token true s)
    else MainEnd.waitsForever r.2
  | LoopEnd.uncaught e s => MainEnd.uncaught e s
  | LoopEnd.outOfFuel s => MainEnd.outOfFuel s

/-- The function `main(argc, argv)`, with `args` the arguments after the
program name and `stdin` the text on standard input. -/
def main (w : World) (args : List Str) (stdin : Str) : MainEnd :=
  match startup w.startup args with
  | Startup.exit code s => MainEnd.returned code s
  | Startup.attached s => afterAttach w stdin s

/-! ## Sample answers, used to instantiate the theorems -/

/-- A frame that answers every query with a failure. -/
def Frame.none : Frame :=
  { QueryRuntimeUnwindableFrame := E_FAIL, QueryILFrame := E_FAIL, GetFunction := E_FAIL,
    GetFrameLocation := E_FAIL, linenum := 0, fullname := [],
    methodName := [], ListVariables := E_FAIL, varlist := [] }

/-- A managed frame at line 10 of `Program.cs`. -/
def Frame.sample : Frame :=
  { QueryRuntimeUnwindableFrame := E_FAIL, QueryILFrame := S_OK, GetFunction := S_OK,
    GetFrameLocation := S_OK, linenum := 10, fullname := "/src/Program.cs".toList,
    methodName := "Program.Main()".toList, ListVariables := S_OK, varlist := "variables=[]".toList }

/-- A runtime in which every call succeeds and the stopped thread has one
managed frame. -/
def Env.sample : Env :=
  { GetID := fun t => (S_OK, t),
    GetActiveFrame := fun _ => (S_OK, Frame.sample),
    FindCurrentBreakpointId := fun _ => (S_OK, 1),
    GetModuleName := fun _ => "/app/Program.dll".toList,
    TryLoadModuleSymbols := fun _ => S_OK,
    TryResolveBreakpointsForModule := fun _ => S_OK,
    CreateStepper := fun _ => S_OK,
    INTERCEPT_ALL := 0xffff,
    INTERCEPT_SECURITY := 0x04,
    INTERCEPT_CLASS_INIT := 0x01,
    SetInterceptMask := fun _ => S_OK,
    StepOut := S_OK,
    StepRange := fun _ _ => S_OK,
    Step := fun _ => S_OK,
    GetStepRangeFromCurrentIP := fun _ => (S_OK, { startOffset := 0, endOffset := 8 }),
    QueryThread3 := fun _ => S_OK,
    CreateStackWalk := fun _ => (S_OK,
      { frames := [{ next := S_OK, getFrame := S_OK, frame := Frame.sample }],
        pastEnd := { next := CORDBG_S_AT_END_OF_STACK, getFrame := E_FAIL, frame := Frame.sample } }),
    EnumerateThreads := (S_OK, []),
    userStateValues := [0x1, 0x2, 0x4, 0x8, 0x10, 0x20, 0x40, 0x80, 0x100],
    EnumerateAppDomains := (S_OK, []),
    Continue := S_OK,
    Stop := S_OK,
    Terminate := S_OK,
    Detach := S_OK,
    CreateBreakpointInProcess := fun _ _ => (S_OK, 1),
    PrintBreakpoint := fun _ => (S_OK, []),
    DeleteBreakpoint := fun _ => S_OK,
    sysconfPageSize := 4096,
    ReadMemory := fun _ cb => (S_OK, cb),
    procMaps := fun _ =>
      ["7f00-7f10 r-xp 00000000 08:01 42 /usr/share/dotnet/libcoreclr.so".toList],
    CreateVersionStringFromModule := fun _ => S_OK,
    CreateDebuggingInterfaceFromVersionEx := S_OK,
    QueryICorDebug := S_OK,
    Initialize := S_OK,
    SetManagedHandler := S_OK,
    CanLaunchOrAttach := fun _ => S_OK,
    DebugActiveProcess := fun pid => (S_OK, pid) }

/-- A position of a stack walk reached by a successful `Next()` and holding
the given frame, fetched with the given status. -/
def WalkPos.ofFrame (getFrame : HRESULT) (frame : Frame) : WalkPos :=
  { next := S_OK, getFrame := getFrame, frame := frame }

/-- The sample runtime with the stack walk of every thread replaced. -/
def Env.withStack (frames : List WalkPos) : Env :=
  { Env.sample with
    CreateStackWalk := fun _ => (S_OK,
      { frames := frames,
        pastEnd := { next := CORDBG_S_AT_END_OF_STACK, getFrame := E_FAIL, frame := Frame.none } }) }

/-- A managed frame whose function cannot be obtained. -/
def Frame.noFunction : Frame :=
  { Frame.sample with GetFunction := E_FAIL }

/-- Answers of a runtime in which a read of 4 bytes fails and every other read
delivers all the bytes asked for. -/
def Env.firstReadFails : Env :=
  { Env.sample with
    ReadMemory := fun _ cb => if cb = 4 then (E_FAIL, 0) else (S_OK, cb) }

/-- Answers of a runtime that refuses `CanLaunchOrAttach` and accepts
`DebugActiveProcess`. -/
def Env.refusedAttach : Env :=
  { Env.sample with CanLaunchOrAttach := fun _ => E_FAIL }

/-- An app domain with the breakpoint 1 and the stepper 2. -/
def DomainInfo.sample : DomainInfo :=
  { ptr := 1, EnumerateBreakpoints := S_OK, breakpoints := [1], EnumerateSteppers := S_OK,
    steppers := [2] }

/-- Answers of a runtime whose process has the app domain `DomainInfo.sample`. -/
def Env.withDomain : Env :=
  { Env.sample with EnumerateAppDomains := (S_OK, [DomainInfo.sample]) }

/-- A world whose runtime answers as `env` at every stage, delivers no
callback during the loop and delivers `whileWaiting` during the wait for exit. -/
def World.steady (env : Env) (whileWaiting : List Event) : World :=
  { startup := env, during := fun _ => env, arriving := fun _ => [], atExit := env,
    whileWaiting := whileWaiting }

/-! ## Theorems -/

/-! ### Trace bookkeeping -/

theorem continues_append (a b : Trace) : continues (a ++ b) = continues a + continues b := by
  simp [continues]

theorem continues_nil : continues [] = 0 := rfl

theorem continues_cons (a : Act) (tr : Trace) :
    continues (a :: tr) = continues tr + (if a = Act.call Call.Continue then 1 else 0) := by
  simp only [continues, List.count_cons, beq_iff_eq]

theorem records_append (a b : Trace) : records (a ++ b) = records a ++ records b := by
  induction a with
  | nil => rfl
  | cons x xs ih => cases x <;> simp [records, ih]

theorem Session.acts_trace (s : Session) (l : Trace) : (s.acts l).trace = s.trace ++ l := rfl

theorem Session.act_trace (s : Session) (a : Act) : (s.act a).trace = s.trace ++ [a] := rfl

/-- The actions of `PrintFrameLocation`: no `Continue`, no output record. -/
theorem PrintFrameLocation_acts (pFrame : Frame) (output : Str) :
    continues (PrintFrameLocation pFrame output).2.2 = 0 ∧
    records (PrintFrameLocation pFrame output).2.2 = [] := by
  simp only [PrintFrameLocation]
  split_ifs <;> simp [continues_cons, continues_nil, records]

/-- The actions of `PrintLocation`: no `Continue`, no output record. -/
theorem PrintLocation_acts (env : Env) (pThread : ThreadPtr) (output : Str) :
    continues (PrintLocation env pThread output).2.2 = 0 ∧
    records (PrintLocation env pThread output).2.2 = [] := by
  simp only [PrintLocation]
  split_ifs <;> simp [continues_cons, continues_nil, records]

/-- The closing block of a stop callback: the actions it adds hold no
`Continue` and no output record, and the current thread is the one stored. -/
theorem storeCurrentThread_spec (pThread : ThreadPtr) (s : Session) :
    (∃ acts, (ManagedCallback.storeCurrentThread pThread s).trace = s.trace ++ acts ∧
      continues acts = 0 ∧ records acts = []) ∧
    (ManagedCallback.storeCurrentThread pThread s).g_currentThread = some pThread ∧
    (ManagedCallback.storeCurrentThread pThread s).g_processExited = s.g_processExited := by
  unfold ManagedCallback.storeCurrentThread
  cases h : s.g_currentThread with
  | none =>
    refine ⟨⟨[Act.lock Mutex.g_currentThreadMutex, Act.call (Call.AddRef pThread),
      Act.unlock Mutex.g_currentThreadMutex], ?_, by simp [continues_cons, continues_nil], rfl⟩,
      ?_, ?_⟩ <;>
      simp [Session.act, h]
  | some old =>
    refine ⟨⟨[Act.lock Mutex.g_currentThreadMutex, Act.call (Call.Release old),
      Act.call (Call.AddRef pThread), Act.unlock Mutex.g_currentThreadMutex], ?_,
      by simp [continues_cons, continues_nil], rfl⟩, ?_, ?_⟩ <;>
      simp [Session.act, h]

/-- A handler that has so far added actions without `Continue` and without
output, and then writes one `*stopped` record and stores the current thread,
has added exactly that record and no `Continue`. -/
theorem stop_tail_spec (s0 s : Session) (pre : Trace) (record : Str) (t : ThreadPtr)
    (hpre : s.trace = s0.trace ++ pre) (c : continues pre = 0) (r : records pre = [])
    (hp : "*stopped,".toList <+: record) :
    ∃ acts, (ManagedCallback.storeCurrentThread t (s.act (Act.out record))).trace
        = s0.trace ++ acts ∧
      continues acts = 0 ∧ ∃ r, records acts = [r] ∧ "*stopped,".toList <+: r := by
  obtain ⟨⟨a2, h2, c2, r2⟩, -, -⟩ := storeCurrentThread_spec t (s.act (Act.out record))
  refine ⟨pre ++ [Act.out record] ++ a2, ?_, ?_, record, ?_, hp⟩
  · rw [h2, Session.act_trace, hpre]
    simp only [List.append_assoc]
  · simp [continues_append, c, c2, continues_cons, continues_nil]
  · simp [records_append, r, r2, records]

/-- C1: each execution-stopping callback (Breakpoint, StepComplete, Exception
with unhandled = true) adds to the trace no `Continue` call and exactly one
output record, and that record starts with `*stopped,`. -/
theorem stop_callbacks_never_continue (env : Env) (s : Session) (t : ThreadPtr) (ev : Event)
    (hev : ev = Event.Breakpoint t ∨ ev = Event.StepComplete t ∨ ev = Event.Exception t true) :
    ∃ acts, (ManagedCallback.deliver env ev s).trace = s.trace ++ acts ∧
      continues acts = 0 ∧
      ∃ r, records acts = [r] ∧ "*stopped,".toList <+: r := by
  obtain ⟨c1, r1⟩ := PrintLocation_acts env t []
  rcases hev with rfl | rfl | rfl
  · simp only [ManagedCallback.deliver, ManagedCallback.Breakpoint]
    refine stop_tail_spec s _
      ([Act.call (Call.FindCurrentBreakpointId t)] ++ (PrintLocation env t []).2.2
        ++ [Act.call (Call.GetID t)]) _ t ?_ ?_ ?_ ⟨_, rfl⟩
    · simp only [Session.act_trace, Session.acts_trace, List.append_assoc]
    · simp [continues_append, c1, continues_cons, continues_nil]
    · simp [records_append, r1, records]
  · simp only [ManagedCallback.deliver, ManagedCallback.StepComplete]
    refine stop_tail_spec s _
      ((PrintLocation env t []).2.2 ++ [Act.call (Call.GetID t)]) _ t ?_ ?_ ?_ ⟨_, rfl⟩
    · simp only [Session.act_trace, Session.acts_trace, List.append_assoc]
    · simp [continues_append, c1, continues_cons, continues_nil]
    · simp [records_append, r1, records]
  · simp only [ManagedCallback.deliver, ManagedCallback.Exception, if_true]
    have hfl : continues (if SUCCEEDED (env.GetActiveFrame t).1 = true
          then PrintFrameLocation (env.GetActiveFrame t).2 []
          else ((env.GetActiveFrame t).1, [], [])).2.2 = 0 ∧
        records (if SUCCEEDED (env.GetActiveFrame t).1 = true
          then PrintFrameLocation (env.GetActiveFrame t).2 []
          else ((env.GetActiveFrame t).1, [], [])).2.2 = [] := by
      split_ifs
      · exact PrintFrameLocation_acts _ _
      · exact ⟨rfl, rfl⟩
    refine stop_tail_spec s _
      ((PrintLocation env t []).2.2 ++ [Act.call (Call.GetID t)]
        ++ [Act.call (Call.GetActiveFrame t)]
        ++ (if SUCCEEDED (env.GetActiveFrame t).1 = true
          then PrintFrameLocation (env.GetActiveFrame t).2 []
          else ((env.GetActiveFrame t).1, [], [])).2.2) _ t ?_ ?_ ?_ ⟨_, rfl⟩
    · simp only [Session.act_trace, Session.acts_trace, List.append_assoc]
    · simp [continues_append, c1, hfl.1, continues_cons, continues_nil]
    · simp [records_append, r1, hfl.2, records]

/-- Witness of C1: a breakpoint hit on thread 7 delivered to a fresh session. -/
theorem stop_callbacks_never_continue_witness :
    (Event.Breakpoint 7 = Event.Breakpoint 7 ∨ Event.Breakpoint 7 = Event.StepComplete 7 ∨
      Event.Breakpoint 7 = Event.Exception 7 true) ∧
    ∃ acts, (ManagedCallback.deliver Env.sample (Event.Breakpoint 7) Session.init).trace
        = Session.init.trace ++ acts ∧
      continues acts = 0 ∧
      ∃ r, records acts = [r] ∧ "*stopped,".toList <+: r :=
  ⟨Or.inl rfl,
   stop_callbacks_never_continue Env.sample Session.init 7 (Event.Breakpoint 7) (Or.inl rfl)⟩

/-- Every lifecycle callback other than `UnloadAssembly` (LoadModule,
UnloadModule, CreateThread, ExitThread, LoadAssembly, CreateAppDomain,
ExitAppDomain, CreateProcess, Exception with unhandled = false) adds exactly
one `Continue` call. -/
theorem lifecycle_callbacks_continue_once (env : Env) (s : Session) (ev : Event)
    (hev : (∃ m, ev = Event.LoadModule m) ∨ (∃ m, ev = Event.UnloadModule m) ∨
      (∃ t, ev = Event.CreateThread t) ∨ (∃ t, ev = Event.ExitThread t) ∨
      ev = Event.LoadAssembly ∨ ev = Event.CreateAppDomain ∨ ev = Event.ExitAppDomain ∨
      ev = Event.CreateProcess ∨ (∃ t, ev = Event.Exception t false)) :
    continues (ManagedCallback.deliver env ev s).trace = continues s.trace + 1 := by
  have c1 := fun t => (PrintLocation_acts env t []).1
  rcases hev with ⟨m, rfl⟩ | ⟨m, rfl⟩ | ⟨t, rfl⟩ | ⟨t, rfl⟩ | rfl | rfl | rfl | rfl | ⟨t, rfl⟩
  · simp only [ManagedCallback.deliver, ManagedCallback.LoadModule]
    split_ifs <;>
      simp [Session.act_trace, continues_append, continues_cons, continues_nil]
  all_goals
    simp [ManagedCallback.deliver, ManagedCallback.HandleEvent, ManagedCallback.CreateThread,
      ManagedCallback.ExitThread, ManagedCallback.LoadAssembly, ManagedCallback.CreateAppDomain,
      ManagedCallback.CreateProcess, ManagedCallback.Exception,
      Session.act_trace, Session.acts_trace, continues_append, continues_cons, continues_nil, c1]

/-- C2 (the code at the failing input): the `UnloadAssembly` callback returns
without calling `Continue`; it leaves the session, trace included, as it was. -/
theorem unloadAssembly_returns_without_continue (env : Env) (s : Session) :
    ManagedCallback.deliver env Event.UnloadAssembly s = s ∧
    continues (ManagedCallback.deliver env Event.UnloadAssembly s).trace = continues s.trace :=
  ⟨rfl, rfl⟩

/-- C3: after a stop callback (Breakpoint, StepComplete, Exception with
unhandled = true) delivered for thread t the current thread is t, whatever it
was before; every other callback leaves the current thread as it was. -/
theorem current_thread_set_only_by_stops (env : Env) (s : Session) (ev : Event) :
    (∀ t, (ev = Event.Breakpoint t ∨ ev = Event.StepComplete t ∨ ev = Event.Exception t true) →
      (ManagedCallback.deliver env ev s).g_currentThread = some t) ∧
    ((∀ t, ev ≠ Event.Breakpoint t ∧ ev ≠ Event.StepComplete t ∧ ev ≠ Event.Exception t true) →
      (ManagedCallback.deliver env ev s).g_currentThread = s.g_currentThread) := by
  constructor
  · intro t hev
    rcases hev with rfl | rfl | rfl <;>
      simp only [ManagedCallback.deliver, ManagedCallback.Breakpoint,
        ManagedCallback.StepComplete, ManagedCallback.Exception, if_true] <;>
      exact (storeCurrentThread_spec t _).2.1
  · intro hne
    cases ev with
    | Breakpoint t => exact absurd rfl (hne t).1
    | StepComplete t => exact absurd rfl (hne t).2.1
    | Exception t unhandled =>
      cases unhandled with
      | true => exact absurd rfl (hne t).2.2
      | false => simp [ManagedCallback.deliver, ManagedCallback.Exception, Session.act, Session.acts]
    | LoadModule m =>
      simp only [ManagedCallback.deliver, ManagedCallback.LoadModule]
      split_ifs <;> rfl
    | _ => rfl

/-- Witness of C3: a step completing on thread 4 while thread 9 was current
makes 4 current; a module load leaves thread 9 current. -/
theorem current_thread_set_only_by_stops_witness :
    (ManagedCallback.deliver Env.sample (Event.StepComplete 4)
        { Session.init with g_currentThread := some 9 }).g_currentThread = some 4 ∧
    (ManagedCallback.deliver Env.sample (Event.LoadModule 2)
        { Session.init with g_currentThread := some 9 }).g_currentThread = some 9 :=
  ⟨(current_thread_set_only_by_stops Env.sample
        { Session.init with g_currentThread := some 9 } (Event.StepComplete 4)).1 4
      (Or.inr (Or.inl rfl)),
   (current_thread_set_only_by_stops Env.sample
        { Session.init with g_currentThread := some 9 } (Event.LoadModule 2)).2
      (fun _ => ⟨by simp, by simp, by simp⟩)⟩

/-! ### The step engine -/

theorem FAILED_eq_not_SUCCEEDED (hr : HRESULT) : FAILED hr = !SUCCEEDED hr := by
  simp only [FAILED, SUCCEEDED]
  by_cases h : 0 ≤ hr
  · simp [h, not_lt.mpr h]
  · simp [h, not_le.mp h]

/-- C4 as stated fails: with a stepper created but `SetInterceptMask` failing,
`RunStep` (here for STEP_OVER) returns the failure and issues no stepping
request at all. -/
theorem RunStep_no_request_when_mask_fails :
    steppersCreated (RunStep { Env.sample with SetInterceptMask := fun _ => E_FAIL } 7
        StepType.STEP_OVER).2 = [7] ∧
    stepRequests (RunStep { Env.sample with SetInterceptMask := fun _ => E_FAIL } 7
        StepType.STEP_OVER).2 = [] ∧
    (RunStep { Env.sample with SetInterceptMask := fun _ => E_FAIL } 7
        StepType.STEP_OVER).1 = E_FAIL := by
  decide

/-- C4 (amended): when `CreateStepper` and `SetInterceptMask` succeed, `RunStep`
creates one stepper and issues exactly one stepping request on it: `StepOut`
for STEP_OUT, without any range lookup; for STEP_IN and STEP_OVER, after one
range lookup, `StepRange` with the one range found when the lookup succeeds
and the unranged `Step` otherwise, the step-in flag being true exactly for
STEP_IN. When `CreateStepper` fails, `RunStep` returns that failure having made
no other call; when `SetInterceptMask` fails on the stepper created, it
returns that failure having made these two calls only: in both cases no
stepping request is issued. -/
theorem RunStep_issues_one_request (env : Env) (pThread : ThreadPtr) (stepType : StepType) :
    (SUCCEEDED (env.CreateStepper pThread) = true →
      SUCCEEDED (env.SetInterceptMask (RunStep.mask env)) = true →
      steppersCreated (RunStep env pThread stepType).2 = [pThread] ∧
      (stepType = StepType.STEP_OUT →
        stepRequests (RunStep env pThread stepType).2 = [Call.StepOut] ∧
        rangeLookups (RunStep env pThread stepType).2 = []) ∧
      (stepType ≠ StepType.STEP_OUT →
        rangeLookups (RunStep env pThread stepType).2 = [pThread] ∧
        (SUCCEEDED (env.GetStepRangeFromCurrentIP pThread).1 = true →
          stepRequests (RunStep env pThread stepType).2
            = [Call.StepRange (decide (stepType = StepType.STEP_IN))
                (env.GetStepRangeFromCurrentIP pThread).2 1]) ∧
        (SUCCEEDED (env.GetStepRangeFromCurrentIP pThread).1 = false →
          stepRequests (RunStep env pThread stepType).2
            = [Call.Step (decide (stepType = StepType.STEP_IN))]))) ∧
    (FAILED (env.CreateStepper pThread) = true →
      RunStep env pThread stepType
        = (env.CreateStepper pThread, [Act.call (Call.CreateStepper pThread)]) ∧
      stepRequests (RunStep env pThread stepType).2 = []) ∧
    (FAILED (env.CreateStepper pThread) = false →
      FAILED (env.SetInterceptMask (RunStep.mask env)) = true →
      RunStep env pThread stepType
        = (env.SetInterceptMask (RunStep.mask env),
            [Act.call (Call.CreateStepper pThread),
              Act.call (Call.SetInterceptMask (RunStep.mask env))]) ∧
      stepRequests (RunStep env pThread stepType).2 = []) := by
  refine ⟨?_, ?_, ?_⟩
  · intro hCreate hMask
    simp only [RunStep, FAILED_eq_not_SUCCEEDED, hCreate, hMask]
    cases stepType <;>
      by_cases hr : SUCCEEDED (env.GetStepRangeFromCurrentIP pThread).1 = true <;>
      simp [hr, steppersCreated, stepRequests, rangeLookups] <;>
      split_ifs <;> simp [steppersCreated, stepRequests, rangeLookups]
  · intro hCreate
    simp [RunStep, hCreate, stepRequests]
  · intro hCreate hMask
    simp [RunStep, hCreate, hMask, stepRequests]

/-- Witness of C4 (amended): a step-in on thread 7 where the range lookup finds
the IL range 0..8 is one ranged request with the step-in flag set. -/
theorem RunStep_issues_one_request_witness :
    SUCCEEDED (Env.sample.CreateStepper 7) = true ∧
    SUCCEEDED (Env.sample.SetInterceptMask (RunStep.mask Env.sample)) = true ∧
    stepRequests (RunStep Env.sample 7 StepType.STEP_IN).2
      = [Call.StepRange true { startOffset := 0, endOffset := 8 } 1] :=
  ⟨by decide, by decide,
   (((RunStep_issues_one_request Env.sample 7 StepType.STEP_IN).1 (by decide) (by decide)).2.2
      (by decide)).2.1 (by decide)⟩

/-! ### The stack walker -/

/-- The loop of `PrintFrames`, entered on a frame with a successful status that
is not the end-of-stack sentinel, over frames whose `GetFrame` and `Next`
calls all succeed: it returns `S_OK` and has inserted one entry per frame. -/
theorem PrintFrames.loop_delivers (output : Str) (pastEnd : WalkPos) (rest : List WalkPos) :
    ∀ (p : WalkPos) (k : Nat) (Status : HRESULT) (ss : Str) (tr : Trace),
      Status ≠ CORDBG_S_AT_END_OF_STACK → SUCCEEDED Status = true →
      SUCCEEDED p.getFrame = true →
      (∀ q ∈ rest, q.next ≠ CORDBG_S_AT_END_OF_STACK ∧ SUCCEEDED q.next = true ∧
        SUCCEEDED q.getFrame = true) →
      (PrintFrames.loop output pastEnd (p :: rest) k Status ss tr).1 = S_OK ∧
      (PrintFrames.loop output pastEnd (p :: rest) k Status ss tr).2.1
        = ss ++ (PrintFrames.entriesFrom k (p :: rest)).flatten ++ "]".toList := by
  induction rest with
  | nil =>
    intro p k Status ss tr hne hs hg _
    simp [PrintFrames.loop, hne, FAILED_eq_not_SUCCEEDED, hs, hg, PrintFrames.entriesFrom]
  | cons q rest ih =>
    intro p k Status ss tr hne hs hg hrest
    have hq := hrest q (List.mem_cons_self _ _)
    have hrest2 : ∀ r ∈ rest, r.next ≠ CORDBG_S_AT_END_OF_STACK ∧ SUCCEEDED r.next = true ∧
        SUCCEEDED r.getFrame = true := fun r hr => hrest r (List.mem_cons_of_mem _ hr)
    have h := ih q (k + 1) q.next (ss ++ (PrintFrames.frameEntry k p).1)
      (tr ++ [Act.call Call.StackWalkGetFrame] ++ (PrintFrames.frameEntry k p).2
        ++ [Act.call Call.StackWalkNext]) hq.1 hq.2.1 hq.2.2 hrest2
    have e : PrintFrames.loop output pastEnd (p :: q :: rest) k Status ss tr
        = PrintFrames.loop output pastEnd (q :: rest) (k + 1) q.next
            (ss ++ (PrintFrames.frameEntry k p).1)
            (tr ++ [Act.call Call.StackWalkGetFrame] ++ (PrintFrames.frameEntry k p).2
              ++ [Act.call Call.StackWalkNext]) := by
      rw [PrintFrames.loop]
      simp [hne, FAILED_eq_not_SUCCEEDED, hs, hg]
    rw [e]
    refine ⟨h.1, ?_⟩
    rw [h.2]
    simp [PrintFrames.entriesFrom]

theorem PrintFrames.entriesFrom_length (fs : List WalkPos) :
    ∀ k, (PrintFrames.entriesFrom k fs).length = fs.length := by
  induction fs with
  | nil => intro k; rfl
  | cons p ps ih => intro k; simp [PrintFrames.entriesFrom, ih]

theorem PrintFrames.entriesFrom_getElem? (fs : List WalkPos) :
    ∀ (k i : Nat) (p : WalkPos), fs[i]? = some p →
      (PrintFrames.entriesFrom k fs)[i]? = some (PrintFrames.frameEntry (k + i) p).1 := by
  induction fs with
  | nil => intro k i p h; simp at h
  | cons q qs ih =>
    intro k i p h
    cases i with
    | zero =>
      simp only [List.getElem?_cons_zero, Option.some.injEq] at h
      simp [PrintFrames.entriesFrom, h]
    | succ j =>
      simp only [List.getElem?_cons_succ] at h
      have := ih (k + 1) j p h
      simp only [PrintFrames.entriesFrom, List.getElem?_cons_succ, this]
      congr 3
      omega

/-- The function `PrintFrames` on a non-empty stack all of whose fetches
(`GetFrame`, `Next`) succeed: success, one entry per frame. -/
theorem PrintFrames_delivers (env : Env) (pThread : ThreadPtr) (output : Str)
    (hq : SUCCEEDED (env.QueryThread3 pThread) = true)
    (hw : SUCCEEDED (env.CreateStackWalk pThread).1 = true)
    (hne : (env.CreateStackWalk pThread).2.frames ≠ [])
    (hget : ∀ p ∈ (env.CreateStackWalk pThread).2.frames, SUCCEEDED p.getFrame = true)
    (hnext : ∀ p ∈ (env.CreateStackWalk pThread).2.frames.tail,
      p.next ≠ CORDBG_S_AT_END_OF_STACK ∧ SUCCEEDED p.next = true) :
    (PrintFrames env pThread output).1 = S_OK ∧
    (PrintFrames env pThread output).2.1
      = "stack=[".toList
        ++ (PrintFrames.entriesFrom 0 (env.CreateStackWalk pThread).2.frames).flatten
        ++ "]".toList := by
  simp only [PrintFrames, FAILED_eq_not_SUCCEEDED, hq, hw, Bool.not_true, Bool.false_eq_true,
    if_false]
  cases hfs : (env.CreateStackWalk pThread).2.frames with
  | nil => exact absurd hfs hne
  | cons p rest =>
    rw [hfs] at hget hnext
    exact PrintFrames.loop_delivers output _ rest p 0 S_OK _ _ (by decide) (by decide)
      (hget p (List.mem_cons_self _ _))
      (fun q hq => ⟨(hnext q hq).1, (hnext q hq).2, hget q (List.mem_cons_of_mem _ hq)⟩)

/-- C5 as stated fails: on a stack of three frames whose middle frame cannot
be fetched (`GetFrame` fails), `PrintFrames` does not report a stub and go on;
it returns the failure and leaves `output` empty. -/
theorem PrintFrames_aborts_on_failed_fetch :
    (PrintFrames (Env.withStack [WalkPos.ofFrame S_OK Frame.sample,
        WalkPos.ofFrame E_FAIL Frame.none, WalkPos.ofFrame S_OK Frame.sample]) 7 []).1 = E_FAIL ∧
    (PrintFrames (Env.withStack [WalkPos.ofFrame S_OK Frame.sample,
        WalkPos.ofFrame E_FAIL Frame.none, WalkPos.ofFrame S_OK Frame.sample]) 7 []).2.1 = [] ∧
    FAILED E_FAIL = true := by
  decide

/-- Each entry the loop inserts is the separator followed by
`frame={level="i",<fields>}`. -/
theorem PrintFrames.frameEntry_text (k : Nat) (p : WalkPos) :
    (PrintFrames.frameEntry k p).1 = PrintFrames.sep k ++ PrintFrames.entryText k p := by
  simp only [PrintFrames.frameEntry, PrintFrames.entryText, PrintFrames.frameFields]
  split_ifs <;> simp only [List.append_assoc, List.nil_append] <;> rfl

theorem intercalate_cons_eq (sep : Str) (xs : List Str) :
    ∀ x : Str, List.intercalate sep (x :: xs) = x ++ (xs.map (fun y => sep ++ y)).flatten := by
  induction xs with
  | nil => intro x; simp [List.intercalate]
  | cons y ys ih =>
    intro x
    have h := ih y
    simp only [List.intercalate] at h ⊢
    simp only [List.intersperse, List.flatten_cons, List.map_cons, h, List.append_assoc]

theorem PrintFrames.entryTextsFrom_length (fs : List WalkPos) :
    ∀ k, (PrintFrames.entryTextsFrom k fs).length = fs.length := by
  induction fs with
  | nil => intro k; rfl
  | cons p ps ih => intro k; simp [PrintFrames.entryTextsFrom, ih]

theorem PrintFrames.entryTextsFrom_getElem? (fs : List WalkPos) :
    ∀ (k i : Nat) (p : WalkPos), fs[i]? = some p →
      (PrintFrames.entryTextsFrom k fs)[i]? = some (PrintFrames.entryText (k + i) p) := by
  induction fs with
  | nil => intro k i p h; simp at h
  | cons q qs ih =>
    intro k i p h
    cases i with
    | zero =>
      simp only [List.getElem?_cons_zero, Option.some.injEq] at h
      simp [PrintFrames.entryTextsFrom, h]
    | succ j =>
      simp only [List.getElem?_cons_succ] at h
      have := ih (k + 1) j p h
      simp only [PrintFrames.entryTextsFrom, List.getElem?_cons_succ, this]
      congr 2
      omega

/-- From level 1 on, every entry is a comma followed by its text. -/
theorem PrintFrames.entriesFrom_succ_flatten (fs : List WalkPos) :
    ∀ k, (PrintFrames.entriesFrom (k + 1) fs).flatten
      = ((PrintFrames.entryTextsFrom (k + 1) fs).map (fun y => ",".toList ++ y)).flatten := by
  induction fs with
  | nil => intro k; rfl
  | cons p ps ih =>
    intro k
    simp only [PrintFrames.entriesFrom, PrintFrames.entryTextsFrom, List.flatten_cons,
      List.map_cons, ih (k + 1), PrintFrames.frameEntry_text]
    simp [PrintFrames.sep]

/-- The entries inserted for a non-empty stack, concatenated, are the entry
texts separated by single commas. -/
theorem PrintFrames.entriesFrom_zero_flatten (p : WalkPos) (rest : List WalkPos) :
    (PrintFrames.entriesFrom 0 (p :: rest)).flatten
      = List.intercalate ",".toList (PrintFrames.entryTextsFrom 0 (p :: rest)) := by
  simp only [PrintFrames.entriesFrom, PrintFrames.entryTextsFrom, List.flatten_cons,
    intercalate_cons_eq, PrintFrames.frameEntry_text, Nat.zero_add,
    PrintFrames.entriesFrom_succ_flatten rest 0]
  simp [PrintFrames.sep]

/-- An iteration of the loop entered with a failing status returns it at once
and leaves `output` as it was. -/
theorem PrintFrames.loop_fails_on_status (output : Str) (pastEnd : WalkPos) (fs : List WalkPos)
    (k : Nat) (Status : HRESULT) (ss : Str) (tr : Trace) (h : FAILED Status = true) :
    PrintFrames.loop output pastEnd fs k Status ss tr = (Status, output, tr) := by
  have hne : Status ≠ CORDBG_S_AT_END_OF_STACK := by
    intro e
    rw [e] at h
    exact absurd h (by decide)
  cases fs <;> simp [PrintFrames.loop, hne, h]

/-- An iteration of the loop whose `GetFrame` fails returns that failure at
once and leaves `output` as it was. -/
theorem PrintFrames.loop_fails_on_getFrame (output : Str) (pastEnd p : WalkPos)
    (rest : List WalkPos) (k : Nat) (Status : HRESULT) (ss : Str) (tr : Trace)
    (hne : Status ≠ CORDBG_S_AT_END_OF_STACK) (hs : FAILED Status = false)
    (hg : FAILED p.getFrame = true) :
    PrintFrames.loop output pastEnd (p :: rest) k Status ss tr
      = (p.getFrame, output, tr ++ [Act.call Call.StackWalkGetFrame]) := by
  simp [PrintFrames.loop, hne, hs, hg]

/-- The loop over frames `pre` that are fetched, followed by a frame `bad`:
when the `Next()` that moves onto `bad` fails, or when it succeeds and
`GetFrame` fails there, the loop returns that failure and leaves `output` as
it was. The status with which the iteration of `bad` starts is the one the
loop was entered with when `pre` is empty, and the answer of `Next()`
otherwise. -/
theorem PrintFrames.loop_aborts (output : Str) (pastEnd bad : WalkPos) (post : List WalkPos)
    (pre : List WalkPos) :
    ∀ (k : Nat) (Status : HRESULT) (ss : Str) (tr : Trace),
      (∀ q ∈ pre, SUCCEEDED q.getFrame = true) →
      (pre ≠ [] → Status ≠ CORDBG_S_AT_END_OF_STACK ∧ SUCCEEDED Status = true) →
      (∀ q ∈ pre.tail, q.next ≠ CORDBG_S_AT_END_OF_STACK ∧ SUCCEEDED q.next = true) →
      (FAILED (if pre = [] then Status else bad.next) = true →
        (PrintFrames.loop output pastEnd (pre ++ bad :: post) k Status ss tr).1
          = (if pre = [] then Status else bad.next) ∧
        (PrintFrames.loop output pastEnd (pre ++ bad :: post) k Status ss tr).2.1 = output) ∧
      ((if pre = [] then Status else bad.next) ≠ CORDBG_S_AT_END_OF_STACK →
        FAILED (if pre = [] then Status else bad.next) = false →
        FAILED bad.getFrame = true →
        (PrintFrames.loop output pastEnd (pre ++ bad :: post) k Status ss tr).1 = bad.getFrame ∧
        (PrintFrames.loop output pastEnd (pre ++ bad :: post) k Status ss tr).2.1 = output) := by
  induction pre with
  | nil =>
    intro k Status ss tr _ _ _
    simp only [if_true, List.nil_append]
    constructor
    · intro hf
      rw [PrintFrames.loop_fails_on_status output pastEnd _ k Status ss tr hf]
      exact ⟨rfl, rfl⟩
    · intro hne hs hg
      rw [PrintFrames.loop_fails_on_getFrame output pastEnd bad post k Status ss tr hne hs hg]
      exact ⟨rfl, rfl⟩
  | cons q pre ih =>
    intro k Status ss tr hget hst hnext
    obtain ⟨hne, hs⟩ := hst (List.cons_ne_nil _ _)
    have hg := hget q (List.mem_cons_self _ _)
    have hget2 : ∀ r ∈ pre, SUCCEEDED r.getFrame = true :=
      fun r hr => hget r (List.mem_cons_of_mem _ hr)
    have hnext2 : ∀ r ∈ pre, r.next ≠ CORDBG_S_AT_END_OF_STACK ∧ SUCCEEDED r.next = true := by
      simpa using hnext
    simp only [List.cons_ne_nil, if_false]
    cases pre with
    | nil =>
      have e : PrintFrames.loop output pastEnd ([q] ++ bad :: post) k Status ss tr
          = PrintFrames.loop output pastEnd (bad :: post) (k + 1) bad.next
              (ss ++ (PrintFrames.frameEntry k q).1)
              (tr ++ [Act.call Call.StackWalkGetFrame] ++ (PrintFrames.frameEntry k q).2
                ++ [Act.call Call.StackWalkNext]) := by
        simp [PrintFrames.loop, hne, FAILED_eq_not_SUCCEEDED, hs, hg]
      have h := ih (k + 1) bad.next (ss ++ (PrintFrames.frameEntry k q).1)
        (tr ++ [Act.call Call.StackWalkGetFrame] ++ (PrintFrames.frameEntry k q).2
          ++ [Act.call Call.StackWalkNext]) (by simp) (by simp) (by simp)
      simp only [if_true, List.nil_append] at h
      rw [e]
      exact h
    | cons r pre =>
      have hr := hnext2 r (List.mem_cons_self _ _)
      have e : PrintFrames.loop output pastEnd (q :: r :: pre ++ bad :: post) k Status ss tr
          = PrintFrames.loop output pastEnd (r :: pre ++ bad :: post) (k + 1) r.next
              (ss ++ (PrintFrames.frameEntry k q).1)
              (tr ++ [Act.call Call.StackWalkGetFrame] ++ (PrintFrames.frameEntry k q).2
                ++ [Act.call Call.StackWalkNext]) := by
        simp [PrintFrames.loop, hne, FAILED_eq_not_SUCCEEDED, hs, hg]
      have h := ih (k + 1) r.next (ss ++ (PrintFrames.frameEntry k q).1)
        (tr ++ [Act.call Call.StackWalkGetFrame] ++ (PrintFrames.frameEntry k q).2
          ++ [Act.call Call.StackWalkNext]) hget2 (fun _ => hr)
        (fun x hx => hnext2 x (List.mem_cons_of_mem _ hx))
      simp only [List.cons_ne_nil, if_false] at h
      rw [e]
      exact h

/-- The function `PrintFrames` on a stack whose frames `pre` are fetched and
whose next frame `bad` is not: it returns the failure of `Next()` or of
`GetFrame` and leaves `output` as it was. -/
theorem PrintFrames_aborts (env : Env) (pThread : ThreadPtr) (output : Str)
    (hq : SUCCEEDED (env.QueryThread3 pThread) = true)
    (hw : SUCCEEDED (env.CreateStackWalk pThread).1 = true)
    (pre : List WalkPos) (bad : WalkPos) (post : List WalkPos)
    (hfs : (env.CreateStackWalk pThread).2.frames = pre ++ bad :: post)
    (hget : ∀ q ∈ pre, SUCCEEDED q.getFrame = true)
    (hnext : ∀ q ∈ pre.tail, q.next ≠ CORDBG_S_AT_END_OF_STACK ∧ SUCCEEDED q.next = true) :
    (pre ≠ [] → FAILED bad.next = true →
      (PrintFrames env pThread output).1 = bad.next ∧
      (PrintFrames env pThread output).2.1 = output) ∧
    ((pre = [] ∨ (bad.next ≠ CORDBG_S_AT_END_OF_STACK ∧ FAILED bad.next = false)) →
      FAILED bad.getFrame = true →
      (PrintFrames env pThread output).1 = bad.getFrame ∧
      (PrintFrames env pThread output).2.1 = output) := by
  have hl := PrintFrames.loop_aborts output (env.CreateStackWalk pThread).2.pastEnd bad post pre 0
    S_OK "stack=[".toList
    [Act.call (Call.QueryThread3 pThread), Act.call (Call.CreateStackWalk pThread)] hget
    (fun _ => ⟨by decide, by decide⟩) hnext
  have he : PrintFrames env pThread output
      = PrintFrames.loop output (env.CreateStackWalk pThread).2.pastEnd (pre ++ bad :: post) 0
          S_OK "stack=[".toList
          [Act.call (Call.QueryThread3 pThread), Act.call (Call.CreateStackWalk pThread)] := by
    simp [PrintFrames, FAILED_eq_not_SUCCEEDED, hq, hw, hfs]
  rw [he]
  constructor
  · intro hpre hf
    have h := hl.1
    simp only [hpre, if_false] at h
    exact h hf
  · intro hc hg
    have h := hl.2
    by_cases hpre : pre = []
    · simp only [hpre, if_true] at h ⊢
      exact h (by decide) (by decide) hg
    · rcases hc with hc | ⟨h1, h2⟩
      · exact absurd hc hpre
      · simp only [hpre, if_false] at h
        exact h h1 h2 hg

/-- C5 (amended): on a thread that yields a stack walker. On a non-empty
stack all of whose fetches (`GetFrame`, `Next`) succeed, `PrintFrames` returns
success with output `stack=[e0,...,e(n-1)]`, one entry per frame, in order,
entry i being `frame={level="i",<fields of frame i>}`; a frame at level i that
is neither native nor runtime-unwindable and has no IL-frame interface is the
entry `frame={level="i",func="?"}`, one with the interface but without a
function is the entry `frame={level="i",func="[IL Stub or LCG]"}`, and the
walk goes on behind it. A frame whose fetch fails is not reported: when the
frames before it are fetched and the `Next()` that moves onto it fails, or
that `Next()` succeeds and `GetFrame` fails, `PrintFrames` returns that
failure and leaves `output` as it was. -/
theorem PrintFrames_reports_stub_and_continues (env : Env) (pThread : ThreadPtr) (output : Str)
    (hq : SUCCEEDED (env.QueryThread3 pThread) = true)
    (hw : SUCCEEDED (env.CreateStackWalk pThread).1 = true) :
    ((env.CreateStackWalk pThread).2.frames ≠ [] →
      (∀ p ∈ (env.CreateStackWalk pThread).2.frames, SUCCEEDED p.getFrame = true) →
      (∀ p ∈ (env.CreateStackWalk pThread).2.frames.tail,
        p.next ≠ CORDBG_S_AT_END_OF_STACK ∧ SUCCEEDED p.next = true) →
      (PrintFrames env pThread output).1 = S_OK ∧
      (PrintFrames env pThread output).2.1
        = "stack=[".toList
          ++ List.intercalate ",".toList
              (PrintFrames.entryTextsFrom 0 (env.CreateStackWalk pThread).2.frames)
          ++ "]".toList ∧
      (PrintFrames.entryTextsFrom 0 (env.CreateStackWalk pThread).2.frames).length
        = (env.CreateStackWalk pThread).2.frames.length ∧
      ∀ (i : Nat) (p : WalkPos), (env.CreateStackWalk pThread).2.frames[i]? = some p →
        (PrintFrames.entryTextsFrom 0 (env.CreateStackWalk pThread).2.frames)[i]?
          = some ("frame=\x7blevel=\"".toList ++ fmt_dec i ++ "\",".toList
              ++ PrintFrames.frameFields p ++ "\x7d".toList) ∧
        (p.getFrame ≠ S_FALSE → SUCCEEDED p.frame.QueryRuntimeUnwindableFrame = false →
          (FAILED p.frame.QueryILFrame = true →
            (PrintFrames.entryTextsFrom 0 (env.CreateStackWalk pThread).2.frames)[i]?
              = some ("frame=\x7blevel=\"".toList ++ fmt_dec i
                  ++ "\",func=\"?\"\x7d".toList)) ∧
          (FAILED p.frame.QueryILFrame = false → FAILED p.frame.GetFunction = true →
            (PrintFrames.entryTextsFrom 0 (env.CreateStackWalk pThread).2.frames)[i]?
              = some ("frame=\x7blevel=\"".toList ++ fmt_dec i
                  ++ "\",func=\"[IL Stub or LCG]\"\x7d".toList)))) ∧
    (∀ (pre : List WalkPos) (bad : WalkPos) (post : List WalkPos),
      (env.CreateStackWalk pThread).2.frames = pre ++ bad :: post →
      (∀ q ∈ pre, SUCCEEDED q.getFrame = true) →
      (∀ q ∈ pre.tail, q.next ≠ CORDBG_S_AT_END_OF_STACK ∧ SUCCEEDED q.next = true) →
      (pre ≠ [] → FAILED bad.next = true →
        (PrintFrames env pThread output).1 = bad.next ∧
        (PrintFrames env pThread output).2.1 = output) ∧
      ((pre = [] ∨ (bad.next ≠ CORDBG_S_AT_END_OF_STACK ∧ FAILED bad.next = false)) →
        FAILED bad.getFrame = true →
        (PrintFrames env pThread output).1 = bad.getFrame ∧
        (PrintFrames env pThread output).2.1 = output)) := by
  refine ⟨?_, fun pre bad post hfs hget hnext =>
    PrintFrames_aborts env pThread output hq hw pre bad post hfs hget hnext⟩
  intro hne hget hnext
  obtain ⟨h1, h2⟩ := PrintFrames_delivers env pThread output hq hw hne hget hnext
  refine ⟨h1, ?_, PrintFrames.entryTextsFrom_length _ 0, ?_⟩
  · rw [h2]
    cases hfs : (env.CreateStackWalk pThread).2.frames with
    | nil => exact absurd hfs hne
    | cons p rest => rw [PrintFrames.entriesFrom_zero_flatten]
  · intro i p hp
    have he := PrintFrames.entryTextsFrom_getElem? _ 0 i p hp
    rw [Nat.zero_add] at he
    refine ⟨by rw [he]; rfl, fun hnat hru => ⟨fun hil => ?_, fun hil hfn => ?_⟩⟩
    · rw [he]
      simp [PrintFrames.entryText, PrintFrames.frameFields, hnat, hru, hil]
    · rw [he]
      simp [PrintFrames.entryText, PrintFrames.frameFields, hnat, hru, hil, hfn]

/-- Witness of C5 (amended): three frames, the middle one without a function;
the walk succeeds and the middle entry is the stub at level 1. -/
theorem PrintFrames_reports_stub_and_continues_witness :
    (PrintFrames (Env.withStack [WalkPos.ofFrame S_OK Frame.sample,
        WalkPos.ofFrame S_OK Frame.noFunction, WalkPos.ofFrame S_OK Frame.sample]) 7 []).1 = S_OK ∧
    (PrintFrames.entryTextsFrom 0 [WalkPos.ofFrame S_OK Frame.sample,
        WalkPos.ofFrame S_OK Frame.noFunction, WalkPos.ofFrame S_OK Frame.sample])[1]?
      = some ("frame=\x7blevel=\"".toList ++ fmt_dec 1
              ++ "\",func=\"[IL Stub or LCG]\"\x7d".toList) :=
  have h := (PrintFrames_reports_stub_and_continues
    (Env.withStack [WalkPos.ofFrame S_OK Frame.sample,
        WalkPos.ofFrame S_OK Frame.noFunction, WalkPos.ofFrame S_OK Frame.sample]) 7 []
    (by decide) (by decide)).1 (by decide) (by decide) (by decide)
  ⟨h.1, ((h.2.2.2 1 (WalkPos.ofFrame S_OK Frame.noFunction) rfl).2 (by decide) (by decide)).2
    (by decide) (by decide)⟩

/-- A failing `Next()` behind the first frame: `PrintFrames` returns its
failure and reports no frame. -/
theorem PrintFrames_aborts_on_failed_next :
    (PrintFrames (Env.withStack [WalkPos.ofFrame S_OK Frame.sample,
        { next := E_FAIL, getFrame := S_OK, frame := Frame.sample }]) 7 []).1 = E_FAIL ∧
    (PrintFrames (Env.withStack [WalkPos.ofFrame S_OK Frame.sample,
        { next := E_FAIL, getFrame := S_OK, frame := Frame.sample }]) 7 []).2.1 = [] := by
  decide

/-- C6 (amended): on a non-empty stack of n frames all of whose fetches
(`GetFrame`, `Next`) succeed, `PrintFrames` returns success with output
`stack=[e0,e1,...,e(n-1)]`: the n entries of the frames, innermost first,
separated by single commas, entry i being `frame={level="i",<fields of frame i>}`. -/
theorem PrintFrames_output_format (env : Env) (pThread : ThreadPtr) (output : Str)
    (hq : SUCCEEDED (env.QueryThread3 pThread) = true)
    (hw : SUCCEEDED (env.CreateStackWalk pThread).1 = true)
    (hne : (env.CreateStackWalk pThread).2.frames ≠ [])
    (hget : ∀ p ∈ (env.CreateStackWalk pThread).2.frames, SUCCEEDED p.getFrame = true)
    (hnext : ∀ p ∈ (env.CreateStackWalk pThread).2.frames.tail,
      p.next ≠ CORDBG_S_AT_END_OF_STACK ∧ SUCCEEDED p.next = true) :
    (PrintFrames env pThread output).1 = S_OK ∧
    (PrintFrames env pThread output).2.1
      = "stack=[".toList
        ++ List.intercalate ",".toList
            (PrintFrames.entryTextsFrom 0 (env.CreateStackWalk pThread).2.frames)
        ++ "]".toList ∧
    (PrintFrames.entryTextsFrom 0 (env.CreateStackWalk pThread).2.frames).length
      = (env.CreateStackWalk pThread).2.frames.length ∧
    ∀ (i : Nat) (p : WalkPos), (env.CreateStackWalk pThread).2.frames[i]? = some p →
      (PrintFrames.entryTextsFrom 0 (env.CreateStackWalk pThread).2.frames)[i]?
        = some ("frame=\x7blevel=\"".toList ++ fmt_dec i ++ "\",".toList
            ++ PrintFrames.frameFields p ++ "\x7d".toList) := by
  obtain ⟨h1, h2⟩ := PrintFrames_delivers env pThread output hq hw hne hget hnext
  refine ⟨h1, ?_, PrintFrames.entryTextsFrom_length _ 0, ?_⟩
  · rw [h2]
    cases hfs : (env.CreateStackWalk pThread).2.frames with
    | nil => exact absurd hfs hne
    | cons p rest => rw [PrintFrames.entriesFrom_zero_flatten]
  · intro i p hp
    have he := PrintFrames.entryTextsFrom_getElem? _ 0 i p hp
    rw [Nat.zero_add] at he
    rw [he]
    rfl

/-- Witness of C6 (amended): a managed frame above a native one. -/
theorem PrintFrames_output_format_witness :
    (PrintFrames (Env.withStack [WalkPos.ofFrame S_OK Frame.sample,
        WalkPos.ofFrame S_FALSE Frame.none]) 7 []).1 = S_OK ∧
    (PrintFrames (Env.withStack [WalkPos.ofFrame S_OK Frame.sample,
        WalkPos.ofFrame S_FALSE Frame.none]) 7 []).2.1
      = "stack=[".toList
        ++ List.intercalate ",".toList
            (PrintFrames.entryTextsFrom 0 [WalkPos.ofFrame S_OK Frame.sample,
              WalkPos.ofFrame S_FALSE Frame.none])
        ++ "]".toList :=
  have h := PrintFrames_output_format
    (Env.withStack [WalkPos.ofFrame S_OK Frame.sample, WalkPos.ofFrame S_FALSE Frame.none]) 7 []
    (by decide) (by decide) (by decide) (by decide) (by decide)
  ⟨h.1, h.2.1⟩

/-- C6 as stated fails for n = 0: on an empty stack the loop still runs its
first iteration with `Status = S_OK` and asks for the frame; the fetch fails
past the end of the stack, so `PrintFrames` returns that failure and the
output is not `stack=[]`. -/
theorem PrintFrames_empty_stack_not_empty_list :
    (Env.withStack []).CreateStackWalk 7 |>.2.frames = [] ∧
    (PrintFrames (Env.withStack []) 7 []).1 = E_FAIL ∧
    (PrintFrames (Env.withStack []) 7 []).2.1 ≠ "stack=[]".toList := by
  decide

/-- The loop either leaves `output` as it was or returns a text that extends
the stream it was entered with. -/
theorem PrintFrames.loop_extends (output : Str) (pastEnd : WalkPos) (fs : List WalkPos) :
    ∀ (k : Nat) (Status : HRESULT) (ss : Str) (tr : Trace),
      (PrintFrames.loop output pastEnd fs k Status ss tr).2.1 = output ∨
      ss <+: (PrintFrames.loop output pastEnd fs k Status ss tr).2.1 := by
  induction fs with
  | nil =>
    intro k Status ss tr
    simp only [PrintFrames.loop]
    split_ifs
    · exact Or.inr ⟨_, rfl⟩
    · exact Or.inl rfl
    · exact Or.inl rfl
    · exact Or.inr ⟨_, (List.append_assoc _ _ _).symm⟩
  | cons p rest ih =>
    intro k Status ss tr
    simp only [PrintFrames.loop]
    split_ifs
    · exact Or.inr ⟨_, rfl⟩
    · exact Or.inl rfl
    · exact Or.inl rfl
    · rcases ih (k + 1) _ (ss ++ (PrintFrames.frameEntry k p).1) _ with h | h
      · exact Or.inl h
      · exact Or.inr ((List.prefix_append _ _).trans h)

/-- Whatever the stack walker answers, `PrintFrames` never produces the
output `stack=[]`: on success the first iteration has inserted an entry. -/
theorem PrintFrames_never_lists_nothing (env : Env) (pThread : ThreadPtr) :
    (PrintFrames env pThread []).2.1 ≠ "stack=[]".toList := by
  have key : ∀ (p : WalkPos) (r : Str),
      ("stack=[".toList ++ (PrintFrames.frameEntry 0 p).1) <+: r → r ≠ "stack=[]".toList := by
    intro p r ⟨t, ht⟩ hr
    rw [hr, PrintFrames.frameEntry_text] at ht
    simp [PrintFrames.sep, PrintFrames.entryText] at ht
  have hnil : ([] : Str) ≠ "stack=[]".toList := by decide
  have hok : ¬ (S_OK = CORDBG_S_AT_END_OF_STACK) := by decide
  have hok2 : ¬ (FAILED S_OK = true) := by decide
  simp only [PrintFrames]
  split_ifs
  · exact hnil
  · exact hnil
  · cases hfs : (env.CreateStackWalk pThread).2.frames with
    | nil =>
      simp only [PrintFrames.loop]
      split_ifs <;> first
        | exact hnil
        | exact key (env.CreateStackWalk pThread).2.pastEnd _ ⟨"]".toList, rfl⟩
    | cons p rest =>
      simp only [PrintFrames.loop]
      split_ifs <;> first
        | exact hnil
        | exact absurd (by assumption : S_OK = CORDBG_S_AT_END_OF_STACK) hok
        | exact absurd (by assumption : FAILED S_OK = true) hok2
        | (rcases PrintFrames.loop_extends [] (env.CreateStackWalk pThread).2.pastEnd rest 1 _
            ("stack=[".toList ++ (PrintFrames.frameEntry 0 p).1) _ with h | h
           · rw [h]; exact hnil
           · exact key p _ h)

/-! ### The command loop -/

/-- C7 (the code at the failing input): `break-insert Program.cs:10` with token
`1`, when `CreateBreakpointInProcess` fails with `E_FAIL`: the call is made,
no record at all is written (neither `1^done` nor `1^error`), and the loop
goes on. -/
theorem break_insert_failure_is_silent :
    execCommand { Env.sample with CreateBreakpointInProcess := fun _ _ => (E_FAIL, 0) }
        "1".toList "break-insert Program.cs:10".toList Session.init
      = CmdResult.next { Session.init with
          trace := [Act.call (Call.CreateBreakpointInProcess "Program.cs".toList 10)] } ∧
    records (execCommand { Env.sample with CreateBreakpointInProcess := fun _ _ => (E_FAIL, 0) }
        "1".toList "break-insert Program.cs:10".toList Session.init).session.trace = [] := by
  decide

/-- C8 (the code at the failing input): `break-delete x` and
`break-insert Program.cs:abc` make `std::stoul` / `std::stoi` throw
`std::invalid_argument`, which nothing catches: no response is written, and
the loop does not go on to the line that follows. -/
theorem malformed_number_raises_uncaught :
    execCommand Env.sample "7".toList "break-delete x".toList Session.init
      = CmdResult.uncaught StdException.invalid_argument Session.init ∧
    execCommand Env.sample "8".toList "break-insert Program.cs:abc".toList Session.init
      = CmdResult.uncaught StdException.invalid_argument Session.init ∧
    commandLoop Env.sample 3 Session.init "7-break-delete x\n9-thread-info\n".toList
      = LoopEnd.uncaught StdException.invalid_argument
          { Session.init with trace := [Act.out "(gdb)\n".toList] } := by
  decide

/-- C9: with no current thread, each of exec-next, exec-step, exec-finish,
stack-list-frames and stack-list-variables (with or without arguments) is
answered by exactly one record starting with `token^error,`; no stepper is
created, `Continue` is not called, the current thread stays null and the loop
body ends normally, so that the loop reads the next line. -/
theorem commands_without_current_thread (env : Env) (token line : Str) (s : Session)
    (hnull : s.g_currentThread = none)
    (hcmd : line = "exec-next".toList ∨ line = "exec-step".toList ∨ line = "exec-finish".toList ∨
      line = "stack-list-frames".toList ∨
      (∃ args, line = "stack-list-variables ".toList ++ args) ∨
      line = "stack-list-variables".toList) :
    ∃ s' acts r, execCommand env token line s = CmdResult.next s' ∧
      s'.trace = s.trace ++ acts ∧ records acts = [r] ∧ (token ++ "^error,".toList) <+: r ∧
      steppersCreated acts = [] ∧ continues acts = 0 ∧ s'.g_currentThread = none := by
  rcases hcmd with rfl | rfl | rfl | rfl | ⟨args, rfl⟩ | rfl <;>
    simp [execCommand, cmdStep, cmdStackListFrames, cmdStackListVariables, cmdUnknown,
      hnull, Session.act, Session.acts, FAILED, SUCCEEDED, E_FAIL, records,
      steppersCreated, continues_cons, continues_nil, List.prefix_append_right_inj,
      errorHRESULT, List.isPrefixOf]

/-- Witness of C9: `5-exec-next` in a fresh session, where no thread is stopped. -/
theorem commands_without_current_thread_witness :
    Session.init.g_currentThread = none ∧
    ∃ s' acts r, execCommand Env.sample "5".toList "exec-next".toList Session.init
        = CmdResult.next s' ∧
      s'.trace = Session.init.trace ++ acts ∧ records acts = [r] ∧
      ("5".toList ++ "^error,".toList) <+: r ∧
      steppersCreated acts = [] ∧ continues acts = 0 ∧ s'.g_currentThread = none :=
  ⟨rfl, commands_without_current_thread Env.sample "5".toList "exec-next".toList Session.init
    rfl (Or.inl rfl)⟩

/-! ### Functions that write no record -/

theorem Session.act_eq_acts (x : Session) (a : Act) : x.act a = x.acts [a] := rfl

theorem Session.acts_acts (x : Session) (l m : Trace) : (x.acts l).acts m = x.acts (l ++ m) := by
  simp [Session.acts]

theorem Session.acts_g_currentThread (x : Session) (l : Trace) :
    (x.acts l).g_currentThread = x.g_currentThread := rfl

theorem Session.acts_nil (x : Session) : x.acts [] = x := by
  simp [Session.acts]

/-- The loop reads the next line after a command whose pass ended normally. -/
theorem commandLoop_reads_next (env : Env) (fuel : Nat) (s s' : Session) (stdin rest token : Str)
    (h : loopIteration env s stdin = Iteration.ran token (CmdResult.next s') rest) :
    commandLoop env (fuel + 1) s stdin = commandLoop env fuel s' rest := by
  simp only [commandLoop, h]

/-! ### Line splitting -/

theorem rfind_eq_none (ch : Char) (l : Str) (h : ch ∉ l) : rfind l ch = none := by
  induction l with
  | nil => rfl
  | cons c cs ih =>
    have hc : c ≠ ch := fun e => h (e ▸ List.mem_cons_self _ _)
    have hcs : ch ∉ cs := fun m => h (List.mem_cons_of_mem _ m)
    simp [rfind, hc, ih hcs]

/-- The commands other than `break-insert` report a failing call: thread-info,
exec-continue, exec-interrupt, stack-list-frames, stack-list-variables and a
step whose `Continue` fails write exactly the record
`token^error,msg="HRESULT=..."`, a step whose `RunStep` fails writes
`token^error,msg="Cannot create stepper: ..."`, and the loop goes on. -/
theorem failing_calls_reported (env : Env) (token : Str) (s : Session) :
    (FAILED env.EnumerateThreads.1 = true →
      execCommand env token "thread-info".toList s
        = CmdResult.next (s.acts [Act.call Call.EnumerateThreads,
            Act.out (errorHRESULT token env.EnumerateThreads.1)])) ∧
    (FAILED env.Continue = true →
      execCommand env token "exec-continue".toList s
        = CmdResult.next (s.acts [Act.call Call.Continue,
            Act.out (errorHRESULT token env.Continue)])) ∧
    (FAILED env.Stop = true →
      execCommand env token "exec-interrupt".toList s
        = CmdResult.next (s.acts [Act.call Call.Stop, Act.out (errorHRESULT token env.Stop)])) ∧
    (∀ t, s.g_currentThread = some t → FAILED (RunStep env t StepType.STEP_OVER).1 = true →
      execCommand env token "exec-next".toList s
        = CmdResult.next (s.acts ([Act.lock Mutex.g_currentThreadMutex]
            ++ (RunStep env t StepType.STEP_OVER).2
            ++ [Act.unlock Mutex.g_currentThreadMutex,
                Act.out (token ++ "^error,msg=\"Cannot create stepper: ".toList
                  ++ fmt_x (RunStep env t StepType.STEP_OVER).1 ++ "\"\n".toList)]))) ∧
    (∀ t, s.g_currentThread = some t → FAILED (RunStep env t StepType.STEP_OVER).1 = false →
      FAILED env.Continue = true →
      execCommand env token "exec-next".toList s
        = CmdResult.next (s.acts ([Act.lock Mutex.g_currentThreadMutex]
            ++ (RunStep env t StepType.STEP_OVER).2
            ++ [Act.unlock Mutex.g_currentThreadMutex, Act.call Call.Continue,
                Act.out (errorHRESULT token env.Continue)]))) ∧
    (∀ t, s.g_currentThread = some t → FAILED (PrintFrames env t []).1 = true →
      execCommand env token "stack-list-frames".toList s
        = CmdResult.next (s.acts ([Act.lock Mutex.g_currentThreadMutex]
            ++ (PrintFrames env t []).2.2
            ++ [Act.unlock Mutex.g_currentThreadMutex,
                Act.out (errorHRESULT token (PrintFrames env t []).1)]))) ∧
    (∀ t args, s.g_currentThread = some t → FAILED (env.GetActiveFrame t).1 = true →
      execCommand env token ("stack-list-variables ".toList ++ args) s
        = CmdResult.next (s.acts [Act.lock Mutex.g_currentThreadMutex,
            Act.call (Call.GetActiveFrame t), Act.unlock Mutex.g_currentThreadMutex,
            Act.out (errorHRESULT token (env.GetActiveFrame t).1)])) ∧
    (∀ t args, s.g_currentThread = some t → FAILED (env.GetActiveFrame t).1 = false →
      FAILED (env.GetActiveFrame t).2.ListVariables = true →
      execCommand env token ("stack-list-variables ".toList ++ args) s
        = CmdResult.next (s.acts [Act.lock Mutex.g_currentThreadMutex,
            Act.call (Call.GetActiveFrame t), Act.call Call.ListVariables,
            Act.unlock Mutex.g_currentThreadMutex,
            Act.out (errorHRESULT token (env.GetActiveFrame t).2.ListVariables)])) := by
  have hfs : ∀ hr : HRESULT, FAILED hr = true → SUCCEEDED hr = false := by
    intro hr h; rw [FAILED_eq_not_SUCCEEDED] at h; simpa using h
  have hsf : ∀ hr : HRESULT, FAILED hr = false → SUCCEEDED hr = true := by
    intro hr h; rw [FAILED_eq_not_SUCCEEDED] at h; simpa using h
  refine ⟨?_, ?_, ?_, ?_, ?_, ?_, ?_, ?_⟩
  · intro h
    simp [execCommand, cmdThreadInfo, PrintThreadsState, h, hfs _ h, Session.act_eq_acts,
      Session.acts_acts]
  · intro h
    simp [execCommand, cmdExecContinue, hfs _ h, Session.act_eq_acts, Session.acts_acts]
  · intro h
    simp [execCommand, cmdExecInterrupt, hfs _ h, Session.act_eq_acts, Session.acts_acts]
  · intro t ht h
    simp [execCommand, cmdStep, ht, h, Session.act_eq_acts, Session.acts_acts,
      Session.acts_g_currentThread, List.isPrefixOf]
  · intro t ht h hc
    simp [execCommand, cmdStep, ht, h, hfs _ hc, Session.act_eq_acts, Session.acts_acts,
      Session.acts_g_currentThread, List.isPrefixOf]
  · intro t ht h
    simp [execCommand, cmdStackListFrames, ht, hfs _ h, Session.act_eq_acts, Session.acts_acts,
      Session.acts_g_currentThread, List.isPrefixOf]
  · intro t args ht h
    simp [execCommand, cmdStackListVariables, ht, hfs _ h, Session.act_eq_acts,
      Session.acts_acts, Session.acts_g_currentThread, List.isPrefixOf]
  · intro t args ht h hl
    simp [execCommand, cmdStackListVariables, ht, hsf _ h, hfs _ hl, Session.act_eq_acts,
      Session.acts_acts, Session.acts_g_currentThread, List.isPrefixOf]

/-- The malformed lines that are reported: a line that matches none of the
tests of the loop is answered `token^error,msg="Unknown command: ..."`, a
`break-insert` without a colon is answered
`token^error,msg="Unknown breakpoint location format"`; the loop goes on. -/
theorem unknown_and_colonless_reported (env : Env) (token : Str) (s : Session) :
    (∀ line : Str,
      line ≠ "thread-info".toList → line ≠ "exec-continue".toList →
      line ≠ "exec-interrupt".toList → "break-insert ".toList.isPrefixOf line = false →
      "break-delete ".toList.isPrefixOf line = false → line ≠ "exec-next".toList →
      line ≠ "exec-step".toList → line ≠ "exec-finish".toList →
      line ≠ "stack-list-frames".toList →
      "stack-list-variables ".toList.isPrefixOf line = false → line ≠ "gdb-exit".toList →
      execCommand env token line s
        = CmdResult.next (s.act (Act.out
            (token ++ "^error,msg=\"Unknown command: ".toList ++ line ++ "\"\n".toList)))) ∧
    (∀ args : Str, ':' ∉ args →
      execCommand env token ("break-insert ".toList ++ args) s
        = CmdResult.next (s.act (Act.out
            (token ++ "^error,msg=\"Unknown breakpoint location format\"\n".toList)))) := by
  constructor
  · intro line h1 h2 h3 h4 h5 h6 h7 h8 h9 h10 h11
    simp only [execCommand, h1, h2, h3, h4, h5, h6, h7, h8, h9, h10, h11, if_false, or_self,
      Bool.false_eq_true, cmdUnknown]
  · intro args hargs
    have hr : rfind ("break-insert ".toList ++ args) ':' = none := by
      apply rfind_eq_none
      simp [hargs]
    have h1 : "break-insert ".toList ++ args ≠ "thread-info".toList := by simp
    have h2 : "break-insert ".toList ++ args ≠ "exec-continue".toList := by simp
    have h3 : "break-insert ".toList ++ args ≠ "exec-interrupt".toList := by simp
    have hp : "break-insert ".toList.isPrefixOf ("break-insert ".toList ++ args) = true := by
      simp [List.isPrefixOf]
    generalize "break-insert ".toList ++ args = line at hr h1 h2 h3 hp
    simp only [execCommand, h1, h2, h3, hp, if_false, if_true, cmdBreakInsert, hr]
    cases strchr line ' ' <;> rfl

/-! ### Module load -/

/-- C19: the `LoadModule` callback adds, in this order, the lookup of the module
name, the `=library-loaded` record exactly when the name is not empty, one
symbol load and then one breakpoint resolution for that module, and one
`Continue`; what the symbol load answers changes nothing. -/
theorem LoadModule_order (env : Env) (pModule : ModulePtr) (s : Session) :
    (ManagedCallback.deliver env (Event.LoadModule pModule) s).trace
      = s.trace ++ [Act.call (Call.GetModuleName pModule)]
        ++ (if env.GetModuleName pModule = [] then []
            else [Act.out ("=library-loaded,target-name=\"".toList
                    ++ env.GetModuleName pModule ++ "\"\n".toList)])
        ++ [Act.call (Call.TryLoadModuleSymbols pModule),
            Act.call (Call.TryResolveBreakpointsForModule pModule),
            Act.call Call.Continue] := by
  simp only [ManagedCallback.deliver, ManagedCallback.LoadModule]
  cases h : env.GetModuleName pModule with
  | nil => simp [Session.act]
  | cons c cs => simp [Session.act]

/-! ### The intercept mask -/

/-- The mask with the values of `cordebug.h`. -/
theorem RunStep_mask_sample : RunStep.mask Env.sample = 0xfffa := by
  decide

/-! ### Classification of frames -/

/-- C18: the loop of `PrintFrames` tests in this order: the end-of-stack status
ends the walk and inserts no entry; a frame fetched with a successful status
gets one entry, which is `[NativeStackFrame]` when `GetFrame` returned
`S_FALSE`; otherwise `[RuntimeUnwindableFrame]` when the frame has that
interface; otherwise `?` when it has no IL-frame interface; otherwise
`[IL Stub or LCG]` when its function cannot be obtained; otherwise the managed
entry with the method name, preceded by `line` and `fullname` exactly when the
location resolves. -/
theorem PrintFrames_classification (k : Nat) (p : WalkPos) :
    (∀ (output : Str) (pastEnd : WalkPos) (fs : List WalkPos) (ss : Str) (tr : Trace),
      PrintFrames.loop output pastEnd fs k CORDBG_S_AT_END_OF_STACK ss tr
        = (S_OK, ss ++ "]".toList, tr)) ∧
    (∀ (output : Str) (pastEnd : WalkPos) (rest : List WalkPos) (Status : HRESULT) (ss : Str)
        (tr : Trace),
      Status ≠ CORDBG_S_AT_END_OF_STACK → SUCCEEDED Status = true →
      SUCCEEDED p.getFrame = true →
      PrintFrames.loop output pastEnd (p :: rest) k Status ss tr
        = PrintFrames.loop output pastEnd rest (k + 1)
            (match rest with
              | [] => CORDBG_S_AT_END_OF_STACK
              | q :: _ => q.next)
            (ss ++ (PrintFrames.frameEntry k p).1)
            (tr ++ [Act.call Call.StackWalkGetFrame] ++ (PrintFrames.frameEntry k p).2
              ++ [Act.call Call.StackWalkNext])) ∧
    (p.getFrame = S_FALSE →
      (PrintFrames.frameEntry k p).1 = PrintFrames.sep k ++ "frame=\x7blevel=\"".toList
        ++ fmt_dec k ++ "\",func=\"[NativeStackFrame]\"\x7d".toList) ∧
    (p.getFrame ≠ S_FALSE → SUCCEEDED p.frame.QueryRuntimeUnwindableFrame = true →
      (PrintFrames.frameEntry k p).1 = PrintFrames.sep k ++ "frame=\x7blevel=\"".toList
        ++ fmt_dec k ++ "\",func=\"[RuntimeUnwindableFrame]\"\x7d".toList) ∧
    (p.getFrame ≠ S_FALSE → SUCCEEDED p.frame.QueryRuntimeUnwindableFrame = false →
      FAILED p.frame.QueryILFrame = true →
      (PrintFrames.frameEntry k p).1 = PrintFrames.sep k ++ "frame=\x7blevel=\"".toList
        ++ fmt_dec k ++ "\",func=\"?\"\x7d".toList) ∧
    (p.getFrame ≠ S_FALSE → SUCCEEDED p.frame.QueryRuntimeUnwindableFrame = false →
      FAILED p.frame.QueryILFrame = false → FAILED p.frame.GetFunction = true →
      (PrintFrames.frameEntry k p).1 = PrintFrames.sep k ++ "frame=\x7blevel=\"".toList
        ++ fmt_dec k ++ "\",func=\"[IL Stub or LCG]\"\x7d".toList) ∧
    (p.getFrame ≠ S_FALSE → SUCCEEDED p.frame.QueryRuntimeUnwindableFrame = false →
      FAILED p.frame.QueryILFrame = false → FAILED p.frame.GetFunction = false →
      (FAILED p.frame.GetFrameLocation = true →
        (PrintFrames.frameEntry k p).1 = PrintFrames.sep k ++ "frame=\x7blevel=\"".toList
          ++ fmt_dec k ++ "\",func=\"".toList ++ p.frame.methodName ++ "\"\x7d".toList) ∧
      (FAILED p.frame.GetFrameLocation = false →
        (PrintFrames.frameEntry k p).1 = PrintFrames.sep k ++ "frame=\x7blevel=\"".toList
          ++ fmt_dec k ++ "\",line=\"".toList ++ fmt_dec p.frame.linenum
          ++ "\",fullname=\"".toList ++ p.frame.fullname ++ "\",func=\"".toList
          ++ p.frame.methodName ++ "\"\x7d".toList)) := by
  refine ⟨?_, ?_, ?_, ?_, ?_, ?_, ?_⟩
  · intro output pastEnd fs ss tr
    cases fs <;> simp [PrintFrames.loop]
  · intro output pastEnd rest Status ss tr hne hs hg
    cases rest <;> simp [PrintFrames.loop, hne, FAILED_eq_not_SUCCEEDED, hs, hg]
  · intro h
    simp [PrintFrames.frameEntry, h]
  · intro h1 h2
    simp [PrintFrames.frameEntry, h1, h2]
  · intro h1 h2 h3
    simp [PrintFrames.frameEntry, h1, h2, h3]
  · intro h1 h2 h3 h4
    simp [PrintFrames.frameEntry, h1, h2, h3, h4]
  · intro h1 h2 h3 h4
    constructor
    · intro h5
      simp [PrintFrames.frameEntry, h1, h2, h3, h4, PrintFrameLocation, h5]
    · intro h5
      simp [PrintFrames.frameEntry, h1, h2, h3, h4, PrintFrameLocation, h5]

/-- Witness of C18: a frame at level 1 fetched with `S_FALSE` is a native frame. -/
theorem PrintFrames_classification_witness :
    (WalkPos.ofFrame S_FALSE Frame.none).getFrame = S_FALSE ∧
    (PrintFrames.frameEntry 1 (WalkPos.ofFrame S_FALSE Frame.none)).1
      = PrintFrames.sep 1 ++ "frame=\x7blevel=\"".toList
        ++ fmt_dec 1 ++ "\",func=\"[NativeStackFrame]\"\x7d".toList :=
  ⟨rfl, (PrintFrames_classification 1 (WalkPos.ofFrame S_FALSE Frame.none)).2.2.1 rfl⟩

/-! ### Deleting a breakpoint -/

theorem digitChar_digit : ∀ m, m < 10 →
    isdigit (Nat.digitChar m) = true ∧ (Nat.digitChar m).toNat - '0'.toNat = m := by
  decide

theorem decimalValue_append_singleton (pre : Str) (c : Char) :
    decimalValue (pre ++ [c]) = 10 * decimalValue pre + (c.toNat - '0'.toNat) := by
  simp [decimalValue, List.foldl_append]

/-- The digits `Nat.toDigitsCore` puts in front of its accumulator: a non-empty
run of decimal digits whose value is the number. -/
theorem toDigitsCore_decimal (fuel : Nat) :
    ∀ (n : Nat) (ds : Str), n < fuel →
      ∃ pre : Str, Nat.toDigitsCore 10 fuel n ds = pre ++ ds ∧ pre ≠ [] ∧
        (∀ c ∈ pre, isdigit c = true) ∧ decimalValue pre = n := by
  induction fuel with
  | zero => intro n ds h; omega
  | succ fuel ih =>
    intro n ds h
    have hd := digitChar_digit (n % 10) (Nat.mod_lt _ (by decide))
    by_cases h0 : n / 10 = 0
    · refine ⟨[Nat.digitChar (n % 10)], ?_, by simp, ?_, ?_⟩
      · simp [Nat.toDigitsCore, h0]
      · intro c hc
        rw [List.mem_singleton.mp hc]; exact hd.1
      · have h10 : n % 10 = n := Nat.mod_eq_of_lt (by omega)
        have h2 := hd.2
        have h48 : '0'.toNat = 48 := rfl
        rw [h48] at h2
        simp only [decimalValue, List.foldl, h48]
        omega
    · obtain ⟨pre, hpre, hne, hall, hval⟩ := ih (n / 10) (Nat.digitChar (n % 10) :: ds) (by omega)
      refine ⟨pre ++ [Nat.digitChar (n % 10)], ?_, by simp, ?_, ?_⟩
      · simp [Nat.toDigitsCore, h0, hpre]
      · intro c hc
        rcases List.mem_append.mp hc with h1 | h1
        · exact hall c h1
        · rw [List.mem_singleton.mp h1]; exact hd.1
      · rw [decimalValue_append_singleton, hval, hd.2]
        omega

/-- The decimal text of a number is a non-empty run of digits with that value. -/
theorem fmt_dec_decimal (n : Nat) :
    fmt_dec n ≠ [] ∧ (∀ c ∈ fmt_dec n, isdigit c = true) ∧ decimalValue (fmt_dec n) = n := by
  obtain ⟨pre, hpre, hne, hall, hval⟩ := toDigitsCore_decimal (n + 1) n [] (by omega)
  have : fmt_dec n = pre := by
    simp [fmt_dec, Nat.repr, Nat.toDigits, hpre, List.asString]
  rw [this]
  exact ⟨hne, hall, hval⟩

theorem isdigit_not_special (c : Char) (h : isdigit c = true) :
    isspace c = false ∧ c ≠ '-' ∧ c ≠ '+' := by
  simp only [isdigit, decide_eq_true_eq] at h
  refine ⟨?_, ?_, ?_⟩
  · simp only [isspace, Bool.or_eq_false_iff, decide_eq_false_iff_not]
    refine ⟨⟨⟨⟨⟨?_, ?_⟩, ?_⟩, ?_⟩, ?_⟩, ?_⟩ <;>
      (intro e; rw [e] at h; revert h; decide)
  · intro e; rw [e] at h; revert h; decide
  · intro e; rw [e] at h; revert h; decide

/-- After white space, a non-empty run of digits parses to its value. -/
theorem parseDecimal_space_digits (ds : Str) (hne : ds ≠ [])
    (hall : ∀ c ∈ ds, isdigit c = true) :
    parseDecimal (' ' :: ds) = some (decimalValue ds : Int) := by
  cases ds with
  | nil => exact absurd rfl hne
  | cons c cs =>
    obtain ⟨hs, hm, hp⟩ := isdigit_not_special c (hall c (List.mem_cons_self _ _))
    have htw : List.takeWhile isdigit (c :: cs) = c :: cs :=
      List.takeWhile_eq_self_iff.mpr hall
    have hsp : isspace ' ' = true := by decide
    simp [parseDecimal, List.dropWhile, hsp, hs, hm, hp, htw]

/-- C15: for every breakpoint id (a 32-bit number, written in decimal), the
command `break-delete <id>` calls `DeleteBreakpoint(id)`, ignores what it
returns, answers `token^done` and ends normally, so that the loop goes on. -/
theorem break_delete_answers_done (env : Env) (token : Str) (s : Session) (id : Nat)
    (hid : id < 2 ^ 32) :
    execCommand env token ("break-delete ".toList ++ fmt_dec id) s
      = CmdResult.next ((s.act (Act.call (Call.DeleteBreakpoint id))).act
          (Act.out (token ++ "^done\n".toList))) := by
  obtain ⟨hne, hall, hval⟩ := fmt_dec_decimal id
  generalize fmt_dec id = ds at hne hall hval
  have hparse := parseDecimal_space_digits ds hne hall
  have h1 : "break-delete ".toList ++ ds ≠ "thread-info".toList := by simp
  have h2 : "break-delete ".toList ++ ds ≠ "exec-continue".toList := by simp
  have h3 : "break-delete ".toList ++ ds ≠ "exec-interrupt".toList := by simp
  have h4 : "break-insert ".toList.isPrefixOf ("break-delete ".toList ++ ds) = false := by
    simp [List.isPrefixOf]
  have h5 : "break-delete ".toList.isPrefixOf ("break-delete ".toList ++ ds) = true := by
    simp [List.isPrefixOf]
  have h6 : strchr ("break-delete ".toList ++ ds) ' ' = some 12 := by
    simp [strchr]
  have h7 : List.drop 12 ("break-delete ".toList ++ ds) = ' ' :: ds := by
    simp
  have h8 : stoul (' ' :: ds) = Except.ok id := by
    simp only [stoul, hparse, hval]
    have : ¬ (2 ^ 64 - 1 < (id : Int).natAbs) := by
      simp only [Int.natAbs_ofNat]; omega
    simp only [this, if_false]
    congr 1
    omega
  simp only [execCommand, h1, h2, h3, h4, h5, if_false, if_true, Bool.false_eq_true,
    cmdBreakDelete, h6, h7, h8]
  rw [Nat.mod_eq_of_lt hid]

/-- Witness of C15: `3-break-delete 42`. -/
theorem break_delete_answers_done_witness :
    (42 : Nat) < 2 ^ 32 ∧
    execCommand Env.sample "3".toList ("break-delete ".toList ++ fmt_dec 42) Session.init
      = CmdResult.next ((Session.init.act (Act.call (Call.DeleteBreakpoint 42))).act
          (Act.out ("3".toList ++ "^done\n".toList))) :=
  ⟨by decide, break_delete_answers_done Env.sample "3".toList Session.init 42 (by decide)⟩

/-! ### Reading memory -/

theorem and_not_low_mask (x k : Nat) (hx : x < 2 ^ 64) (hk : k ≤ 64) :
    x &&& ((2 ^ 64 - 1) ^^^ (2 ^ k - 1)) = x / 2 ^ k * 2 ^ k := by
  rw [← Nat.shiftRight_eq_div_pow, ← Nat.shiftLeft_eq]
  apply Nat.eq_of_testBit_eq
  intro i
  rw [Nat.testBit_and, Nat.testBit_xor, Nat.testBit_two_pow_sub_one,
    Nat.testBit_two_pow_sub_one, Nat.testBit_shiftLeft, Nat.testBit_shiftRight]
  by_cases hi : i < k
  · have : i < 64 := by omega
    simp [hi, this]
  · by_cases h64 : i < 64
    · have : k ≤ i := by omega
      simp [hi, h64, this]
    · have hlt : x < 2 ^ i :=
        lt_of_lt_of_le hx (Nat.pow_le_pow_right (by decide) (by omega))
      have hk2 : k ≤ i := by omega
      simp [hi, h64, Nat.testBit_lt_two_pow hlt, hk2]

theorem OSPageSize_lt (env : Env) : OSPageSize env < 2 ^ 32 :=
  Nat.mod_lt _ (by decide)

theorem NextOSPageAddress_eq (env : Env) (k addr : Nat)
    (hP : OSPageSize env = 2 ^ k) (hno : addr + OSPageSize env < 2 ^ 64) :
    NextOSPageAddress env addr = (addr / OSPageSize env + 1) * OSPageSize env := by
  have hPpos : 0 < 2 ^ k := Nat.pow_pos (by decide)
  have hk : k < 32 := by
    have h := OSPageSize_lt env
    rw [hP] at h
    exact (Nat.pow_lt_pow_iff_right (by decide)).1 h
  have hlt : 2 ^ k < 2 ^ 64 := Nat.pow_lt_pow_right (by decide) (by omega)
  simp only [NextOSPageAddress, hP] at hno ⊢
  have h1 : (2 ^ k + 2 ^ 64 - 1) % 2 ^ 64 = 2 ^ k - 1 := by
    have : 2 ^ k + 2 ^ 64 - 1 = (2 ^ k - 1) + 2 ^ 64 := by omega
    rw [this, Nat.add_mod_right, Nat.mod_eq_of_lt (by omega)]
  rw [h1, Nat.mod_eq_of_lt hno, and_not_low_mask _ _ hno (by omega),
    Nat.add_div_right _ hPpos]

/-- C13: when the page size is a power of two and `addr + pageSize` does
not overflow, `NextOSPageAddress(addr)` is the smallest multiple of the page
size strictly greater than `addr`; the length of the second read of
`SafeReadMemory` is `pageSize - addr mod pageSize`, lies between 1 and the page
size, every address of the range read again lies in the page of `addr`, and
this is the length `SafeReadMemory` asks for after a failed first read. -/
theorem NextOSPageAddress_next_page (env : Env) (k addr : Nat)
    (hP : OSPageSize env = 2 ^ k) (hno : addr + OSPageSize env < 2 ^ 64) :
    (OSPageSize env ∣ NextOSPageAddress env addr ∧ addr < NextOSPageAddress env addr ∧
      ∀ m, OSPageSize env ∣ m → addr < m → NextOSPageAddress env addr ≤ m) ∧
    SafeReadMemory.retryLength env addr = NextOSPageAddress env addr - addr ∧
    SafeReadMemory.retryLength env addr = OSPageSize env - addr % OSPageSize env ∧
    1 ≤ SafeReadMemory.retryLength env addr ∧
    SafeReadMemory.retryLength env addr ≤ OSPageSize env ∧
    (∀ a, addr ≤ a → a < addr + SafeReadMemory.retryLength env addr →
      a / OSPageSize env = addr / OSPageSize env) ∧
    (∀ cb s p, s.g_process = some p → SUCCEEDED (env.ReadMemory addr cb).1 = false →
      (SafeReadMemory env addr cb s).2.2.trace = s.trace ++
        [Act.lock Mutex.g_processMutex, Act.call (Call.ReadMemory addr cb),
          Act.call (Call.ReadMemory addr (OSPageSize env - addr % OSPageSize env)),
          Act.unlock Mutex.g_processMutex]) := by
  have hnext := NextOSPageAddress_eq env k addr hP hno
  have hlt32 := OSPageSize_lt env
  have hPpos : 0 < OSPageSize env := by rw [hP]; exact Nat.pow_pos (by decide)
  generalize OSPageSize env = P at *
  have hdm := Nat.div_add_mod addr P
  have hmod := Nat.mod_lt addr hPpos
  have hmul : (addr / P + 1) * P = P * (addr / P) + P := by ring
  have hretry : SafeReadMemory.retryLength env addr = P - addr % P := by
    simp only [SafeReadMemory.retryLength, hnext]
    have ha : addr % 2 ^ 64 = addr := Nat.mod_eq_of_lt (by omega)
    rw [ha, hmul]
    have : P * (addr / P) + P + 2 ^ 64 - addr = (P - addr % P) + 2 ^ 64 := by omega
    rw [this, Nat.add_mod_right, Nat.mod_eq_of_lt (by omega), Nat.mod_eq_of_lt (by omega)]
  refine ⟨⟨?_, ?_, ?_⟩, ?_, hretry, ?_, ?_, ?_, ?_⟩
  · rw [hnext]; exact Dvd.intro_left _ rfl
  · rw [hnext, hmul]; omega
  · intro m hdvd hm
    obtain ⟨c, rfl⟩ := hdvd
    rw [hnext]
    have hc : addr / P < c := by
      by_contra hcon
      have hle : c ≤ addr / P := Nat.le_of_not_lt hcon
      have := Nat.mul_le_mul_left P hle
      omega
    calc (addr / P + 1) * P ≤ c * P := Nat.mul_le_mul_right P hc
      _ = P * c := Nat.mul_comm _ _
  · rw [hretry, hnext, hmul]; omega
  · rw [hretry]; omega
  · rw [hretry]; omega
  · intro a h1 h2
    rw [hretry] at h2
    have h3 : a < P * (addr / P) + P := by omega
    have h4 : P * (addr / P) ≤ a := by omega
    apply Nat.div_eq_of_lt_le
    · rw [Nat.mul_comm]; exact h4
    · rw [hmul]; exact h3
  · intro cb s p hp hfail
    simp [SafeReadMemory, Session.act, hp, hfail, hretry]

/-- Witness of C13: pages of 4096 bytes and the address 5000. -/
theorem NextOSPageAddress_next_page_witness :
    OSPageSize Env.sample = 2 ^ 12 ∧ 5000 + OSPageSize Env.sample < 2 ^ 64 ∧
    SafeReadMemory.retryLength Env.sample 5000 = OSPageSize Env.sample - 5000 % OSPageSize Env.sample :=
  ⟨by decide, by decide,
    (NextOSPageAddress_next_page Env.sample 12 5000 (by decide) (by decide)).2.2.1⟩

/-- The value of `NextOSPageAddress` and of the second length on pages of 4096
bytes, at an address inside a page and at the start of a page. -/
theorem NextOSPageAddress_sample :
    NextOSPageAddress Env.sample 5000 = 8192 ∧
    SafeReadMemory.retryLength Env.sample 5000 = 3192 ∧
    NextOSPageAddress Env.sample 4096 = 8192 ∧
    SafeReadMemory.retryLength Env.sample 4096 = 4096 := by
  decide

/-- The lengths of the reads of a trace put together. -/
theorem readLengths_append (a b : Trace) :
    readLengths (a ++ b) = readLengths a ++ readLengths b := by
  induction a with
  | nil => rfl
  | cons x a ih =>
    cases x with
    | call c => cases c <;> simp [readLengths, ih]
    | _ => simp [readLengths, ih]

/-- After a failed first read, `SafeReadMemory` reads again with the length
`NextOSPageAddress(offset) - offset`, whatever `cb` is. -/
theorem SafeReadMemory_retry_lengths (env : Env) (offset cb : Nat) (s : Session) (p : Nat)
    (hp : s.g_process = some p) (hfail : SUCCEEDED (env.ReadMemory offset cb).1 = false) :
    readLengths (SafeReadMemory env offset cb s).2.2.trace =
      readLengths s.trace ++ [cb, SafeReadMemory.retryLength env offset] := by
  simp [SafeReadMemory, Session.act, hp, hfail, readLengths_append, readLengths]

/-- C12 (the code at the failing input): with pages of 4096 bytes, a
request for 4 bytes at the address 4096 whose first read fails is followed by a
second read of 4096 bytes, more than the 4 bytes asked for; when that read
succeeds `SafeReadMemory` returns `TRUE` and reports 4096 bytes read. Nothing
in `SafeReadMemory` bounds the second length by `cb`. -/
theorem SafeReadMemory_retry_exceeds_request :
    readLengths (SafeReadMemory Env.firstReadFails 4096 4
      { Session.init with g_process := some 1 }).2.2.trace = [4, 4096] ∧
    (SafeReadMemory Env.firstReadFails 4096 4
      { Session.init with g_process := some 1 }).2.2.trace =
      [Act.lock Mutex.g_processMutex, Act.call (Call.ReadMemory 4096 4),
        Act.call (Call.ReadMemory 4096 4096), Act.unlock Mutex.g_processMutex] ∧
    (SafeReadMemory Env.firstReadFails 4096 4 { Session.init with g_process := some 1 }).1
      = true ∧
    (SafeReadMemory Env.firstReadFails 4096 4 { Session.init with g_process := some 1 }).2.1
      = some 4096 := by
  decide

/-! ### Functions that make only plain calls -/

theorem plain_map_call {α : Type} (f : α → Call) (l : List α)
    (h : ∀ x, Act.isPlainCall (Act.call (f x)) = true) :
    (l.map (fun x => Act.call (f x))).all Act.isPlainCall = true := by
  induction l with
  | nil => rfl
  | cons x xs ih => simp [h, ih]

theorem PrintFrameLocation_plain (pFrame : Frame) (output : Str) :
    (PrintFrameLocation pFrame output).2.2.all Act.isPlainCall = true := by
  simp only [PrintFrameLocation]
  split_ifs <;> simp [Act.isPlainCall]

theorem PrintLocation_plain (env : Env) (pThread : ThreadPtr) (output : Str) :
    (PrintLocation env pThread output).2.2.all Act.isPlainCall = true := by
  simp only [PrintLocation]
  split_ifs <;> simp [Act.isPlainCall]

theorem RunStep_plain (env : Env) (pThread : ThreadPtr) (stepType : StepType) :
    (RunStep env pThread stepType).2.all Act.isPlainCall = true := by
  simp only [RunStep]
  split_ifs <;> simp [Act.isPlainCall]

theorem PrintThread_plain (env : Env) (pThread : ThreadInfo) (output : Str) :
    (PrintThread env pThread output).2.2.all Act.isPlainCall = true := by
  simp only [PrintThread]
  split_ifs <;> simp [Act.isPlainCall]

theorem PrintThreadsState.threads_loop_plain (env : Env) (threads : List ThreadInfo) :
    ∀ (ss sep : Str) (tr : Trace), tr.all Act.isPlainCall = true →
      (PrintThreadsState.loop env threads ss sep tr).2.all Act.isPlainCall = true := by
  induction threads with
  | nil => intro ss sep tr h; exact h
  | cons t ts ih =>
    intro ss sep tr h
    simp only [PrintThreadsState.loop]
    apply ih
    rw [List.all_append, h, PrintThread_plain]
    rfl

theorem PrintThreadsState_plain (env : Env) (output : Str) :
    (PrintThreadsState env output).2.2.all Act.isPlainCall = true := by
  simp only [PrintThreadsState]
  split_ifs
  · rfl
  · apply PrintThreadsState.threads_loop_plain; rfl

theorem PrintFrames.frameEntry_plain (k : Nat) (p : WalkPos) :
    (PrintFrames.frameEntry k p).2.all Act.isPlainCall = true := by
  simp only [PrintFrames.frameEntry]
  split_ifs <;> simp [Act.isPlainCall, PrintFrameLocation_plain]

theorem PrintFrames.loop_plain (output : Str) (pastEnd : WalkPos) (fs : List WalkPos) :
    ∀ (k : Nat) (Status : HRESULT) (ss : Str) (tr : Trace), tr.all Act.isPlainCall = true →
      (PrintFrames.loop output pastEnd fs k Status ss tr).2.2.all Act.isPlainCall = true := by
  induction fs with
  | nil =>
    intro k Status ss tr h
    simp only [PrintFrames.loop]
    split_ifs <;> simp [h, Act.isPlainCall, PrintFrames.frameEntry_plain]
  | cons p rest ih =>
    intro k Status ss tr h
    simp only [PrintFrames.loop]
    split_ifs <;> (try apply ih) <;> simp [h, Act.isPlainCall, PrintFrames.frameEntry_plain]

theorem PrintFrames_plain (env : Env) (pThread : ThreadPtr) (output : Str) :
    (PrintFrames env pThread output).2.2.all Act.isPlainCall = true := by
  simp only [PrintFrames]
  split_ifs <;> (try apply PrintFrames.loop_plain) <;> simp [Act.isPlainCall]

theorem Session.acts_g_processExited (x : Session) (l : Trace) :
    (x.acts l).g_processExited = x.g_processExited := rfl

theorem Session.acts_g_process (x : Session) (l : Trace) :
    (x.acts l).g_process = x.g_process := rfl

theorem isEndCall_of_plain (a : Act) (h : Act.isPlainCall a = true) : Act.isEndCall a = false := by
  cases a with
  | call c => cases c <;> simp_all [Act.isPlainCall, Act.isEndCall]
  | _ => rfl

theorem endFree_of_plain (l : Trace) (h : l.all Act.isPlainCall = true) :
    l.any Act.isEndCall = false := by
  rw [List.all_eq_true] at h
  rw [List.any_eq_false]
  intro a ha
  simp [isEndCall_of_plain a (h a ha)]

/-- The closing block of a stop callback changes only the current thread and
adds no `Terminate` and no `Detach`. -/
theorem storeCurrentThread_shape (pThread : ThreadPtr) (s : Session) :
    ∃ acts, ManagedCallback.storeCurrentThread pThread s =
        { s.acts acts with g_currentThread := some pThread } ∧
      acts.any Act.isEndCall = false := by
  unfold ManagedCallback.storeCurrentThread
  cases h : s.g_currentThread with
  | none =>
    exact ⟨[Act.lock Mutex.g_currentThreadMutex, Act.call (Call.AddRef pThread),
      Act.unlock Mutex.g_currentThreadMutex], by simp [Session.act, Session.acts, h], by simp [Act.isEndCall]⟩
  | some old =>
    exact ⟨[Act.lock Mutex.g_currentThreadMutex, Act.call (Call.Release old),
      Act.call (Call.AddRef pThread), Act.unlock Mutex.g_currentThreadMutex],
      by simp [Session.act, Session.acts, h], by simp [Act.isEndCall]⟩

/-- A callback appends actions, none of them `Terminate` or `Detach`, and
leaves `g_process` alone; `g_processExited` changes only in `ExitProcess`. -/
theorem deliver_shape (env : Env) (ev : Event) (s : Session) :
    ∃ acts ct, ManagedCallback.deliver env ev s =
        { s.acts acts with
          g_currentThread := ct
          g_processExited := s.g_processExited || decide (ev = Event.ExitProcess) } ∧
      acts.any Act.isEndCall = false := by
  have hsame : ∀ acts : Trace, acts.any Act.isEndCall = false →
      ∃ a ct, s.acts acts = { s.acts a with
            g_currentThread := ct
            g_processExited := s.g_processExited } ∧
        a.any Act.isEndCall = false := by
    intro acts h
    exact ⟨acts, s.g_currentThread, by simp [Session.acts], h⟩
  have hstore : ∀ (acts : Trace) (t : ThreadPtr), acts.any Act.isEndCall = false →
      ∃ a ct, ManagedCallback.storeCurrentThread t (s.acts acts) =
          { s.acts a with
            g_currentThread := ct
            g_processExited := s.g_processExited } ∧
        a.any Act.isEndCall = false := by
    intro acts t h
    obtain ⟨a2, h2, e2⟩ := storeCurrentThread_shape t (s.acts acts)
    refine ⟨acts ++ a2, some t, ?_, by simp [h, e2]⟩
    rw [h2]
    simp [Session.acts]
  have hnone := hsame [] rfl
  simp only [Session.acts_nil] at hnone
  have hloc := fun t => endFree_of_plain _ (PrintLocation_plain env t [])
  have hfl := fun f => endFree_of_plain _ (PrintFrameLocation_plain f [])
  cases ev <;>
    simp only [ManagedCallback.deliver, ManagedCallback.Breakpoint, ManagedCallback.StepComplete,
      ManagedCallback.HandleEvent, ManagedCallback.Exception, ManagedCallback.CreateProcess,
      ManagedCallback.CreateThread, ManagedCallback.ExitThread, ManagedCallback.LoadModule,
      ManagedCallback.CreateAppDomain, ManagedCallback.LoadAssembly,
      ManagedCallback.UnloadAssembly, ManagedCallback.DebuggerError, ManagedCallback.Exception2,
      Session.act_eq_acts, Session.acts_acts, reduceCtorEq, decide_False, Bool.or_false]
  case ExitProcess =>
    exact ⟨[Act.out ("*stopped,reason=\"exited\",exit-code=\"".toList ++ fmt_i 0
      ++ "\"\n".toList)], s.g_currentThread,
      by simp [ManagedCallback.ExitProcess, Session.act, Session.acts], by simp [Act.isEndCall]⟩
  case Breakpoint t => exact hstore _ t (by simp [hloc, Act.isEndCall])
  case StepComplete t => exact hstore _ t (by simp [hloc, Act.isEndCall])
  case Exception t u =>
    by_cases hu : u = true
    · by_cases hs : SUCCEEDED (env.GetActiveFrame t).1 = true
      · simp only [hu, hs, if_true, Session.acts_acts]
        exact hstore _ t (by simp [hloc, hfl, Act.isEndCall])
      · simp only [hu, hs, if_true, if_false, Session.acts_acts, Bool.false_eq_true]
        exact hstore _ t (by simp [hloc, Act.isEndCall])
    · simp only [hu, if_false, Session.acts_acts]
      exact hsame _ (by simp [hloc, Act.isEndCall])
  case LoadModule m =>
    by_cases hn : (!(env.GetModuleName m).isEmpty) = true
    · simp only [hn, if_true, Session.acts_acts]
      exact hsame _ (by simp [Act.isEndCall])
    · simp only [hn, if_false, Session.acts_acts, Bool.false_eq_true]
      exact hsame _ (by simp [Act.isEndCall])
  all_goals
    first
    | exact hsame _ (by simp [Act.isEndCall])
    | exact hnone

/-- Case analysis on the outcome of a command: it appends actions to the trace
and changes nothing else; only `gdb-exit` with a successful `Stop` calls
`Terminate`, right after `Stop` and `DisableAllBreakpointsAndSteppers`, and no
command calls `Detach`. -/
theorem execCommand_cases (env : Env) (token line : Str) (s : Session) (P : CmdResult → Prop)
    (hnext : ∀ acts : Trace, acts.any Act.isEndCall = false → P (CmdResult.next (s.acts acts)))
    (hfail : ∀ acts : Trace, acts.any Act.isEndCall = false →
      P (CmdResult.stopFailed (s.acts acts)))
    (hunc : ∀ (e : StdException) (acts : Trace), acts.any Act.isEndCall = false →
      P (CmdResult.uncaught e (s.acts acts)))
    (hterm : SUCCEEDED env.Stop = true → P (CmdResult.terminated (s.acts ([Act.call Call.Stop] ++
        (DisableAllBreakpointsAndSteppers env).2 ++ [Act.call Call.Terminate])))) :
    P (execCommand env token line s) := by
  have hunc2 : ∀ e : StdException, P (CmdResult.uncaught e s) := by
    intro e
    have := hunc e [] rfl
    rwa [Session.acts_nil] at this
  have h1 := endFree_of_plain _ (PrintThreadsState_plain env [])
  have h2 := fun t st => endFree_of_plain _ (RunStep_plain env t st)
  have h3 := fun t => endFree_of_plain _ (PrintFrames_plain env t [])
  simp only [execCommand]
  split_ifs
  · simp only [cmdThreadInfo, Session.act_eq_acts, Session.acts_acts]
    split_ifs <;> apply hnext <;> simp [h1, Act.isEndCall]
  · simp only [cmdExecContinue, Session.act_eq_acts, Session.acts_acts]
    split_ifs <;> apply hnext <;> simp [Act.isEndCall]
  · simp only [cmdExecInterrupt, Session.act_eq_acts, Session.acts_acts]
    split_ifs <;> apply hnext <;> simp [Act.isEndCall]
  · simp only [cmdBreakInsert, Session.act_eq_acts, Session.acts_acts]
    split
    · split
      · exact hunc2 _
      · split_ifs <;> apply hnext <;> simp [Act.isEndCall]
    · apply hnext; simp [Act.isEndCall]
  · simp only [cmdBreakDelete, Session.act_eq_acts, Session.acts_acts]
    split
    · exact hunc2 _
    · split
      · exact hunc2 _
      · apply hnext; simp [Act.isEndCall]
  · simp only [cmdStep, Session.act_eq_acts, Session.acts_acts, Session.acts_g_currentThread]
    split_ifs <;> apply hnext <;>
      (split <;> simp [h2, Act.isEndCall])
  · simp only [cmdStackListFrames, Session.act_eq_acts, Session.acts_acts,
      Session.acts_g_currentThread]
    split_ifs <;> apply hnext <;>
      (split <;> simp [h3, Act.isEndCall])
  · simp only [cmdStackListVariables, Session.act_eq_acts, Session.acts_acts,
      Session.acts_g_currentThread]
    split_ifs <;> apply hnext <;>
      (split <;> (try split_ifs) <;> simp [Act.isEndCall])
  · simp only [cmdGdbExit, Session.act_eq_acts, Session.acts_acts]
    split_ifs with hstop
    · exact hterm hstop
    · exact hfail _ (by simp [Act.isEndCall])
  · simp only [cmdUnknown, Session.act_eq_acts]
    apply hnext; simp [Act.isEndCall]

/-- A command leaves `g_process`, `g_currentThread` and `g_processExited` as
they are. -/
theorem execCommand_session (env : Env) (token line : Str) (s : Session) :
    ∃ acts, (execCommand env token line s).session = s.acts acts := by
  apply execCommand_cases env token line s (fun r => ∃ acts, r.session = s.acts acts)
  · exact fun acts _ => ⟨acts, rfl⟩
  · exact fun acts _ => ⟨acts, rfl⟩
  · exact fun _ acts _ => ⟨acts, rfl⟩
  · exact fun _ => ⟨_, rfl⟩

/-- The end of `main` appends actions to the trace and changes nothing else. -/
theorem teardown_session (env : Env) (token : Str) (released : Bool) (s : Session) :
    ∃ acts, teardown env token released s = s.acts acts := by
  simp only [teardown, Session.act_eq_acts, Session.acts_acts]
  split_ifs <;> (try simp only [Session.acts_acts]) <;> exact ⟨_, rfl⟩

/-- The function `SafeReadMemory` appends actions to the trace and changes
nothing else. -/
theorem SafeReadMemory_session (env : Env) (offset cb : Nat) (s : Session) :
    ∃ acts, (SafeReadMemory env offset cb s).2.2 = s.acts acts := by
  simp only [SafeReadMemory, Session.act_eq_acts, Session.acts_acts, Session.acts_g_process]
  split
  · exact ⟨_, rfl⟩
  · split_ifs <;> exact ⟨_, rfl⟩

/-! ### The exited flag -/

/-- The part of `main` before the command loop either returns, or ends in a
session that differs from the initial one by `g_process` and by a trace
without `Terminate` and `Detach`. -/
theorem attachDebugger_shape (env : Env) (pid : Nat) :
    (∃ acts, attachDebugger env pid = Startup.exit 1 (Session.init.acts acts)) ∨
    (∃ acts, acts.any Act.isEndCall = false ∧ attachDebugger env pid = Startup.attached
      { g_process := some (env.DebugActiveProcess pid).2, g_currentThread := none,
        g_processExited := false, trace := acts }) := by
  unfold attachDebugger
  simp only [Session.act_eq_acts, Session.acts_acts]
  split_ifs
  all_goals first
    | exact Or.inl ⟨_, rfl⟩
    | exact Or.inr ⟨[Act.call (Call.SetCoreCLRPath (GetCoreCLRLPath env pid)),
        Act.call (Call.CreateVersionStringFromModule pid),
        Act.call Call.CreateDebuggingInterfaceFromVersionEx, Act.call Call.QueryICorDebug,
        Act.call Call.Initialize, Act.call Call.SetManagedHandler,
        Act.call (Call.CanLaunchOrAttach pid), Act.call (Call.DebugActiveProcess pid),
        Act.lock Mutex.g_processMutex, Act.unlock Mutex.g_processMutex],
        by simp [Act.isEndCall], by simp [Session.acts, Session.init]⟩

theorem startup_shape (env : Env) (args : List Str) :
    (∃ code acts, startup env args = Startup.exit code (Session.init.acts acts)) ∨
    (∃ p acts, acts.any Act.isEndCall = false ∧ startup env args = Startup.attached
      { g_process := some p, g_currentThread := none, g_processExited := false,
        trace := acts }) := by
  unfold startup
  by_cases h : args = []
  · rw [if_pos h]; exact Or.inl ⟨_, _, rfl⟩
  · rw [if_neg h]
    cases parseArgs args 0 with
    | exit code tr => exact Or.inl ⟨_, _, rfl⟩
    | pid p =>
      by_cases hp : p = 0
      · simp only [hp, if_true]; exact Or.inl ⟨_, _, rfl⟩
      · simp only [hp, if_false]
        rcases attachDebugger_shape env p with ⟨acts, h⟩ | ⟨acts, h1, h2⟩
        · exact Or.inl ⟨_, _, h⟩
        · exact Or.inr ⟨_, _, h1, h2⟩

/-- The part of `main` before the command loop leaves `g_processExited` false. -/
theorem startup_flag (env : Env) (args : List Str) (s : Session)
    (h : startup env args = Startup.attached s) : s.g_processExited = false := by
  rcases startup_shape env args with ⟨code, acts, h2⟩ | ⟨p, acts, -, h2⟩
  · rw [h2] at h; cases h
  · rw [h2] at h; cases h; rfl

/-- C16: the flag `g_processExited` is false at program start. The
callback `ExitProcess` sets it, writes the one record
`*stopped,reason="exited",exit-code="0"` and calls no `Continue`. No other
callback, no command, neither `SafeReadMemory` nor the startup and the end of
`main` change the flag, and once it is true every callback leaves it true. -/
theorem exited_flag_written_only_by_ExitProcess (env : Env) (s : Session) :
    Session.init.g_processExited = false ∧
    (ManagedCallback.deliver env Event.ExitProcess s).g_processExited = true ∧
    (ManagedCallback.deliver env Event.ExitProcess s).trace =
      s.trace ++ [Act.out "*stopped,reason=\"exited\",exit-code=\"0\"\n".toList] ∧
    continues (ManagedCallback.deliver env Event.ExitProcess s).trace = continues s.trace ∧
    (∀ ev, ev ≠ Event.ExitProcess →
      (ManagedCallback.deliver env ev s).g_processExited = s.g_processExited) ∧
    (∀ token line, (execCommand env token line s).session.g_processExited = s.g_processExited) ∧
    (∀ offset cb, (SafeReadMemory env offset cb s).2.2.g_processExited = s.g_processExited) ∧
    (∀ token released, (teardown env token released s).g_processExited = s.g_processExited) ∧
    (∀ args s2, startup env args = Startup.attached s2 → s2.g_processExited = false) ∧
    (∀ ev, s.g_processExited = true →
      (ManagedCallback.deliver env ev s).g_processExited = true) := by
  have htrace : (ManagedCallback.deliver env Event.ExitProcess s).trace =
      s.trace ++ [Act.out "*stopped,reason=\"exited\",exit-code=\"0\"\n".toList] := by
    have h0 : fmt_i 0 = "0".toList := by decide
    simp [ManagedCallback.deliver, ManagedCallback.ExitProcess, Session.act, h0]
  refine ⟨rfl, rfl, htrace, ?_, ?_, ?_, ?_, ?_, ?_, ?_⟩
  · rw [htrace, continues_append, continues_cons, continues_nil]
    simp
  · intro ev hev
    obtain ⟨acts, ct, h, -⟩ := deliver_shape env ev s
    rw [h]
    simp [hev]
  · intro token line
    obtain ⟨acts, h⟩ := execCommand_session env token line s
    rw [h]
    rfl
  · intro offset cb
    obtain ⟨acts, h⟩ := SafeReadMemory_session env offset cb s
    rw [h]
    rfl
  · intro token released
    obtain ⟨acts, h⟩ := teardown_session env token released s
    rw [h]
    rfl
  · exact fun args s2 h => startup_flag env args s2 h
  · intro ev hs
    obtain ⟨acts, ct, h, -⟩ := deliver_shape env ev s
    rw [h]
    simp [hs]

/-- Witness of C16: a `LoadModule` callback after `ExitProcess` leaves
the flag set, and before it leaves the flag clear. -/
theorem exited_flag_written_only_by_ExitProcess_witness :
    (ManagedCallback.deliver Env.sample (Event.LoadModule 1) Session.init).g_processExited
      = false ∧
    (ManagedCallback.deliver Env.sample (Event.LoadModule 1)
      (ManagedCallback.deliver Env.sample Event.ExitProcess Session.init)).g_processExited
      = true :=
  ⟨(exited_flag_written_only_by_ExitProcess Env.sample Session.init).2.2.2.2.1
      (Event.LoadModule 1) (by decide),
    (exited_flag_written_only_by_ExitProcess Env.sample
      (ManagedCallback.deliver Env.sample Event.ExitProcess Session.init)).2.2.2.2.2.2.2.2.2
      (Event.LoadModule 1) rfl⟩

/-! ### Exit codes of `main` -/

theorem parseArgs_interpreter (l : List Str) (pid0 : Nat) :
    parseArgs ("--interpreter=mi".toList :: l) pid0 = parseArgs l pid0 := by
  have h1 : "--interpreter=mi".toList ≠ "--attach".toList := by decide
  cases l with
  | nil => simp only [parseArgs, if_neg h1, if_true]
  | cons v rest => simp only [parseArgs, if_neg h1, if_true]

theorem parseArgs_attach (v : Str) (l : List Str) (pid0 : Nat) :
    parseArgs ("--attach".toList :: v :: l) pid0 =
      if (strtoul v).2 ≠ [] then
        ArgsResult.exit 1 [Act.stderr "Error: Missing process id\n".toList]
      else parseArgs l ((strtoul v).1 % 2 ^ 32) := by
  simp only [parseArgs, if_true]

theorem parseArgs_unknown (a : Str) (l : List Str) (pid0 : Nat)
    (h1 : a ≠ "--attach".toList) (h2 : a ≠ "--interpreter=mi".toList)
    (h3 : a ≠ "--help".toList) :
    parseArgs (a :: l) pid0 = ArgsResult.exit 1
      [Act.stderr ("Error: Unknown option ".toList ++ a ++ "\n".toList)] := by
  cases l with
  | nil => simp only [parseArgs, if_neg h1, if_neg h2, if_neg h3]
  | cons v rest => simp only [parseArgs, if_neg h1, if_neg h2, if_neg h3]

/-- The argument loop accepts a vector made of `--interpreter=mi` and
`--attach v` items whose operands `strtoul` consumes entirely. -/
theorem parseArgs_renderArgs (opts : List (Option Str)) :
    ∀ pid0, (∀ v, some v ∈ opts → (strtoul v).2 = []) →
      parseArgs (renderArgs opts) pid0 = ArgsResult.pid (lastPid opts pid0) := by
  induction opts with
  | nil => intro pid0 _; rfl
  | cons o opts ih =>
    intro pid0 hc
    have hrest : ∀ v, some v ∈ opts → (strtoul v).2 = [] :=
      fun v hv => hc v (List.mem_cons_of_mem _ hv)
    cases o with
    | none => simp only [renderArgs, lastPid, parseArgs_interpreter, ih pid0 hrest]
    | some v =>
      have hv := hc v (List.mem_cons_self _ _)
      simp only [renderArgs, lastPid, parseArgs_attach, hv, ne_eq, not_true_eq_false, if_false,
        ih _ hrest]

/-- The argument loop returns 1 on every vector without `--help` that is not
made of such items. -/
theorem parseArgs_rejects (n : Nat) :
    ∀ (args : List Str) (pid0 : Nat), args.length ≤ n → "--help".toList ∉ args →
      (∃ msg, parseArgs args pid0 = ArgsResult.exit 1 [Act.stderr msg]) ∨
      (∃ opts, args = renderArgs opts ∧ ∀ v, some v ∈ opts → (strtoul v).2 = []) := by
  induction n with
  | zero =>
    intro args pid0 hlen _
    have : args = [] := List.length_eq_zero.1 (Nat.le_zero.1 hlen)
    exact Or.inr ⟨[], by rw [this]; rfl, by simp⟩
  | succ n ih =>
    intro args pid0 hlen hhelp
    cases args with
    | nil => exact Or.inr ⟨[], rfl, by simp⟩
    | cons a l =>
      have hl : "--help".toList ∉ l := fun h => hhelp (List.mem_cons_of_mem _ h)
      have ha : a ≠ "--help".toList := fun h => hhelp (h ▸ List.mem_cons_self _ _)
      have hlen1 : l.length ≤ n := by simpa using hlen
      by_cases h1 : a = "--attach".toList
      · subst h1
        cases l with
        | nil =>
          exact Or.inl ⟨"Error: Missing process id\n".toList, by simp only [parseArgs, if_true]⟩
        | cons v rest =>
          rw [parseArgs_attach]
          by_cases hv : (strtoul v).2 = []
          · simp only [hv, ne_eq, not_true_eq_false, if_false]
            have hrest : "--help".toList ∉ rest := fun h => hl (List.mem_cons_of_mem _ h)
            have hlen2 : rest.length ≤ n := by
              simp only [List.length_cons] at hlen1; omega
            rcases ih rest ((strtoul v).1 % 2 ^ 32) hlen2 hrest with h | ⟨opts, ho, hc⟩
            · exact Or.inl h
            · refine Or.inr ⟨some v :: opts, by rw [ho]; rfl, ?_⟩
              intro u hu
              rcases List.mem_cons.1 hu with hu | hu
              · cases hu; exact hv
              · exact hc u hu
          · simp only [hv, ne_eq, not_false_eq_true, if_true]
            exact Or.inl ⟨_, rfl⟩
      · by_cases h2 : a = "--interpreter=mi".toList
        · subst h2
          rw [parseArgs_interpreter]
          rcases ih l pid0 hlen1 hl with h | ⟨opts, ho, hc⟩
          · exact Or.inl h
          · refine Or.inr ⟨none :: opts, by rw [ho]; rfl, ?_⟩
            intro u hu
            rcases List.mem_cons.1 hu with hu | hu
            · cases hu
            · exact hc u hu
        · exact Or.inl ⟨_, parseArgs_unknown a l pid0 h1 h2 ha⟩

theorem startup_nil (env : Env) :
    startup env [] = Startup.exit 1 (Session.init.act (Act.stderr helpText)) := by
  unfold startup
  rw [if_pos rfl]

theorem startup_of_exit (env : Env) (args : List Str) (code : Nat) (tr : Trace)
    (hargs : args ≠ []) (h : parseArgs args 0 = ArgsResult.exit code tr) :
    startup env args = Startup.exit code (Session.init.acts tr) := by
  unfold startup
  rw [if_neg hargs, h]

theorem startup_of_pid (env : Env) (args : List Str) (p : Nat)
    (hargs : args ≠ []) (h : parseArgs args 0 = ArgsResult.pid p) :
    startup env args =
      if p = 0 then
        Startup.exit 1 (Session.init.act (Act.stderr "Error: Missing process id\n".toList))
      else attachDebugger env p := by
  unfold startup
  rw [if_neg hargs, h]

/-- Without `--help` among the arguments, a return before the command loop
returns 1. -/
theorem startup_exit_code (env : Env) (args : List Str) (hhelp : "--help".toList ∉ args)
    (code : Nat) (s : Session) (h : startup env args = Startup.exit code s) : code = 1 := by
  by_cases hargs : args = []
  · subst hargs
    rw [startup_nil] at h
    cases h; rfl
  · rcases parseArgs_rejects args.length args 0 (Nat.le_refl _) hhelp with
      ⟨msg, hm⟩ | ⟨opts, ho, hc⟩
    · rw [startup_of_exit env args 1 _ hargs hm] at h
      cases h; rfl
    · have hp := parseArgs_renderArgs opts 0 hc
      rw [← ho] at hp
      rw [startup_of_pid env args _ hargs hp] at h
      by_cases h0 : lastPid opts 0 = 0
      · rw [if_pos h0] at h
        cases h; rfl
      · rw [if_neg h0] at h
        rcases attachDebugger_shape env (lastPid opts 0) with ⟨acts, ha⟩ | ⟨acts, -, ha⟩
        · rw [ha] at h; cases h; rfl
        · rw [ha] at h; cases h

/-- A failure to locate libcoreclr, or of one of the calls whose result
`main` tests, makes the startup return 1. -/
theorem attachDebugger_fails (env : Env) (pid : Nat)
    (h : GetCoreCLRLPath env pid = [] ∨ FAILED (env.CreateVersionStringFromModule pid) = true ∨
      FAILED env.CreateDebuggingInterfaceFromVersionEx = true ∨ FAILED env.QueryICorDebug = true ∨
      FAILED env.Initialize = true ∨ FAILED env.SetManagedHandler = true ∨
      FAILED (env.DebugActiveProcess pid).1 = true) :
    ∃ acts, attachDebugger env pid = Startup.exit 1 (Session.init.acts acts) := by
  rcases attachDebugger_shape env pid with ha | ⟨acts, -, ha⟩
  · exact ha
  · exfalso
    revert ha
    unfold attachDebugger
    simp only [Session.act_eq_acts, Session.acts_acts]
    split_ifs <;> first
      | (rcases h with h | h | h | h | h | h | h <;> contradiction)
      | (intro ha; cases ha)

/-- When libcoreclr is found and the calls whose result `main` tests succeed,
the debugger attaches, whatever `CanLaunchOrAttach` answers. -/
theorem attachDebugger_attaches (env : Env) (pid : Nat)
    (h0 : GetCoreCLRLPath env pid ≠ [])
    (h1 : FAILED (env.CreateVersionStringFromModule pid) = false)
    (h2 : FAILED env.CreateDebuggingInterfaceFromVersionEx = false)
    (h3 : FAILED env.QueryICorDebug = false) (h4 : FAILED env.Initialize = false)
    (h5 : FAILED env.SetManagedHandler = false)
    (h6 : FAILED (env.DebugActiveProcess pid).1 = false) :
    attachDebugger env pid = Startup.attached
      { g_process := some (env.DebugActiveProcess pid).2, g_currentThread := none,
        g_processExited := false
        trace := [Act.call (Call.SetCoreCLRPath (GetCoreCLRLPath env pid)),
          Act.call (Call.CreateVersionStringFromModule pid),
          Act.call Call.CreateDebuggingInterfaceFromVersionEx, Act.call Call.QueryICorDebug,
          Act.call Call.Initialize, Act.call Call.SetManagedHandler,
          Act.call (Call.CanLaunchOrAttach pid), Act.call (Call.DebugActiveProcess pid),
          Act.lock Mutex.g_processMutex, Act.unlock Mutex.g_processMutex] } := by
  unfold attachDebugger
  simp only [Session.act_eq_acts, Session.acts_acts, h0, h1, h2, h3, h4, h5, h6, if_false,
    Bool.false_eq_true]
  simp [Session.acts, Session.init]

/-- C17 as stated fails: `CanLaunchOrAttach` fails for the process 42,
and `main --attach 42` still calls `DebugActiveProcess`, runs the command loop
to the end of the input and returns 0. -/
theorem main_ignores_CanLaunchOrAttach :
    FAILED (Env.refusedAttach.CanLaunchOrAttach 42) = true ∧
    (main (World.steady Env.refusedAttach []) ["--attach".toList, "42".toList] []).code
      = some 0 ∧
    callsOf (main (World.steady Env.refusedAttach []) ["--attach".toList, "42".toList]
      []).session.trace =
      [Call.SetCoreCLRPath "/usr/share/dotnet/libcoreclr.so".toList,
        Call.CreateVersionStringFromModule 42, Call.CreateDebuggingInterfaceFromVersionEx,
        Call.QueryICorDebug, Call.Initialize, Call.SetManagedHandler, Call.CanLaunchOrAttach 42,
        Call.DebugActiveProcess 42, Call.Stop, Call.EnumerateAppDomains, Call.Detach,
        Call.CorDebugTerminate] := by
  decide

/-- C17 (amended): for every argument vector without `--help`: unless it
is made of `--interpreter=mi` and `--attach v` items whose operands `strtoul`
consumes entirely and the last of which gives a non-zero process id, `main`
returns 1 having written one message and made no call. For such a vector it
returns 1 when libcoreclr is not found or when one of
`CreateVersionStringFromModule`, `CreateDebuggingInterfaceFromVersionEx`,
`QueryInterface`, `Initialize`, `SetManagedHandler`, `DebugActiveProcess`
fails, and otherwise goes on to the command loop, whatever `CanLaunchOrAttach`
answered. It returns 0 only after an attach and the end of the command loop. -/
theorem main_exit_codes (w : World) (args : List Str) (stdin : Str)
    (hhelp : "--help".toList ∉ args) :
    ((¬ ∃ opts, args = renderArgs opts ∧ (∀ v, some v ∈ opts → (strtoul v).2 = []) ∧
        lastPid opts 0 ≠ 0) →
      ∃ msg, main w args stdin = MainEnd.returned 1 (Session.init.act (Act.stderr msg))) ∧
    (∀ opts, args = renderArgs opts → (∀ v, some v ∈ opts → (strtoul v).2 = []) →
      lastPid opts 0 ≠ 0 →
      ((GetCoreCLRLPath w.startup (lastPid opts 0) = [] ∨
          FAILED (w.startup.CreateVersionStringFromModule (lastPid opts 0)) = true ∨
          FAILED w.startup.CreateDebuggingInterfaceFromVersionEx = true ∨
          FAILED w.startup.QueryICorDebug = true ∨ FAILED w.startup.Initialize = true ∨
          FAILED w.startup.SetManagedHandler = true ∨
          FAILED (w.startup.DebugActiveProcess (lastPid opts 0)).1 = true) →
        ∃ acts, main w args stdin = MainEnd.returned 1 (Session.init.acts acts)) ∧
      (GetCoreCLRLPath w.startup (lastPid opts 0) ≠ [] →
        FAILED (w.startup.CreateVersionStringFromModule (lastPid opts 0)) = false →
        FAILED w.startup.CreateDebuggingInterfaceFromVersionEx = false →
        FAILED w.startup.QueryICorDebug = false → FAILED w.startup.Initialize = false →
        FAILED w.startup.SetManagedHandler = false →
        FAILED (w.startup.DebugActiveProcess (lastPid opts 0)).1 = false →
        main w args stdin = afterAttach w stdin
          { g_process := some (w.startup.DebugActiveProcess (lastPid opts 0)).2,
            g_currentThread := none, g_processExited := false
            trace := [Act.call (Call.SetCoreCLRPath (GetCoreCLRLPath w.startup (lastPid opts 0))),
              Act.call (Call.CreateVersionStringFromModule (lastPid opts 0)),
              Act.call Call.CreateDebuggingInterfaceFromVersionEx, Act.call Call.QueryICorDebug,
              Act.call Call.Initialize, Act.call Call.SetManagedHandler,
              Act.call (Call.CanLaunchOrAttach (lastPid opts 0)),
              Act.call (Call.DebugActiveProcess (lastPid opts 0)),
              Act.lock Mutex.g_processMutex, Act.unlock Mutex.g_processMutex] })) ∧
    (∀ s, main w args stdin = MainEnd.returned 0 s →
      ∃ s0, startup w.startup args = Startup.attached s0 ∧
        ((∃ token released s1,
            runLoop w (stdin.length + 1) 0 s0 stdin = LoopEnd.left token released s1) ∨
          (∃ token s1, runLoop w (stdin.length + 1) 0 s0 stdin = LoopEnd.waiting token s1 ∧
            (waitForExit w.atExit w.whileWaiting s1).1 = true))) := by
  have hstart : ∀ opts, args = renderArgs opts → (∀ v, some v ∈ opts → (strtoul v).2 = []) →
      lastPid opts 0 ≠ 0 → startup w.startup args = attachDebugger w.startup (lastPid opts 0) := by
    intro opts ho hc hp
    have hargs : args ≠ [] := by
      intro h
      rw [h] at ho
      cases opts with
      | nil => exact hp rfl
      | cons o opts => cases o <;> simp [renderArgs] at ho
    have hpa := parseArgs_renderArgs opts 0 hc
    rw [← ho] at hpa
    rw [startup_of_pid _ args _ hargs hpa, if_neg hp]
  refine ⟨?_, ?_, ?_⟩
  · intro hbad
    by_cases hargs : args = []
    · subst hargs
      exact ⟨helpText, by simp only [main, startup_nil]⟩
    · rcases parseArgs_rejects args.length args 0 (Nat.le_refl _) hhelp with
        ⟨msg, hm⟩ | ⟨opts, ho, hc⟩
      · exact ⟨msg, by simp only [main, startup_of_exit _ args 1 _ hargs hm]; rfl⟩
      · have hp := parseArgs_renderArgs opts 0 hc
        rw [← ho] at hp
        have h0 : lastPid opts 0 = 0 := by
          by_contra h0
          exact hbad ⟨opts, ho, hc, h0⟩
        exact ⟨"Error: Missing process id\n".toList,
          by simp only [main, startup_of_pid _ args _ hargs hp, if_pos h0]⟩
  · intro opts ho hc hp
    refine ⟨?_, ?_⟩
    · intro hfail
      obtain ⟨acts, ha⟩ := attachDebugger_fails w.startup (lastPid opts 0) hfail
      exact ⟨acts, by simp only [main, hstart opts ho hc hp, ha]⟩
    · intro h0 h1 h2 h3 h4 h5 h6
      simp only [main, hstart opts ho hc hp,
        attachDebugger_attaches w.startup (lastPid opts 0) h0 h1 h2 h3 h4 h5 h6]
  · intro s hs
    simp only [main] at hs
    cases hst : startup w.startup args with
    | exit code s2 =>
      rw [hst] at hs
      have := startup_exit_code w.startup args hhelp code s2 hst
      simp only [MainEnd.returned.injEq] at hs
      omega
    | attached s0 =>
      rw [hst] at hs
      refine ⟨s0, rfl, ?_⟩
      simp only [afterAttach] at hs
      cases hl : runLoop w (stdin.length + 1) 0 s0 stdin with
      | left token released s1 => exact Or.inl ⟨token, released, s1, rfl⟩
      | waiting token s1 =>
        rw [hl] at hs
        refine Or.inr ⟨token, s1, rfl, ?_⟩
        by_contra hw
        simp only [hw, if_false] at hs
        cases hs
      | uncaught e s1 => rw [hl] at hs; cases hs
      | outOfFuel s1 => rw [hl] at hs; cases hs

/-- Witness of C17 (amended): `--attach 42` with the sample answers reaches the
command loop. -/
theorem main_exit_codes_witness :
    "--help".toList ∉ ["--attach".toList, "42".toList] ∧
    ∃ s0, main (World.steady Env.sample []) ["--attach".toList, "42".toList] [] =
      afterAttach (World.steady Env.sample []) [] s0 :=
  ⟨by decide, _,
    ((main_exit_codes (World.steady Env.sample []) ["--attach".toList, "42".toList] []
      (by decide)).2.1 [some "42".toList] rfl
      (by intro v hv; simp only [List.mem_singleton, Option.some.injEq] at hv; subst hv; decide)
      (by decide)).2 (by decide) rfl rfl rfl rfl rfl rfl⟩

/-- A signed operand is accepted: `--attach -5` attaches to the process
4294967291. -/
theorem main_accepts_signed_operand :
    parseArgs ["--attach".toList, "-5".toList] 0 = ArgsResult.pid 4294967291 := by
  decide

/-! ### Calls made while a lock is held -/

theorem callsUnderLock_append (m : Mutex) (a b : Trace) :
    ∀ held, callsUnderLock m held (a ++ b) =
      callsUnderLock m held a ++ callsUnderLock m (heldAfter m held a) b := by
  induction a with
  | nil => intro held; rfl
  | cons x a ih =>
    intro held
    cases x with
    | call c =>
      cases held <;> simp [callsUnderLock, heldAfter, ih]
    | _ => simp [callsUnderLock, heldAfter, ih]

theorem heldAfter_append (m : Mutex) (a b : Trace) :
    ∀ held, heldAfter m held (a ++ b) = heldAfter m (heldAfter m held a) b := by
  induction a with
  | nil => intro held; rfl
  | cons x a ih =>
    intro held
    cases x <;> simp [heldAfter, ih]

theorem callsUnderLock_plain (m : Mutex) (tr : Trace) (h : tr.all Act.isPlainCall = true) :
    callsUnderLock m true tr = callsOf tr ∧ callsUnderLock m false tr = [] ∧
      ∀ held, heldAfter m held tr = held := by
  induction tr with
  | nil => exact ⟨rfl, rfl, fun _ => rfl⟩
  | cons x tr ih =>
    rw [List.all_cons, Bool.and_eq_true] at h
    obtain ⟨h1, h2, h3⟩ := ih h.2
    cases x with
    | call c => simp [callsUnderLock, heldAfter, callsOf, h1, h2, h3]
    | _ => simp [Act.isPlainCall] at h

theorem drop_trace_append (tr l : Trace) : (tr ++ l).drop tr.length = l :=
  List.drop_left tr l

/-- C14 as stated fails: with the thread 7 current, `exec-next` makes
all the calls of `RunStep` between taking and releasing `g_currentThreadMutex`,
and `SafeReadMemory` reads the memory while it holds `g_processMutex`. -/
theorem calls_made_under_locks :
    callsUnderLock Mutex.g_currentThreadMutex false
      (execCommand Env.sample "1".toList "exec-next".toList
        { Session.init with g_currentThread := some 7 }).session.trace =
      [Call.CreateStepper 7, Call.SetInterceptMask 0xfffa, Call.GetStepRangeFromCurrentIP 7,
        Call.StepRange false { startOffset := 0, endOffset := 8 } 1] ∧
    callsUnderLock Mutex.g_processMutex false
      (SafeReadMemory Env.sample 4096 4 { Session.init with g_process := some 1 }).2.2.trace =
      [Call.ReadMemory 4096 4] := by
  decide

/-- C14 (amended): the locks are held across calls into the debugging
interface: `SafeReadMemory` makes its one or two `ReadMemory` calls under
`g_processMutex`; the closing block of a stop callback releases the old
current thread and adds a reference to the new one under
`g_currentThreadMutex`; under the same lock `exec-next`, `exec-step` and
`exec-finish` make every call of `RunStep`, `stack-list-frames` every call of
`PrintFrames`, and `stack-list-variables` its `GetActiveFrame` and
`ListVariables`. Only the store of the process handle after the attach makes no
call under its lock. Each lock is released at the end of the operation. -/
theorem calls_under_locks (env : Env) (token line : Str) (s : Session) :
    (∀ offset cb p, s.g_process = some p →
      callsUnderLock Mutex.g_processMutex false
          ((SafeReadMemory env offset cb s).2.2.trace.drop s.trace.length) =
        (if SUCCEEDED (env.ReadMemory offset cb).1 then [Call.ReadMemory offset cb]
          else [Call.ReadMemory offset cb,
            Call.ReadMemory offset (SafeReadMemory.retryLength env offset)]) ∧
      heldAfter Mutex.g_processMutex false
          ((SafeReadMemory env offset cb s).2.2.trace.drop s.trace.length) = false) ∧
    (∀ t, callsUnderLock Mutex.g_currentThreadMutex false
          ((ManagedCallback.storeCurrentThread t s).trace.drop s.trace.length) =
        (match s.g_currentThread with
          | some old => [Call.Release old, Call.AddRef t]
          | none => [Call.AddRef t]) ∧
      heldAfter Mutex.g_currentThreadMutex false
          ((ManagedCallback.storeCurrentThread t s).trace.drop s.trace.length) = false) ∧
    (∀ t, s.g_currentThread = some t →
      (callsUnderLock Mutex.g_currentThreadMutex false
          ((cmdStep env token line s).session.trace.drop s.trace.length) =
        callsOf (RunStep env t (if line = "exec-next".toList then StepType.STEP_OVER
          else if line = "exec-step".toList then StepType.STEP_IN else StepType.STEP_OUT)).2 ∧
        heldAfter Mutex.g_currentThreadMutex false
          ((cmdStep env token line s).session.trace.drop s.trace.length) = false) ∧
      (callsUnderLock Mutex.g_currentThreadMutex false
          ((cmdStackListFrames env token s).session.trace.drop s.trace.length) =
        callsOf (PrintFrames env t []).2.2 ∧
        heldAfter Mutex.g_currentThreadMutex false
          ((cmdStackListFrames env token s).session.trace.drop s.trace.length) = false) ∧
      (callsUnderLock Mutex.g_currentThreadMutex false
          ((cmdStackListVariables env token s).session.trace.drop s.trace.length) =
        (if SUCCEEDED (env.GetActiveFrame t).1 then [Call.GetActiveFrame t, Call.ListVariables]
          else [Call.GetActiveFrame t]) ∧
        heldAfter Mutex.g_currentThreadMutex false
          ((cmdStackListVariables env token s).session.trace.drop s.trace.length) = false)) ∧
    (∀ pid s2, attachDebugger env pid = Startup.attached s2 →
      callsUnderLock Mutex.g_processMutex false s2.trace = [] ∧
      heldAfter Mutex.g_processMutex false s2.trace = false) := by
  refine ⟨?_, ?_, ?_, ?_⟩
  · intro offset cb p hp
    simp only [SafeReadMemory, Session.act_eq_acts, Session.acts_acts, Session.acts_g_process, hp]
    split_ifs <;>
      simp_all [Session.acts, drop_trace_append, callsUnderLock, heldAfter]
  · intro t
    unfold ManagedCallback.storeCurrentThread
    cases h : s.g_currentThread <;>
      simp [Session.act, h, drop_trace_append, callsUnderLock, heldAfter]
  · intro t ht
    have hR := fun st => callsUnderLock_plain Mutex.g_currentThreadMutex _ (RunStep_plain env t st)
    have hF := callsUnderLock_plain Mutex.g_currentThreadMutex _ (PrintFrames_plain env t [])
    refine ⟨?_, ?_, ?_⟩
    · simp only [cmdStep, Session.act_eq_acts, Session.acts_acts, Session.acts_g_currentThread, ht]
      split_ifs <;>
        simp [CmdResult.session, Session.acts, drop_trace_append, callsUnderLock_append,
          heldAfter_append, callsUnderLock, heldAfter, hR]
    · simp only [cmdStackListFrames, Session.act_eq_acts, Session.acts_acts,
        Session.acts_g_currentThread, ht]
      split_ifs <;>
        simp [CmdResult.session, Session.acts, drop_trace_append, callsUnderLock_append,
          heldAfter_append, callsUnderLock, heldAfter, hF]
    · simp only [cmdStackListVariables, Session.act_eq_acts, Session.acts_acts,
        Session.acts_g_currentThread, ht]
      split_ifs <;>
        simp_all [CmdResult.session, Session.acts, drop_trace_append, callsUnderLock_append,
          heldAfter_append, callsUnderLock, heldAfter]
  · intro pid s2 h
    rcases attachDebugger_shape env pid with ⟨acts, ha⟩ | ⟨acts, -, ha⟩
    · rw [ha] at h; cases h
    · revert h
      unfold attachDebugger
      simp only [Session.act_eq_acts, Session.acts_acts]
      split_ifs <;> intro h <;> cases h
      simp [Session.acts, Session.init, callsUnderLock, heldAfter]

/-- Witness of C14 (amended): `stack-list-variables` with the thread 7 current. -/
theorem calls_under_locks_witness :
    ({ Session.init with g_currentThread := some 7 } : Session).g_currentThread = some 7 ∧
    callsUnderLock Mutex.g_currentThreadMutex false
      ((cmdStackListVariables Env.sample "1".toList
        { Session.init with g_currentThread := some 7 }).session.trace.drop 0) =
      [Call.GetActiveFrame 7, Call.ListVariables] :=
  ⟨rfl, ((calls_under_locks Env.sample "1".toList "stack-list-variables ".toList
    { Session.init with g_currentThread := some 7 }).2.2.1 7 rfl).2.2.1⟩

/-! ### Disabling before `Terminate` and `Detach` -/

theorem fgetsChars_rest_le (m : Nat) :
    ∀ stdin : Str, (fgetsChars m stdin).2.length ≤ stdin.length := by
  induction m with
  | zero => intro stdin; simp [fgetsChars]
  | succ m ih =>
    intro stdin
    cases stdin with
    | nil => simp [fgetsChars]
    | cons c cs =>
      simp only [fgetsChars]
      split_ifs
      · simp
      · have := ih cs
        simp only [List.length_cons]
        omega

/-- A line read by `fgets` takes at least one character from the input. -/
theorem fgets_rest_lt (stdin inputBuffer rest : Str)
    (h : fgets 1024 stdin = some (inputBuffer, rest)) : rest.length < stdin.length := by
  simp only [fgets] at h
  split_ifs at h with h0
  cases stdin with
  | nil => exact absurd rfl h0
  | cons c cs =>
    simp only [Option.some.injEq] at h
    have hr : rest = (fgetsChars (1024 - 1) (c :: cs)).2 := by rw [h]
    rw [hr]
    simp only [Nat.add_one_sub_one, fgetsChars]
    split_ifs
    · simp
    · have := fgetsChars_rest_le 1022 cs
      simp only [List.length_cons]
      omega

/-- One iteration of the loop writes the prompt and then either leaves the
loop or runs one command on a line that took at least one character. -/
theorem loopIteration_cases (env : Env) (s : Session) (stdin : Str) :
    (∃ left, loopIteration env s stdin =
      Iteration.noLine (s.act (Act.out "(gdb)\n".toList)) left) ∨
    (∃ token line rest, rest.length < stdin.length ∧ loopIteration env s stdin =
      Iteration.ran token (execCommand env token line (s.act (Act.out "(gdb)\n".toList)))
        rest) := by
  cases hf : fgets 1024 stdin with
  | none => exact Or.inl ⟨stdin, by simp only [loopIteration, hf]⟩
  | some r =>
    obtain ⟨inputBuffer, rest⟩ := r
    cases hsp : splitInput inputBuffer with
    | none => exact Or.inl ⟨rest, by simp only [loopIteration, hf, hsp]⟩
    | some tl =>
      obtain ⟨token, line⟩ := tl
      exact Or.inr ⟨token, line, rest, fgets_rest_lt stdin inputBuffer rest hf,
        by simp only [loopIteration, hf, hsp]⟩

/-- The fuel given to the command loop by `afterAttach` is never used up. -/
theorem runLoop_fuel (w : World) (fuel : Nat) :
    ∀ (n : Nat) (s : Session) (stdin : Str), stdin.length < fuel →
      ∀ s2, runLoop w fuel n s stdin ≠ LoopEnd.outOfFuel s2 := by
  induction fuel with
  | zero => intro n s stdin h; omega
  | succ fuel ih =>
    intro n s stdin h s2
    rcases loopIteration_cases (w.during n) (deliverAll (w.during n) (w.arriving n) s) stdin with
      ⟨left, hi⟩ | ⟨token, line, rest, hlt, hi⟩
    · simp only [runLoop, hi]
      exact fun h => by cases h
    · simp only [runLoop, hi]
      cases hc : execCommand (w.during n) token line
          ((deliverAll (w.during n) (w.arriving n) s).act (Act.out "(gdb)\n".toList)) with
      | next s3 => exact ih (n + 1) s3 rest (by omega) s2
      | stopFailed s3 => exact fun h => by cases h
      | terminated s3 => exact fun h => by cases h
      | uncaught e s3 => exact fun h => by cases h

/-- A run of `main` never ends for lack of fuel: it returns, waits for ever
for `g_processExited`, or is left by an exception. -/
theorem main_never_outOfFuel (w : World) (args : List Str) (stdin : Str) (s : Session) :
    main w args stdin ≠ MainEnd.outOfFuel s := by
  simp only [main]
  cases hs : startup w.startup args with
  | exit code s1 => exact fun h => by cases h
  | attached s1 =>
    simp only [afterAttach]
    cases hr : runLoop w (stdin.length + 1) 0 s1 stdin with
    | left token released s2 => exact fun h => by cases h
    | waiting token s2 =>
      simp only []
      split_ifs <;> exact fun h => by cases h
    | uncaught e s2 => exact fun h => by cases h
    | outOfFuel s2 => exact absurd hr (runLoop_fuel w _ 0 s1 stdin (Nat.lt_succ_self _) s2)

/-- The calls of the run used as witness of C11. -/
theorem main_gdb_exit_sample :
    callsOf (main (World.steady Env.withDomain [Event.ExitProcess])
      ["--attach".toList, "42".toList] "-gdb-exit\n".toList).session.trace =
      [Call.SetCoreCLRPath "/usr/share/dotnet/libcoreclr.so".toList,
        Call.CreateVersionStringFromModule 42, Call.CreateDebuggingInterfaceFromVersionEx,
        Call.QueryICorDebug, Call.Initialize, Call.SetManagedHandler, Call.CanLaunchOrAttach 42,
        Call.DebugActiveProcess 42, Call.Stop, Call.EnumerateAppDomains,
        Call.EnumerateBreakpoints 1, Call.Activate 1 false, Call.DeleteAllBreakpoints,
        Call.EnumerateSteppers 1, Call.Deactivate 2, Call.Terminate, Call.ReleaseProcess,
        Call.CorDebugTerminate] := by
  decide

end Netcoredbg
